import Mathlib

/-!
Shallow embedding of the `openalex-types` record normalization and flattening
engine (pydantic models in `src/openalex_types/`), together with proofs about
the claims of the specification.

Raw JSON records are modelled as insertion-ordered association lists
(`RawObj`), mirroring Python dicts.  Pydantic model construction is modelled
as an `Except String` parser per model class, applying the `mode="before"`
model validators (in pydantic v2 these run in reverse definition order), then
field coercion together with the field validators, then the `mode="after"`
model validators.  SQL row projection follows `SQLTable.to_sql_values` and
hydration follows the `from_sql` static methods (tuple/`subtables` branch).
-/

set_option maxHeartbeats 1000000

namespace OpenAlex

/-! ## Naive datetimes

Python `datetime` values as they appear in this code base: zone-naive,
second precision.  `isoformat` renders `YYYY-MM-DDTHH:MM:SS`; `parseIso`
models `datetime.fromisoformat` on exactly that shape (the timezone and
sub-second forms accepted by CPython are not exercised by the library's
normalized values and are not modelled: on them the model's parse fails). -/

structure ADT where
  year : Nat
  month : Nat
  day : Nat
  hour : Nat
  minute : Nat
  second : Nat
  deriving DecidableEq, Repr

/-- Decimal digit character for `n % 10`. -/
def dchar (n : Nat) : Char :=
  ['0', '1', '2', '3', '4', '5', '6', '7', '8', '9'].getD (n % 10) '9'

/-- Numeric value of a decimal digit character, if it is one. -/
def digitVal (c : Char) : Option Nat :=
  if 48 ≤ c.toNat ∧ c.toNat ≤ 57 then some (c.toNat - 48) else none

/-- Two-digit decimal number from two characters. -/
def d2 (a b : Char) : Option Nat := do
  let x ← digitVal a
  let y ← digitVal b
  pure (x * 10 + y)

/-- Four-digit decimal number from four characters. -/
def d4 (a b c d : Char) : Option Nat := do
  let x ← digitVal a
  let y ← digitVal b
  let z ← digitVal c
  let w ← digitVal d
  pure (x * 1000 + y * 100 + z * 10 + w)

def ADT.isoChars (t : ADT) : List Char :=
  [dchar (t.year / 1000), dchar (t.year / 100), dchar (t.year / 10), dchar t.year, '-',
   dchar (t.month / 10), dchar t.month, '-',
   dchar (t.day / 10), dchar t.day, 'T',
   dchar (t.hour / 10), dchar t.hour, ':',
   dchar (t.minute / 10), dchar t.minute, ':',
   dchar (t.second / 10), dchar t.second]

/-- `datetime.isoformat()` of a naive second-precision datetime. -/
def ADT.isoformat (t : ADT) : String := String.mk t.isoChars

/-- Field ranges a `datetime` value always satisfies (day simplified to 31). -/
def ADT.Valid (t : ADT) : Prop :=
  t.year ≤ 9999 ∧ 1 ≤ t.month ∧ t.month ≤ 12 ∧ 1 ≤ t.day ∧ t.day ≤ 31 ∧
    t.hour ≤ 23 ∧ t.minute ≤ 59 ∧ t.second ≤ 59

instance (t : ADT) : Decidable t.Valid := by unfold ADT.Valid; infer_instance

/-- Model of `datetime.fromisoformat` on `YYYY-MM-DD(T| )HH:MM:SS`. -/
def parseIsoChars : List Char → Option ADT
  | [y3, y2, y1, y0, ha, mo1, mo0, hb, da1, da0, sep, h1, h0, ca, mi1, mi0, cb, s1, s0] =>
    if ha = '-' ∧ hb = '-' ∧ (sep = 'T' ∨ sep = ' ') ∧ ca = ':' ∧ cb = ':' then
      match d4 y3 y2 y1 y0, d2 mo1 mo0, d2 da1 da0, d2 h1 h0, d2 mi1 mi0, d2 s1 s0 with
      | some yr, some mo, some da, some ho, some mi, some se =>
        if 1 ≤ mo ∧ mo ≤ 12 ∧ 1 ≤ da ∧ da ≤ 31 ∧ ho ≤ 23 ∧ mi ≤ 59 ∧ se ≤ 59 then
          some ⟨yr, mo, da, ho, mi, se⟩
        else none
      | _, _, _, _, _, _ => none
    else none
  | _ => none

def parseIso (s : String) : Option ADT := parseIsoChars s.data

/-- `value.replace("Z", "+00:00")` (the replaced pattern is one character). -/
def replaceZ (s : String) : String :=
  String.mk (s.data.flatMap fun c => if c = 'Z' then ['+', '0', '0', ':', '0', '0'] else [c])

/-! ## Raw JSON values and Python-dict association lists -/

inductive JVal where
  | null : JVal
  | str : String → JVal
  | num : ℚ → JVal
  | bool : Bool → JVal
  | arr : List JVal → JVal
  | obj : List (String × JVal) → JVal
  | dt : ADT → JVal
  deriving Repr

mutual

def decEqJ : (a b : JVal) → Decidable (a = b)
  | .null, .null => .isTrue rfl
  | .null, .str _ => .isFalse nofun
  | .null, .num _ => .isFalse nofun
  | .null, .bool _ => .isFalse nofun
  | .null, .arr _ => .isFalse nofun
  | .null, .obj _ => .isFalse nofun
  | .null, .dt _ => .isFalse nofun
  | .str _, .null => .isFalse nofun
  | .str a, .str b =>
    match decEq a b with
    | .isTrue h => .isTrue (h ▸ rfl)
    | .isFalse h => .isFalse fun he => by injection he with h2; exact h h2
  | .str _, .num _ => .isFalse nofun
  | .str _, .bool _ => .isFalse nofun
  | .str _, .arr _ => .isFalse nofun
  | .str _, .obj _ => .isFalse nofun
  | .str _, .dt _ => .isFalse nofun
  | .num _, .null => .isFalse nofun
  | .num _, .str _ => .isFalse nofun
  | .num a, .num b =>
    match decEq a b with
    | .isTrue h => .isTrue (h ▸ rfl)
    | .isFalse h => .isFalse fun he => by injection he with h2; exact h h2
  | .num _, .bool _ => .isFalse nofun
  | .num _, .arr _ => .isFalse nofun
  | .num _, .obj _ => .isFalse nofun
  | .num _, .dt _ => .isFalse nofun
  | .bool _, .null => .isFalse nofun
  | .bool _, .str _ => .isFalse nofun
  | .bool _, .num _ => .isFalse nofun
  | .bool a, .bool b =>
    match decEq a b with
    | .isTrue h => .isTrue (h ▸ rfl)
    | .isFalse h => .isFalse fun he => by injection he with h2; exact h h2
  | .bool _, .arr _ => .isFalse nofun
  | .bool _, .obj _ => .isFalse nofun
  | .bool _, .dt _ => .isFalse nofun
  | .arr _, .null => .isFalse nofun
  | .arr _, .str _ => .isFalse nofun
  | .arr _, .num _ => .isFalse nofun
  | .arr _, .bool _ => .isFalse nofun
  | .arr a, .arr b =>
    match decEqLJ a b with
    | .isTrue h => .isTrue (h ▸ rfl)
    | .isFalse h => .isFalse fun he => by injection he with h2; exact h h2
  | .arr _, .obj _ => .isFalse nofun
  | .arr _, .dt _ => .isFalse nofun
  | .obj _, .null => .isFalse nofun
  | .obj _, .str _ => .isFalse nofun
  | .obj _, .num _ => .isFalse nofun
  | .obj _, .bool _ => .isFalse nofun
  | .obj _, .arr _ => .isFalse nofun
  | .obj a, .obj b =>
    match decEqOJ a b with
    | .isTrue h => .isTrue (h ▸ rfl)
    | .isFalse h => .isFalse fun he => by injection he with h2; exact h h2
  | .obj _, .dt _ => .isFalse nofun
  | .dt _, .null => .isFalse nofun
  | .dt _, .str _ => .isFalse nofun
  | .dt _, .num _ => .isFalse nofun
  | .dt _, .bool _ => .isFalse nofun
  | .dt _, .arr _ => .isFalse nofun
  | .dt _, .obj _ => .isFalse nofun
  | .dt a, .dt b =>
    match decEq a b with
    | .isTrue h => .isTrue (h ▸ rfl)
    | .isFalse h => .isFalse fun he => by injection he with h2; exact h h2

def decEqLJ : (a b : List JVal) → Decidable (a = b)
  | [], [] => .isTrue rfl
  | [], _ :: _ => .isFalse nofun
  | _ :: _, [] => .isFalse nofun
  | x :: xs, y :: ys =>
    match decEqJ x y with
    | .isFalse h => .isFalse fun he => by injection he with h1 h2; exact h h1
    | .isTrue h1 =>
      match decEqLJ xs ys with
      | .isTrue h2 => .isTrue (by rw [h1, h2])
      | .isFalse h2 => .isFalse fun he => by injection he with ha hb; exact h2 hb

def decEqOJ : (a b : List (String × JVal)) → Decidable (a = b)
  | [], [] => .isTrue rfl
  | [], _ :: _ => .isFalse nofun
  | _ :: _, [] => .isFalse nofun
  | (k, v) :: xs, (k', v') :: ys =>
    match decEq k k' with
    | .isFalse h => .isFalse fun he => by
        injection he with h1 h2
        exact h (congrArg Prod.fst h1)
    | .isTrue hk =>
      match decEqJ v v' with
      | .isFalse h => .isFalse fun he => by
          injection he with h1 h2
          exact h (congrArg Prod.snd h1)
      | .isTrue hv =>
        match decEqOJ xs ys with
        | .isTrue h2 => .isTrue (by rw [hk, hv, h2])
        | .isFalse h2 => .isFalse fun he => by injection he with ha hb; exact h2 hb

end

instance : DecidableEq JVal := decEqJ

/-- A Python dict: insertion-ordered keys, first binding wins on lookup. -/
abbrev RawObj := List (String × JVal)

/-- `obj[k]` as an optional lookup. -/
def rget : RawObj → String → Option JVal
  | [], _ => none
  | (k', v) :: r, k => if k' = k then some v else rget r k

/-- `obj[k] = v`: update in place if present (keeping position), else append. -/
def rset : RawObj → String → JVal → RawObj
  | [], k, v => [(k, v)]
  | (k', v') :: r, k, v => if k' = k then (k', v) :: r else (k', v') :: rset r k v

/-- Delete a key (used to compare a record against one omitting a field). -/
def rdel : RawObj → String → RawObj
  | [], _ => []
  | (k', v) :: r, k => if k' = k then rdel r k else (k', v) :: rdel r k

/-- `utils.check`: `arg_name` present in the mapping and not `None`. -/
def check (k : String) (r : RawObj) : Bool :=
  match rget r k with
  | none => false
  | some .null => false
  | some _ => true

/-- Substring test on character lists (Python `needle in haystack` for `str`). -/
def containsSub (needle : List Char) : List Char → Bool
  | [] => needle.isEmpty
  | c :: rest => (needle.isPrefixOf (c :: rest)) || containsSub needle rest

/-! ## JSON serialization (`orjson.dumps`) -/

def jsonEscChar (c : Char) : List Char :=
  if c = '"' then ['\\', '"'] else if c = '\\' then ['\\', '\\'] else [c]

def jsonStr (s : String) : List Char :=
  '"' :: s.data.flatMap jsonEscChar ++ ['"']

/-- Render a rational that came from a JSON number (integers without a dot). -/
def jsonNum (q : ℚ) : List Char :=
  if q.den = 1 then (toString q.num).data else (toString q).data

mutual

def jsonDumpVal : JVal → List Char
  | .null => ['n', 'u', 'l', 'l']
  | .str s => jsonStr s
  | .num q => jsonNum q
  | .bool b => if b then ['t', 'r', 'u', 'e'] else ['f', 'a', 'l', 's', 'e']
  | .arr xs => '[' :: jsonDumpArr xs ++ [']']
  | .obj kvs => '{' :: jsonDumpObj kvs ++ ['}']
  | .dt t => jsonStr t.isoformat

def jsonDumpArr : List JVal → List Char
  | [] => []
  | [x] => jsonDumpVal x
  | x :: y :: r => jsonDumpVal x ++ ',' :: jsonDumpArr (y :: r)

def jsonDumpObj : List (String × JVal) → List Char
  | [] => []
  | [(k, v)] => jsonStr k ++ ':' :: jsonDumpVal v
  | (k, v) :: p :: r => (jsonStr k ++ ':' :: jsonDumpVal v) ++ ',' :: jsonDumpObj (p :: r)

end

/-- `orjson.dumps(x).decode()`. -/
def jsonDump (v : JVal) : String := String.mk (jsonDumpVal v)

/-! ## SQL row values and `to_sql_values` scalar conversion -/

inductive SQLValue where
  | null : SQLValue
  | str : String → SQLValue
  | num : ℚ → SQLValue
  | bool : Bool → SQLValue
  | dt : ADT → SQLValue
  deriving DecidableEq, Repr

/-- The ISO-datetime reparse heuristic of `SQLTable.to_sql_values` applied to
a string column value: strings of length ≥ 10 with dashes at positions 4 and 7
are tentatively parsed back into datetimes. -/
def strToSql (s : String) : SQLValue :=
  if s.length ≥ 10 ∧ s.data.getD 4 ' ' = '-' ∧ s.data.getD 7 ' ' = '-' then
    let parsed :=
      if s.data.contains 'T' ∨ s.data.contains ' ' then parseIso (replaceZ s)
      else parseIsoChars (s.data ++ ['T', '0', '0', ':', '0', '0', ':', '0', '0'])
    match parsed with
    | some t => .dt t
    | none => .str s
  else .str s

def sqlOfOptStr : Option String → SQLValue
  | none => .null
  | some s => strToSql s

def sqlOfOptInt : Option ℤ → SQLValue
  | none => .null
  | some n => .num n

def sqlOfOptRat : Option ℚ → SQLValue
  | none => .null
  | some q => .num q

def sqlOfOptBool : Option Bool → SQLValue
  | none => .null
  | some b => .bool b

def sqlOfOptObj : Option RawObj → SQLValue
  | none => .null
  | some o => .str (jsonDump (.obj o))

/-- Tuple value back to the Python value `from_sql` hands to the model. -/
def sqlToJVal : SQLValue → JVal
  | .null => .null
  | .str s => .str s
  | .num q => .num q
  | .bool b => .bool b
  | .dt t => .dt t

/-- `dict(zip(order, t))`: build the keyword arguments of `from_sql`. -/
def zipToObj (order : List String) (t : List SQLValue) : RawObj :=
  (order.zip t).map fun p => (p.1, sqlToJVal p.2)

/-! ## Pydantic field coercion

One parser per declared semantic type.  An optional field is absent when the
key is missing or the value is `None`.  Lax coercions that the library's
inputs never exercise (numeric strings to numbers, ints to bools, epoch
numbers to datetimes) are not modelled: on them the model's parse fails. -/

def pOpt (f : JVal → Except String α) : Option JVal → Except String (Option α)
  | none => .ok none
  | some .null => .ok none
  | some v => (f v).map some

def pStr : JVal → Except String String
  | .str s => .ok s
  | _ => .error "str expected"

def pReqStr : Option JVal → Except String String
  | none => .error "field required"
  | some (.str s) => .ok s
  | some _ => .error "str expected"

def pInt : JVal → Except String ℤ
  | .num q => if q.den = 1 then .ok q.num else .error "int expected"
  | _ => .error "int expected"

def pReqInt : Option JVal → Except String ℤ
  | none => .error "field required"
  | some v => pInt v

def pRat : JVal → Except String ℚ
  | .num q => .ok q
  | _ => .error "number expected"

def pBool : JVal → Except String Bool
  | .bool b => .ok b
  | _ => .error "bool expected"

/-- `Literal[...]` fields. -/
def pLit (allowed : List String) : JVal → Except String String
  | .str s => if allowed.contains s then .ok s else .error "unexpected literal value"
  | _ => .error "str expected"

def pStrList : JVal → Except String (List String)
  | .arr xs => xs.mapM pStr
  | _ => .error "list expected"

def pIntList : JVal → Except String (List ℤ)
  | .arr xs => xs.mapM pInt
  | _ => .error "list expected"

def pRatList : JVal → Except String (List ℚ)
  | .arr xs => xs.mapM pRat
  | _ => .error "list expected"

/-- `CountryCode`: a string of length exactly 2. -/
def pCountry : JVal → Except String String
  | .str s => if s.length = 2 then .ok s else .error "country code length"
  | _ => .error "str expected"

/-- `Optional[dict]` fields keep the raw mapping. -/
def pDict : JVal → Except String RawObj
  | .obj o => .ok o
  | _ => .error "dict expected"

/-- Pydantic `datetime` validation: a datetime value, a full ISO string, or a
date-only ISO string (midnight). -/
def pDatetime : JVal → Except String ADT
  | .dt t => .ok t
  | .str s =>
    match parseIso s with
    | some t => .ok t
    | none =>
      match parseIsoChars (s.data ++ ['T', '0', '0', ':', '0', '0', ':', '0', '0']) with
      | some t => .ok t
      | none => .error "datetime expected"
  | _ => .error "datetime expected"

/-- `Date8601`: datetime validation then the `check_8601` after-validator,
which replaces the value by `dt.isoformat()` (a string). -/
def pDate8601 (v : JVal) : Except String String := (pDatetime v).map ADT.isoformat

/-- `DateTimeNoTZ`: datetime validation then `no_tz` (format to whole seconds,
re-parse zone-naive, isoformat).  On the naive second-precision datetimes of
this model that is the plain isoformat. -/
def pDateNoTZ (v : JVal) : Except String String := (pDatetime v).map ADT.isoformat

/-- `AnyUrl`, modelled as a string that carries a scheme separator. -/
def pUrl : JVal → Except String String
  | .str s => if containsSub ['+', ':', '/', '/'] s.data ∨ containsSub [':', '/', '/'] s.data
      then .ok s else .error "url expected"
  | _ => .error "url expected"

/-! ## Canonical structures (the pydantic model classes)

One Lean structure per model class, same fields, same optionality.  The
three `BaseWorkLocation` subclasses differ only in SQL table name, so they
share the structure.  Annotated-datetime fields hold the string the
after-validator produces. -/

structure DehydratedAuthor where
  id : String
  display_name : Option String := none
  orcid : Option String := none
  deriving DecidableEq, Repr

structure DehydratedInstitution where
  id : String
  country_code : Option String := none
  display_name : Option String := none
  ror : Option String := none
  type : Option String := none
  lineage : Option (List String) := none
  deriving DecidableEq, Repr

structure DehydratedSource where
  id : String
  issn_l : Option String := none
  display_name : Option String := none
  is_oa : Option Bool := none
  is_in_doaj : Option Bool := none
  issn : Option (List String) := none
  host_organization : Option String := none
  host_organization_lineage : Option (List String) := none
  host_organization_name : Option String := none
  is_core : Option Bool := none
  type : Option String := none
  deriving DecidableEq, Repr

structure SourceAPC where
  price : Option ℤ := none
  currency : Option String := none
  deriving DecidableEq, Repr

structure SourceCountByYear where
  source_id : String
  year : ℤ
  works_count : Option ℤ := none
  cited_by_count : Option ℤ := none
  oa_works_count : Option ℤ := none
  deriving DecidableEq, Repr

structure SourceIDs where
  source_id : String
  openalex : Option String := none
  issn_l : Option String := none
  issn : Option (List String) := none
  mag : Option ℤ := none
  wikidata : Option String := none
  fatcat : Option String := none
  deriving DecidableEq, Repr

structure SummaryStats where
  twoyr_mean_citedness : Option ℚ := none
  h_index : Option ℤ := none
  i10_index : Option ℤ := none
  deriving DecidableEq, Repr

structure Role where
  role : String
  id : String
  works_count : ℤ
  deriving DecidableEq, Repr

structure Source where
  id : String
  issn_l : Option String := none
  display_name : Option String := none
  publisher : Option String := none
  works_count : Option ℤ := none
  cited_by_count : Option ℤ := none
  is_oa : Option Bool := none
  is_in_doaj : Option Bool := none
  homepage_url : Option String := none
  works_api_url : Option String := none
  updated_date : Option String := none
  issn : Option (List String) := none
  abbreviated_title : Option String := none
  alternate_titles : Option (List String) := none
  apc_prices : Option (List SourceAPC) := none
  apc_usd : Option ℤ := none
  country_code : Option String := none
  counts_by_year : Option (List SourceCountByYear) := none
  host_organization : Option String := none
  host_organization_lineage : Option (List String) := none
  host_organization_name : Option String := none
  ids : Option SourceIDs := none
  is_core : Option Bool := none
  summary_stats : Option SummaryStats := none
  type : Option String := none
  deriving DecidableEq, Repr

structure BaseWorkLocation where
  work_id : Option String := none
  source_id : Option String := none
  landing_page_url : Option String := none
  pdf_url : Option String := none
  is_oa : Option Bool := none
  version : Option String := none
  license : Option String := none
  source : Option Source := none
  is_accepted : Option Bool := none
  is_published : Option Bool := none
  deriving DecidableEq, Repr

structure WorkAuthorship where
  work_id : Option String := none
  author_position : Option String := none
  author_id : Option String := none
  institution_id : Option String := none
  raw_affiliation_string : Option String := none
  author : Option DehydratedAuthor := none
  countries : Option (List String) := none
  institutions : Option (List DehydratedInstitution) := none
  is_corresponding : Option Bool := none
  raw_author_name : Option String := none
  deriving DecidableEq, Repr

structure WorkBiblio where
  work_id : Option String := none
  volume : Option String := none
  issue : Option String := none
  first_page : Option String := none
  last_page : Option String := none
  deriving DecidableEq, Repr

structure WorkTopic where
  work_id : Option String := none
  topic_id : Option String := none
  score : Option ℚ := none
  subfield : Option RawObj := none
  deriving DecidableEq, Repr

structure WorkConcept where
  work_id : Option String := none
  concept_id : Option String := none
  score : Option ℚ := none
  deriving DecidableEq, Repr

structure WorkIDs where
  work_id : String
  openalex : Option String := none
  doi : Option String := none
  mag : Option ℤ := none
  pmid : Option String := none
  pmcid : Option String := none
  deriving DecidableEq, Repr

structure WorkMesh where
  work_id : Option String := none
  descriptor_ui : Option String := none
  descriptor_name : Option String := none
  qualifier_ui : Option String := none
  qualifier_name : Option String := none
  is_major_topic : Option Bool := none
  deriving DecidableEq, Repr

structure NomicEmbedText768 where
  work_id : Option String := none
  embedding : Option (List ℚ) := none
  deriving DecidableEq, Repr

structure WorkOpenAccess where
  work_id : Option String := none
  is_oa : Option Bool := none
  oa_status : Option String := none
  oa_url : Option String := none
  any_repository_has_fulltext : Option Bool := none
  deriving DecidableEq, Repr

structure WorkReferencedWork where
  work_id : Option String := none
  referenced_work_id : Option String := none
  deriving DecidableEq, Repr

structure WorkRelatedWork where
  work_id : Option String := none
  related_work_id : Option String := none
  deriving DecidableEq, Repr

structure WorkAPC where
  value : Option ℤ := none
  currency : Option String := none
  provenance : Option String := none
  value_usd : Option ℤ := none
  deriving DecidableEq, Repr

structure WorkCountByYear where
  year : ℤ
  cited_by_count : ℤ
  deriving DecidableEq, Repr

structure WorkGrant where
  funder : Option String := none
  funder_display_name : Option String := none
  award_id : Option String := none
  deriving DecidableEq, Repr

structure WorkKeyword where
  id : Option String := none
  display_name : Option String := none
  score : Option ℚ := none
  deriving DecidableEq, Repr

structure WorkSDG where
  id : Option String := none
  display_name : Option String := none
  score : Option ℚ := none
  deriving DecidableEq, Repr

structure Work where
  id : String
  doi : Option String := none
  title : Option String := none
  display_name : Option String := none
  publication_year : Option ℤ := none
  publication_date : Option String := none
  type : Option String := none
  cited_by_count : Option ℤ := none
  is_retracted : Option Bool := none
  is_paratext : Option Bool := none
  cited_by_api_url : Option String := none
  abstract_inverted_index : Option RawObj := none
  language : Option String := none
  ids : Option WorkIDs := none
  locations : Option (List BaseWorkLocation) := none
  authorships : Option (List WorkAuthorship) := none
  biblio : Option WorkBiblio := none
  topics : Option (List WorkTopic) := none
  concepts : Option (List WorkConcept) := none
  mesh : Option (List WorkMesh) := none
  open_access : Option WorkOpenAccess := none
  referenced_works : Option (List WorkReferencedWork) := none
  related_works : Option (List WorkRelatedWork) := none
  apc_list : Option WorkAPC := none
  apc_paid : Option WorkAPC := none
  best_oa_location : Option BaseWorkLocation := none
  corresponding_author_ids : Option (List String) := none
  corresponding_institution_ids : Option (List String) := none
  countries_distinct_count : Option ℤ := none
  created_date : Option String := none
  counts_by_year : Option (List WorkCountByYear) := none
  fulltext_origin : Option String := none
  fwci : Option ℚ := none
  grants : Option (List WorkGrant) := none
  has_fulltext : Option Bool := none
  indexed_in : Option (List String) := none
  institutions_distinct_count : Option ℤ := none
  keywords : Option (List WorkKeyword) := none
  license : Option String := none
  locations_count : Option ℤ := none
  primary_location : Option BaseWorkLocation := none
  primary_topic : Option WorkTopic := none
  sustainable_development_goals : Option (List WorkSDG) := none
  type_crossref : Option String := none
  updated_date : Option String := none
  abstract_embedding_nomic_embed_text : Option NomicEmbedText768 := none
  deriving DecidableEq, Repr

/-! ## Before-validator building blocks

The `mode="before"` model validators mutate the raw mapping.  `self["id"]`
on a mapping without the key is a `KeyError`; iterating or indexing a value
of the wrong shape is a `TypeError`; both abort construction, modelled as
`Except.error`.  An empty list is left untouched (the loop body never runs,
so `self["id"]` is not even read). -/

def getId (r : RawObj) : Except String JVal :=
  match rget r "id" with
  | some v => .ok v
  | none => .error "KeyError: id"

/-- `element[fk] = idv` for one element of a one-to-many subentity list; a
non-dict element is a `TypeError`. -/
def repElem (fk : String) (idv : JVal) : JVal → Except String JVal
  | .obj o => .ok (.obj (rset o fk idv))
  | _ => .error "TypeError: element not a dict"

/-- Inject the root identifier under `fk` into every element of list field
`field` (identifier replication for a one-to-many subentity). -/
def replicateListFK (field fk : String) (r : RawObj) : Except String RawObj :=
  match rget r field with
  | none => .ok r
  | some .null => .ok r
  | some (.arr []) => .ok r
  | some (.arr xs) => do
    let idv ← getId r
    let xs' ← xs.mapM (repElem fk idv)
    .ok (rset r field (.arr xs'))
  | some _ => .error "TypeError: not a list of dicts"

/-- Inject the root identifier under `fk` into the nested dict field `field`
(identifier replication for a one-to-one subentity). -/
def replicateObjFK (field fk : String) (r : RawObj) : Except String RawObj :=
  match rget r field with
  | none => .ok r
  | some .null => .ok r
  | some (.obj o) => do
    let idv ← getId r
    .ok (rset r field (.obj (rset o fk idv)))
  | some _ => .error "TypeError: not a dict"

/-- `_construct_dict_from_id` applied elementwise: wrap each bare identifier
of a self-referential list field into the two-column relation dict.  A
non-list value is a runtime type error (in Python it surfaces at the latest
when pydantic coerces the field). -/
def wrapRelField (field : String) (r : RawObj) : Except String RawObj :=
  match rget r field with
  | none => .ok r
  | some .null => .ok r
  | some (.arr []) => .ok r
  | some (.arr xs) => do
    let idv ← getId r
    .ok (rset r field (.arr (xs.map fun x => JVal.obj [("id", x), ("work_id", idv)])))
  | some _ => .error "TypeError: not a list"

/-- One institution of an authorship: the fanned-out copy of the authorship
dict `a` for institution `inst`, carrying that institution's id and a
singleton `institutions` list. -/
def expandInst (a : RawObj) : JVal → Except String JVal
  | .obj io =>
    match rget io "id" with
    | some iid =>
      .ok (JVal.obj (rset (rset a "institution_id" iid) "institutions" (.arr [.obj io])))
    | none => Except.error "KeyError: id"
  | _ => Except.error "TypeError: institution not a dict"

/-- One authorship entry of `_flatten_authorships`: an entry with N ≥ 1
institutions becomes N copies, one per institution; otherwise the entry
passes through unchanged.  The non-dict cases mirror Python's dynamic
behaviour of `check` (`in` is substring search on strings, membership on
lists, and a `TypeError` elsewhere). -/
def expandAuth : JVal → Except String (List JVal)
  | .obj a =>
    if check "institutions" a then
      match rget a "institutions" with
      | some (.arr []) => .ok [.obj a]
      | some (.arr insts) => insts.mapM (expandInst a)
      | some (.str s) => if s.isEmpty then .ok [.obj a] else .error "TypeError"
      | some (.obj []) => .ok [.obj a]
      | some _ => .error "TypeError"
      | none => .ok [.obj a]
    else .ok [.obj a]
  | .str s =>
    if containsSub "institutions".data s.data then .error "TypeError"
    else .ok [.str s]
  | .arr xs =>
    if xs.contains (.str "institutions") then .error "TypeError"
    else .ok [.arr xs]
  | _ => .error "TypeError: argument not iterable"

/-! ## Work before-validators (`mode="before"`, run in reverse definition
order in pydantic v2; their relative order is immaterial here since they
touch disjoint fields or commute). -/

namespace Work

def rep1 (r : RawObj) : Except String RawObj := do
  let r ← replicateListFK "counts_by_year" "author_id" r
  let r ← replicateObjFK "ids" "work_id" r
  let r ← replicateListFK "locations" "work_id" r
  let r ← replicateListFK "authorships" "work_id" r
  replicateObjFK "biblio" "work_id" r

def rep2 (r : RawObj) : Except String RawObj := do
  let r ← replicateListFK "topics" "work_id" r
  let r ← replicateListFK "concepts" "work_id" r
  let r ← replicateListFK "mesh" "work_id" r
  replicateObjFK "open_access" "work_id" r

def rep3 (r : RawObj) : Except String RawObj := do
  let r ← replicateObjFK "best_oa_location" "work_id" r
  let r ← replicateObjFK "primary_location" "work_id" r
  replicateListFK "locations" "work_id" r

def wrapRefRel (r : RawObj) : Except String RawObj := do
  let r ← wrapRelField "related_works" r
  wrapRelField "referenced_works" r

def flattenAuths (r : RawObj) : Except String RawObj :=
  match rget r "authorships" with
  | none => .ok r
  | some .null => .ok r
  | some (.arr xs) => do
    let ys ← xs.mapM expandAuth
    .ok (rset r "authorships" (.arr ys.flatten))
  | some _ => .error "TypeError: not a list"

def before (r : RawObj) : Except String RawObj := do
  let r ← flattenAuths r
  let r ← wrapRefRel r
  let r ← rep3 r
  let r ← rep2 r
  rep1 r

end Work

/-! ## Work field validators -/

/-- `_validate_best_oa_location`: a present best-OA location whose `is_oa`
is not truthy (absent, `None` or `False`) is rejected. -/
def validateBestOA : Option BaseWorkLocation → Except String (Option BaseWorkLocation)
  | none => .ok none
  | some loc =>
    match loc.is_oa with
    | some true => .ok (some loc)
    | _ => .error "best_oa_location must be OA."

/-- `_validate_abstract_inverted_index`: an empty index collapses to
`None`. -/
def validateAbstractIndex : Option RawObj → Option RawObj
  | none => none
  | some l => if l.isEmpty then none else some l

/-! ## Derived abstract -/

/-- Python `int(y)` on the values this code can see. -/
def intOfJVal : JVal → Except String ℤ
  | .num q => .ok (q.num.tdiv (q.den : ℤ))
  | .bool b => .ok (if b then 1 else 0)
  | .str s =>
    match s.toInt? with
    | some n => .ok n
    | none => .error "invalid literal for int()"
  | _ => .error "int() argument"

/-- Python list assignment `abs_[position] = word`, with negative indexing
from the end and `IndexError` out of range. -/
def setAt (l : List String) (p : ℤ) (w : String) : Except String (List String) :=
  let i : ℤ := if p < 0 then p + l.length else p
  if 0 ≤ i ∧ i < l.length then .ok (l.set i.toNat w) else .error "IndexError"

/-- `_construct_abstract_from_index` on a present index: collect all
positions, allocate `max + 1` slots, place each word at each of its
positions (in dict iteration order), join with single spaces.  A value that
is not a list of int-coercible entries is a runtime error. -/
def constructAbstractFromIndex (index : RawObj) : Except String String := do
  let lists ← index.mapM fun kv =>
    match kv.2 with
    | .arr ys => ys.mapM intOfJVal
    | _ => Except.error "TypeError: positions not iterable"
  let flat := lists.flatten
  match flat.max? with
  | none => .ok ""
  | some m => do
    let slots := List.replicate (max (m + 1) 0).toNat ""
    let slots ← index.foldlM (fun acc kv =>
      match kv.2 with
      | .arr ys => ys.foldlM (fun acc2 y => do
          let p ← intOfJVal y
          setAt acc2 p kv.1) acc
      | _ => Except.error "TypeError: positions not iterable") slots
    .ok (String.intercalate " " slots)

/-- The `abstract` computed property: `None` for an absent index, otherwise
the reconstruction. -/
def Work.abstract (w : Work) : Except String (Option String) :=
  match w.abstract_inverted_index with
  | none => .ok none
  | some idx => (constructAbstractFromIndex idx).map some

/-! ## Sub-model parsers (pydantic construction per model class) -/

/-- `AliasChoices`: the first present key wins. -/
def alookup (o : RawObj) : List String → Option JVal
  | [] => none
  | k :: rest =>
    match rget o k with
    | some v => some v
    | none => alookup o rest

def pObjWith (f : RawObj → Except String α) : JVal → Except String α
  | .obj o => f o
  | _ => .error "dict expected"

def parseDehydratedAuthor (o : RawObj) : Except String DehydratedAuthor := do
  let id ← pReqStr (rget o "id")
  let display_name ← pOpt pStr (rget o "display_name")
  let orcid ← pOpt pStr (rget o "orcid")
  pure { id := id, display_name := display_name, orcid := orcid }

def parseDehydratedInstitution (o : RawObj) : Except String DehydratedInstitution := do
  let id ← pReqStr (rget o "id")
  let country_code ← pOpt pCountry (rget o "country_code")
  let display_name ← pOpt pStr (rget o "display_name")
  let ror ← pOpt pStr (rget o "ror")
  let type ← pOpt pStr (rget o "type")
  let lineage ← pOpt pStrList (rget o "lineage")
  pure { id := id, country_code := country_code, display_name := display_name,
         ror := ror, type := type, lineage := lineage }

def parseDehydratedSource (o : RawObj) : Except String DehydratedSource := do
  let id ← pReqStr (rget o "id")
  let issn_l ← pOpt pStr (rget o "issn_l")
  let display_name ← pOpt pStr (rget o "display_name")
  let is_oa ← pOpt pBool (rget o "is_oa")
  let is_in_doaj ← pOpt pBool (rget o "is_in_doaj")
  let issn ← pOpt pStrList (rget o "issn")
  let host_organization ← pOpt pStr (rget o "host_organization")
  let host_organization_lineage ← pOpt pStrList (rget o "host_organization_lineage")
  let host_organization_name ← pOpt pStr (rget o "host_organization_name")
  let is_core ← pOpt pBool (rget o "is_core")
  let type ← pOpt pStr (rget o "type")
  pure { id := id, issn_l := issn_l, display_name := display_name, is_oa := is_oa,
         is_in_doaj := is_in_doaj, issn := issn, host_organization := host_organization,
         host_organization_lineage := host_organization_lineage,
         host_organization_name := host_organization_name, is_core := is_core, type := type }

def parseSourceAPC (o : RawObj) : Except String SourceAPC := do
  let price ← pOpt pInt (rget o "price")
  let currency ← pOpt pStr (rget o "currency")
  pure { price := price, currency := currency }

def parseSourceCountByYear (o : RawObj) : Except String SourceCountByYear := do
  let source_id ← pReqStr (rget o "source_id")
  let year ← pReqInt (rget o "year")
  let works_count ← pOpt pInt (rget o "works_count")
  let cited_by_count ← pOpt pInt (rget o "cited_by_count")
  let oa_works_count ← pOpt pInt (rget o "oa_works_count")
  pure { source_id := source_id, year := year, works_count := works_count,
         cited_by_count := cited_by_count, oa_works_count := oa_works_count }

def parseSourceIDs (o : RawObj) : Except String SourceIDs := do
  let source_id ← pReqStr (rget o "source_id")
  let openalex ← pOpt pStr (rget o "openalex")
  let issn_l ← pOpt pStr (rget o "issn_l")
  let issn ← pOpt pStrList (rget o "issn")
  let mag ← pOpt pInt (rget o "mag")
  let wikidata ← pOpt pStr (rget o "wikidata")
  let fatcat ← pOpt pStr (rget o "fatcat")
  pure { source_id := source_id, openalex := openalex, issn_l := issn_l, issn := issn,
         mag := mag, wikidata := wikidata, fatcat := fatcat }

def parseSummaryStats (o : RawObj) : Except String SummaryStats := do
  let twoyr ← pOpt pRat (alookup o ["2yr_mean_citedness"])
  let h_index ← pOpt pInt (rget o "h_index")
  let i10_index ← pOpt pInt (rget o "i10_index")
  pure { twoyr_mean_citedness := twoyr, h_index := h_index, i10_index := i10_index }

def parseRole (o : RawObj) : Except String Role := do
  let role ←
    match rget o "role" with
    | none => Except.error "field required"
    | some v => pLit ["institution", "funder", "publisher"] v
  let id ← pReqStr (rget o "id")
  let works_count ← pReqInt (rget o "works_count")
  pure { role := role, id := id, works_count := works_count }

def parseSource (o : RawObj) : Except String Source := do
  let o ← replicateListFK "counts_by_year" "source_id" o
  let o ← replicateObjFK "ids" "source_id" o
  let id ← pReqStr (rget o "id")
  let issn_l ← pOpt pStr (rget o "issn_l")
  let display_name ← pOpt pStr (rget o "display_name")
  let publisher ← pOpt pStr (rget o "publisher")
  let works_count ← pOpt pInt (rget o "works_count")
  let cited_by_count ← pOpt pInt (rget o "cited_by_count")
  let is_oa ← pOpt pBool (rget o "is_oa")
  let is_in_doaj ← pOpt pBool (rget o "is_in_doaj")
  let homepage_url ← pOpt pStr (rget o "homepage_url")
  let works_api_url ← pOpt pStr (rget o "works_api_url")
  let updated_date ← pOpt pDateNoTZ (rget o "updated_date")
  let issn ← pOpt pStrList (rget o "issn")
  let abbreviated_title ← pOpt pStr (rget o "abbreviated_title")
  let alternate_titles ← pOpt pStrList (rget o "alternate_titles")
  let apc_prices ← pOpt (fun v =>
    match v with
    | .arr xs => xs.mapM (pObjWith parseSourceAPC)
    | _ => Except.error "list expected") (rget o "apc_prices")
  let apc_usd ← pOpt pInt (rget o "apc_usd")
  let country_code ← pOpt pCountry (rget o "country_code")
  let counts_by_year ← pOpt (fun v =>
    match v with
    | .arr xs => xs.mapM (pObjWith parseSourceCountByYear)
    | _ => Except.error "list expected") (rget o "counts_by_year")
  let host_organization ← pOpt pStr (rget o "host_organization")
  let host_organization_lineage ← pOpt pStrList (rget o "host_organization_lineage")
  let host_organization_name ← pOpt pStr (rget o "host_organization_name")
  let ids ← pOpt (pObjWith parseSourceIDs) (rget o "ids")
  let is_core ← pOpt pBool (rget o "is_core")
  let summary_stats ← pOpt (pObjWith parseSummaryStats) (rget o "summary_stats")
  let type ← pOpt pStr (rget o "type")
  pure { id := id, issn_l := issn_l, display_name := display_name, publisher := publisher,
         works_count := works_count, cited_by_count := cited_by_count, is_oa := is_oa,
         is_in_doaj := is_in_doaj, homepage_url := homepage_url,
         works_api_url := works_api_url, updated_date := updated_date, issn := issn,
         abbreviated_title := abbreviated_title, alternate_titles := alternate_titles,
         apc_prices := apc_prices, apc_usd := apc_usd, country_code := country_code,
         counts_by_year := counts_by_year, host_organization := host_organization,
         host_organization_lineage := host_organization_lineage,
         host_organization_name := host_organization_name, ids := ids, is_core := is_core,
         summary_stats := summary_stats, type := type }

def parseBaseWorkLocation (o : RawObj) : Except String BaseWorkLocation := do
  let work_id ← pOpt pStr (rget o "work_id")
  let source_id ← pOpt pStr (rget o "source_id")
  let landing_page_url ← pOpt pStr (rget o "landing_page_url")
  let pdf_url ← pOpt pStr (rget o "pdf_url")
  let is_oa ← pOpt pBool (rget o "is_oa")
  let version ← pOpt (pLit ["publishedVersion", "acceptedVersion", "submittedVersion"])
    (rget o "version")
  let license ← pOpt pStr (rget o "license")
  let source ← pOpt (pObjWith parseSource) (rget o "source")
  let is_accepted ← pOpt pBool (rget o "is_accepted")
  let is_published ← pOpt pBool (rget o "is_published")
  let base : BaseWorkLocation :=
    { work_id := work_id, source_id := source_id, landing_page_url := landing_page_url,
      pdf_url := pdf_url, is_oa := is_oa, version := version, license := license,
      source := source, is_accepted := is_accepted, is_published := is_published }
  -- `_populate_source_id` (mode="after")
  match base.source with
  | some s => pure { base with source_id := some s.id }
  | none => pure base

def parseWorkAuthorship (o : RawObj) : Except String WorkAuthorship := do
  -- `_replicate_id` (mode="before"): copy `author["id"]` into `author_id`
  let o ←
    match rget o "author" with
    | none => Except.ok o
    | some .null => Except.ok o
    | some (.obj ao) =>
      match rget ao "id" with
      | some v => Except.ok (rset o "author_id" v)
      | none => Except.error "KeyError: id"
    | some _ => Except.error "TypeError: author not a dict"
  let work_id ← pOpt pStr (rget o "work_id")
  let author_position ← pOpt (pLit ["first", "last", "middle"]) (rget o "author_position")
  let author_id ← pOpt pStr (rget o "author_id")
  let institution_id ← pOpt pStr (rget o "institution_id")
  let raw_affiliation_string ← pOpt pStr (rget o "raw_affiliation_string")
  let author ← pOpt (pObjWith parseDehydratedAuthor) (rget o "author")
  let countries ← pOpt pStrList (rget o "countries")
  let institutions ← pOpt (fun v =>
    match v with
    | .arr xs => xs.mapM (pObjWith parseDehydratedInstitution)
    | _ => Except.error "list expected") (rget o "institutions")
  let is_corresponding ← pOpt pBool (rget o "is_corresponding")
  let raw_author_name ← pOpt pStr (rget o "raw_author_name")
  let a : WorkAuthorship :=
    { work_id := work_id, author_position := author_position, author_id := author_id,
      institution_id := institution_id, raw_affiliation_string := raw_affiliation_string,
      author := author, countries := countries, institutions := institutions,
      is_corresponding := is_corresponding, raw_author_name := raw_author_name }
  -- `_check_author_id` (mode="after")
  match a.author with
  | some au => if a.author_id = some au.id then pure a
               else Except.error "author_id must match author.id"
  | none => pure a

def parseWorkBiblio (o : RawObj) : Except String WorkBiblio := do
  let work_id ← pOpt pStr (rget o "work_id")
  let volume ← pOpt pStr (rget o "volume")
  let issue ← pOpt pStr (rget o "issue")
  let first_page ← pOpt pStr (rget o "first_page")
  let last_page ← pOpt pStr (rget o "last_page")
  pure { work_id := work_id, volume := volume, issue := issue, first_page := first_page,
         last_page := last_page }

def parseWorkTopic (o : RawObj) : Except String WorkTopic := do
  let work_id ← pOpt pStr (alookup o ["id", "work_id"])
  let topic_id ← pOpt pStr (rget o "topic_id")
  let score ← pOpt pRat (rget o "score")
  let subfield ← pOpt pDict (rget o "subfield")
  pure { work_id := work_id, topic_id := topic_id, score := score, subfield := subfield }

def parseWorkConcept (o : RawObj) : Except String WorkConcept := do
  let work_id ← pOpt pStr (rget o "work_id")
  let concept_id ← pOpt pStr (rget o "concept_id")
  let score ← pOpt pRat (rget o "score")
  pure { work_id := work_id, concept_id := concept_id, score := score }

def parseWorkIDs (o : RawObj) : Except String WorkIDs := do
  let work_id ← pReqStr (rget o "work_id")
  let openalex ← pOpt pStr (rget o "openalex")
  let doi ← pOpt pStr (rget o "doi")
  let mag ← pOpt pInt (rget o "mag")
  let pmid ← pOpt pStr (rget o "pmid")
  let pmcid ← pOpt pStr (rget o "pmcid")
  pure { work_id := work_id, openalex := openalex, doi := doi, mag := mag, pmid := pmid,
         pmcid := pmcid }

def parseWorkMesh (o : RawObj) : Except String WorkMesh := do
  let work_id ← pOpt pStr (rget o "work_id")
  let descriptor_ui ← pOpt pStr (rget o "descriptor_ui")
  let descriptor_name ← pOpt pStr (rget o "descriptor_name")
  let qualifier_ui ← pOpt pStr (rget o "qualifier_ui")
  let qualifier_name ← pOpt pStr (rget o "qualifier_name")
  let is_major_topic ← pOpt pBool (rget o "is_major_topic")
  pure { work_id := work_id, descriptor_ui := descriptor_ui,
         descriptor_name := descriptor_name, qualifier_ui := qualifier_ui,
         qualifier_name := qualifier_name, is_major_topic := is_major_topic }

def parseNomicEmbedText768 (o : RawObj) : Except String NomicEmbedText768 := do
  let work_id ← pOpt pStr (rget o "work_id")
  let embedding ← pOpt pRatList (rget o "embedding")
  pure { work_id := work_id, embedding := embedding }

def parseWorkOpenAccess (o : RawObj) : Except String WorkOpenAccess := do
  let work_id ← pOpt pStr (rget o "work_id")
  let is_oa ← pOpt pBool (rget o "is_oa")
  let oa_status ← pOpt pStr (rget o "oa_status")
  let oa_url ← pOpt pStr (rget o "oa_url")
  let any_repository_has_fulltext ← pOpt pBool (rget o "any_repository_has_fulltext")
  pure { work_id := work_id, is_oa := is_oa, oa_status := oa_status, oa_url := oa_url,
         any_repository_has_fulltext := any_repository_has_fulltext }

def parseWorkReferencedWork (o : RawObj) : Except String WorkReferencedWork := do
  let work_id ← pOpt pStr (rget o "work_id")
  let referenced_work_id ← pOpt pStr (alookup o ["id", "referenced_work_id"])
  pure { work_id := work_id, referenced_work_id := referenced_work_id }

def parseWorkRelatedWork (o : RawObj) : Except String WorkRelatedWork := do
  let work_id ← pOpt pStr (rget o "work_id")
  let related_work_id ← pOpt pStr (alookup o ["id", "related_work_id"])
  pure { work_id := work_id, related_work_id := related_work_id }

def parseWorkAPC (o : RawObj) : Except String WorkAPC := do
  let value ← pOpt pInt (rget o "value")
  let currency ← pOpt pStr (rget o "currency")
  let provenance ← pOpt pStr (rget o "provenance")
  let value_usd ← pOpt pInt (rget o "value_usd")
  pure { value := value, currency := currency, provenance := provenance,
         value_usd := value_usd }

def parseWorkCountByYear (o : RawObj) : Except String WorkCountByYear := do
  let year ← pReqInt (rget o "year")
  let cited_by_count ← pReqInt (rget o "cited_by_count")
  pure { year := year, cited_by_count := cited_by_count }

def parseWorkGrant (o : RawObj) : Except String WorkGrant := do
  let funder ← pOpt pStr (rget o "funder")
  let funder_display_name ← pOpt pStr (rget o "funder_display_name")
  let award_id ← pOpt pStr (rget o "award_id")
  pure { funder := funder, funder_display_name := funder_display_name,
         award_id := award_id }

def parseWorkKeyword (o : RawObj) : Except String WorkKeyword := do
  let id ← pOpt pStr (rget o "id")
  let display_name ← pOpt pStr (rget o "display_name")
  let score ← pOpt pRat (rget o "score")
  pure { id := id, display_name := display_name, score := score }

def parseWorkSDG (o : RawObj) : Except String WorkSDG := do
  let id ← pOpt pStr (rget o "id")
  let display_name ← pOpt pStr (rget o "display_name")
  let score ← pOpt pRat (rget o "score")
  pure { id := id, display_name := display_name, score := score }

def pListOf (f : RawObj → Except String α) : JVal → Except String (List α)
  | .arr xs => xs.mapM (pObjWith f)
  | _ => .error "list expected"

/-- Field coercion and field validators of `Work` (after the before
validators have rewritten the raw mapping). -/
def Work.parseFields (r : RawObj) : Except String Work := do
  let id ← pReqStr (rget r "id")
  let doi ← pOpt pStr (rget r "doi")
  let title ← pOpt pStr (rget r "title")
  let display_name ← pOpt pStr (rget r "display_name")
  let publication_year ← pOpt pInt (rget r "publication_year")
  let publication_date ← pOpt pDate8601 (rget r "publication_date")
  let type ← pOpt pStr (rget r "type")
  let cited_by_count ← pOpt pInt (rget r "cited_by_count")
  let is_retracted ← pOpt pBool (rget r "is_retracted")
  let is_paratext ← pOpt pBool (rget r "is_paratext")
  let cited_by_api_url ← pOpt pStr (rget r "cited_by_api_url")
  let abstract_inverted_index ← pOpt pDict (rget r "abstract_inverted_index")
  let abstract_inverted_index := validateAbstractIndex abstract_inverted_index
  let language ← pOpt pStr (rget r "language")
  let ids ← pOpt (pObjWith parseWorkIDs) (rget r "ids")
  let locations ← pOpt (pListOf parseBaseWorkLocation) (rget r "locations")
  let authorships ← pOpt (pListOf parseWorkAuthorship) (rget r "authorships")
  let biblio ← pOpt (pObjWith parseWorkBiblio) (rget r "biblio")
  let topics ← pOpt (pListOf parseWorkTopic) (rget r "topics")
  let concepts ← pOpt (pListOf parseWorkConcept) (rget r "concepts")
  let mesh ← pOpt (pListOf parseWorkMesh) (rget r "mesh")
  let open_access ← pOpt (pObjWith parseWorkOpenAccess) (rget r "open_access")
  let referenced_works ← pOpt (pListOf parseWorkReferencedWork) (rget r "referenced_works")
  let related_works ← pOpt (pListOf parseWorkRelatedWork) (rget r "related_works")
  let apc_list ← pOpt (pObjWith parseWorkAPC) (rget r "apc_list")
  let apc_paid ← pOpt (pObjWith parseWorkAPC) (rget r "apc_paid")
  let best_oa_location ← pOpt (pObjWith parseBaseWorkLocation) (rget r "best_oa_location")
  let best_oa_location ← validateBestOA best_oa_location
  let corresponding_author_ids ← pOpt pStrList (rget r "corresponding_author_ids")
  let corresponding_institution_ids ← pOpt pStrList (rget r "corresponding_institution_ids")
  let countries_distinct_count ← pOpt pInt (rget r "countries_distinct_count")
  let created_date ← pOpt pDate8601 (rget r "created_date")
  let counts_by_year ← pOpt (pListOf parseWorkCountByYear) (rget r "counts_by_year")
  let fulltext_origin ← pOpt (pLit ["pdf", "ngrams"]) (rget r "fulltext_origin")
  let fwci ← pOpt pRat (rget r "fwci")
  let grants ← pOpt (pListOf parseWorkGrant) (rget r "grants")
  let has_fulltext ← pOpt pBool (rget r "has_fulltext")
  let indexed_in ← pOpt pStrList (rget r "indexed_in")
  let institutions_distinct_count ← pOpt pInt (rget r "institutions_distinct_count")
  let keywords ← pOpt (pListOf parseWorkKeyword) (rget r "keywords")
  let license ← pOpt pStr (rget r "license")
  let locations_count ← pOpt pInt (rget r "locations_count")
  let primary_location ← pOpt (pObjWith parseBaseWorkLocation) (rget r "primary_location")
  let primary_topic ← pOpt (pObjWith parseWorkTopic) (rget r "primary_topic")
  let sustainable_development_goals ← pOpt (pListOf parseWorkSDG)
    (rget r "sustainable_development_goals")
  let type_crossref ← pOpt pStr (rget r "type_crossref")
  let updated_date ← pOpt pDate8601 (rget r "updated_date")
  let abstract_embedding_nomic_embed_text ← pOpt (pObjWith parseNomicEmbedText768)
    (rget r "abstract_embedding_nomic_embed_text")
  pure { id := id, doi := doi, title := title, display_name := display_name,
         publication_year := publication_year, publication_date := publication_date,
         type := type, cited_by_count := cited_by_count, is_retracted := is_retracted,
         is_paratext := is_paratext, cited_by_api_url := cited_by_api_url,
         abstract_inverted_index := abstract_inverted_index, language := language,
         ids := ids, locations := locations, authorships := authorships, biblio := biblio,
         topics := topics, concepts := concepts, mesh := mesh, open_access := open_access,
         referenced_works := referenced_works, related_works := related_works,
         apc_list := apc_list, apc_paid := apc_paid, best_oa_location := best_oa_location,
         corresponding_author_ids := corresponding_author_ids,
         corresponding_institution_ids := corresponding_institution_ids,
         countries_distinct_count := countries_distinct_count, created_date := created_date,
         counts_by_year := counts_by_year, fulltext_origin := fulltext_origin, fwci := fwci,
         grants := grants, has_fulltext := has_fulltext, indexed_in := indexed_in,
         institutions_distinct_count := institutions_distinct_count, keywords := keywords,
         license := license, locations_count := locations_count,
         primary_location := primary_location, primary_topic := primary_topic,
         sustainable_development_goals := sustainable_development_goals,
         type_crossref := type_crossref, updated_date := updated_date,
         abstract_embedding_nomic_embed_text := abstract_embedding_nomic_embed_text }

/-- `Work(**raw)`: pydantic construction of a Work record. -/
def Work.parse (r : RawObj) : Except String Work := Work.before r >>= Work.parseFields

/-! ## SQL projection (`_sql_order` + `to_sql_values`) and hydration
(`from_sql`, tuple/`subtables` branch) -/

def BaseWorkLocation.sqlOrder : List String :=
  ["work_id", "source_id", "landing_page_url", "pdf_url", "is_oa", "version", "license"]

def BaseWorkLocation.to_sql_values (l : BaseWorkLocation) : List SQLValue :=
  [sqlOfOptStr l.work_id, sqlOfOptStr l.source_id, sqlOfOptStr l.landing_page_url,
   sqlOfOptStr l.pdf_url, sqlOfOptBool l.is_oa, sqlOfOptStr l.version,
   sqlOfOptStr l.license]

def WorkAuthorship.sqlOrder : List String :=
  ["work_id", "author_position", "author_id", "institution_id", "raw_affiliation_string"]

def WorkAuthorship.to_sql_values (a : WorkAuthorship) : List SQLValue :=
  [sqlOfOptStr a.work_id, sqlOfOptStr a.author_position, sqlOfOptStr a.author_id,
   sqlOfOptStr a.institution_id, sqlOfOptStr a.raw_affiliation_string]

def WorkBiblio.sqlOrder : List String :=
  ["work_id", "volume", "issue", "first_page", "last_page"]

def WorkBiblio.to_sql_values (b : WorkBiblio) : List SQLValue :=
  [sqlOfOptStr b.work_id, sqlOfOptStr b.volume, sqlOfOptStr b.issue,
   sqlOfOptStr b.first_page, sqlOfOptStr b.last_page]

def WorkTopic.sqlOrder : List String := ["work_id", "topic_id", "score"]

def WorkTopic.to_sql_values (t : WorkTopic) : List SQLValue :=
  [sqlOfOptStr t.work_id, sqlOfOptStr t.topic_id, sqlOfOptRat t.score]

def WorkConcept.sqlOrder : List String := ["work_id", "concept_id", "score"]

def WorkConcept.to_sql_values (c : WorkConcept) : List SQLValue :=
  [sqlOfOptStr c.work_id, sqlOfOptStr c.concept_id, sqlOfOptRat c.score]

def WorkIDs.sqlOrder : List String := ["work_id", "openalex", "doi", "mag", "pmid", "pmcid"]

def WorkIDs.to_sql_values (i : WorkIDs) : List SQLValue :=
  [strToSql i.work_id, sqlOfOptStr i.openalex, sqlOfOptStr i.doi, sqlOfOptInt i.mag,
   sqlOfOptStr i.pmid, sqlOfOptStr i.pmcid]

def WorkMesh.sqlOrder : List String :=
  ["work_id", "descriptor_ui", "descriptor_name", "qualifier_ui", "qualifier_name",
   "is_major_topic"]

def WorkMesh.to_sql_values (m : WorkMesh) : List SQLValue :=
  [sqlOfOptStr m.work_id, sqlOfOptStr m.descriptor_ui, sqlOfOptStr m.descriptor_name,
   sqlOfOptStr m.qualifier_ui, sqlOfOptStr m.qualifier_name,
   sqlOfOptBool m.is_major_topic]

def WorkOpenAccess.sqlOrder : List String :=
  ["work_id", "is_oa", "oa_status", "oa_url", "any_repository_has_fulltext"]

def WorkOpenAccess.to_sql_values (oa : WorkOpenAccess) : List SQLValue :=
  [sqlOfOptStr oa.work_id, sqlOfOptBool oa.is_oa, sqlOfOptStr oa.oa_status,
   sqlOfOptStr oa.oa_url, sqlOfOptBool oa.any_repository_has_fulltext]

def WorkReferencedWork.sqlOrder : List String := ["work_id", "referenced_work_id"]

def WorkReferencedWork.to_sql_values (x : WorkReferencedWork) : List SQLValue :=
  [sqlOfOptStr x.work_id, sqlOfOptStr x.referenced_work_id]

def WorkRelatedWork.sqlOrder : List String := ["work_id", "related_work_id"]

def WorkRelatedWork.to_sql_values (x : WorkRelatedWork) : List SQLValue :=
  [sqlOfOptStr x.work_id, sqlOfOptStr x.related_work_id]

def Work.sqlOrder : List String :=
  ["id", "doi", "title", "display_name", "publication_year", "publication_date", "type",
   "cited_by_count", "is_retracted", "is_paratext", "cited_by_api_url",
   "abstract_inverted_index", "language"]

def Work.to_sql_values (w : Work) : List SQLValue :=
  [strToSql w.id, sqlOfOptStr w.doi, sqlOfOptStr w.title, sqlOfOptStr w.display_name,
   sqlOfOptInt w.publication_year, sqlOfOptStr w.publication_date, sqlOfOptStr w.type,
   sqlOfOptInt w.cited_by_count, sqlOfOptBool w.is_retracted, sqlOfOptBool w.is_paratext,
   sqlOfOptStr w.cited_by_api_url, sqlOfOptObj w.abstract_inverted_index,
   sqlOfOptStr w.language]

/-- `Work._sql_subtables`. -/
def Work.sqlSubtables : List String :=
  ["primary_location", "locations", "best_oa_location", "authorships", "biblio", "topics",
   "concepts", "ids", "mesh", "open_access", "referenced_works", "related_works"]

/-- `works.MULTIVALUE`. -/
def Work.multivalue : List String :=
  ["locations", "authorships", "topics", "concepts", "mesh", "referenced_works",
   "related_works"]

/-- `SQL_TABLES_TO_CLASSES[name]._sql_order`. -/
def Work.subtableOrder : String → List String
  | "primary_location" => BaseWorkLocation.sqlOrder
  | "locations" => BaseWorkLocation.sqlOrder
  | "best_oa_location" => BaseWorkLocation.sqlOrder
  | "authorships" => WorkAuthorship.sqlOrder
  | "biblio" => WorkBiblio.sqlOrder
  | "topics" => WorkTopic.sqlOrder
  | "concepts" => WorkConcept.sqlOrder
  | "ids" => WorkIDs.sqlOrder
  | "mesh" => WorkMesh.sqlOrder
  | "open_access" => WorkOpenAccess.sqlOrder
  | "referenced_works" => WorkReferencedWork.sqlOrder
  | "related_works" => WorkRelatedWork.sqlOrder
  | _ => []

/-- Row payload for one subentity table: a single tuple for one-to-one
subentities, a list of tuples for one-to-many ones (the shapes the
`subtables` dict of `from_sql` carries). -/
inductive SubPayload where
  | one : List SQLValue → SubPayload
  | many : List (List SQLValue) → SubPayload
  deriving DecidableEq, Repr

def sfind : List (String × SubPayload) → String → Option SubPayload
  | [], _ => none
  | (k', v) :: r, k => if k' = k then some v else sfind r k

/-- One projected entry for a one-to-one subentity field, when present. -/
def optBlockOne (name : String) (f : α → List SQLValue) :
    Option α → List (String × SubPayload)
  | none => []
  | some x => [(name, SubPayload.one (f x))]

/-- One projected entry for a one-to-many subentity field, when present. -/
def optBlockMany (name : String) (f : α → List SQLValue) :
    Option (List α) → List (String × SubPayload)
  | none => []
  | some xs => [(name, SubPayload.many (xs.map f))]

/-- Project a canonical Work into its per-subtable row payloads, one entry
per present subentity field, rows built by each subtable's `to_sql_values`
in `_sql_order`. -/
def Work.projectSubs (w : Work) : List (String × SubPayload) :=
  optBlockOne "primary_location" BaseWorkLocation.to_sql_values w.primary_location ++
  optBlockMany "locations" BaseWorkLocation.to_sql_values w.locations ++
  optBlockOne "best_oa_location" BaseWorkLocation.to_sql_values w.best_oa_location ++
  optBlockMany "authorships" WorkAuthorship.to_sql_values w.authorships ++
  optBlockOne "biblio" WorkBiblio.to_sql_values w.biblio ++
  optBlockMany "topics" WorkTopic.to_sql_values w.topics ++
  optBlockMany "concepts" WorkConcept.to_sql_values w.concepts ++
  optBlockOne "ids" WorkIDs.to_sql_values w.ids ++
  optBlockMany "mesh" WorkMesh.to_sql_values w.mesh ++
  optBlockOne "open_access" WorkOpenAccess.to_sql_values w.open_access ++
  optBlockMany "referenced_works" WorkReferencedWork.to_sql_values w.referenced_works ++
  optBlockMany "related_works" WorkRelatedWork.to_sql_values w.related_works

/-- `project(O)`: the root row tuple plus the per-subtable row payloads. -/
def Work.project (w : Work) : List SQLValue × List (String × SubPayload) :=
  (w.to_sql_values, w.projectSubs)

/-- The keyword-argument mapping `Work.from_sql` builds from the root tuple
and the `subtables` dict before calling `Work(**args)`.  Bare identifiers
are restored for `referenced_works`/`related_works` (column 1 of each row);
multivalue subtables rebuild one dict per row, one-to-one subtables one
dict.  A payload of the wrong shape is a runtime type error in Python and
is skipped here (never produced by `project`). -/
def Work.fromSqlStep (subs : List (String × SubPayload)) (args : RawObj)
    (name : String) : RawObj :=
  match sfind subs name with
  | none => args
  | some payload =>
    if name = "referenced_works" ∨ name = "related_works" then
      match payload with
      | .many rows => rset args name (.arr (rows.map fun row => sqlToJVal (row.getD 1 .null)))
      | .one _ => args
    else if Work.multivalue.contains name then
      match payload with
      | .many rows =>
        rset args name (.arr (rows.map fun row => .obj (zipToObj (Work.subtableOrder name) row)))
      | .one _ => args
    else
      match payload with
      | .one row => rset args name (.obj (zipToObj (Work.subtableOrder name) row))
      | .many _ => args

def Work.fromSqlArgs (t : List SQLValue) (subs : List (String × SubPayload)) : RawObj :=
  Work.sqlSubtables.foldl (Work.fromSqlStep subs) (zipToObj Work.sqlOrder t)

/-- `Work.from_sql(t, subtables=...)`: rebuild the keyword arguments and
re-run pydantic construction (hydration). -/
def Work.from_sql (t : List SQLValue) (subs : List (String × SubPayload)) :
    Except String Work :=
  Work.parse (Work.fromSqlArgs t subs)

instance [DecidableEq ε] [DecidableEq α] : DecidableEq (Except ε α) := fun a b =>
  match a, b with
  | .ok x, .ok y =>
    match decEq x y with
    | .isTrue h => .isTrue (h ▸ rfl)
    | .isFalse h => .isFalse fun he => by injection he with h2; exact h h2
  | .error x, .error y =>
    match decEq x y with
    | .isTrue h => .isTrue (h ▸ rfl)
    | .isFalse h => .isFalse fun he => by injection he with h2; exact h h2
  | .ok _, .error _ => .isFalse nofun
  | .error _, .ok _ => .isFalse nofun

/-! ## Institutions -/

structure InstitutionAssociatedInstitution where
  institution_id : Option String := none
  associated_institution_id : Option String := none
  relationship : Option String := none
  country_code : Option String := none
  display_name : Option String := none
  ror : Option String := none
  type : Option String := none
  lineage : Option (List String) := none
  deriving DecidableEq, Repr

structure InstitutionCountByYear where
  institution_id : String
  year : ℤ
  works_count : Option ℤ := none
  cited_by_count : Option ℤ := none
  oa_works_count : Option ℤ := none
  deriving DecidableEq, Repr

structure InstitutionGeo where
  institution_id : String
  city : Option String := none
  geonames_city_id : Option String := none
  region : Option String := none
  country_code : Option String := none
  country : Option String := none
  latitude : Option ℚ := none
  longitude : Option ℚ := none
  deriving DecidableEq, Repr

structure InstitutionIDs where
  institution_id : String
  openalex : Option String := none
  ror : Option String := none
  grid : Option String := none
  wikidata : Option String := none
  wikipedia : Option String := none
  mag : Option ℤ := none
  deriving DecidableEq, Repr

structure InstitutionInternationl where
  display_name : List (String × String)
  deriving DecidableEq, Repr

structure Institution where
  id : String
  ror : Option String := none
  lineage : Option (List String) := none
  display_name : Option String := none
  country_code : Option String := none
  type : Option String := none
  homepage_url : Option String := none
  image_url : Option String := none
  image_thumbnail_url : Option String := none
  display_name_acronyms : Option (List String) := none
  display_name_alternatives : Option (List String) := none
  works_count : Option ℤ := none
  cited_by_count : Option ℤ := none
  works_api_url : Option String := none
  updated_date : Option String := none
  geo : Option InstitutionGeo := none
  counts_by_year : Option (List InstitutionCountByYear) := none
  ids : Option InstitutionIDs := none
  associated_institutions : Option (List InstitutionAssociatedInstitution) := none
  created_date : Option String := none
  is_supersystem : Option Bool := none
  international : Option InstitutionInternationl := none
  repositories : Option (List (Source ⊕ DehydratedSource)) := none
  summary_stats : Option SummaryStats := none
  roles : Option (List Role) := none
  deriving DecidableEq, Repr

/-- `_check_not_empty`: an empty (or absent) list becomes `None`. -/
def notEmptyList : Option (List α) → Option (List α)
  | none => none
  | some l => if l.isEmpty then none else some l

def parseInstitutionAssociatedInstitution (o : RawObj) :
    Except String InstitutionAssociatedInstitution := do
  let institution_id ← pOpt pStr (rget o "institution_id")
  let associated_institution_id ← pOpt pStr (alookup o ["id", "associated_institution_id"])
  let relationship ← pOpt pStr (rget o "relationship")
  let country_code ← pOpt pCountry (rget o "country_code")
  let display_name ← pOpt pStr (rget o "display_name")
  let ror ← pOpt pStr (rget o "ror")
  let type ← pOpt pStr (rget o "type")
  let lineage ← pOpt pStrList (rget o "lineage")
  pure { institution_id := institution_id,
         associated_institution_id := associated_institution_id,
         relationship := relationship, country_code := country_code,
         display_name := display_name, ror := ror, type := type, lineage := lineage }

def parseInstitutionCountByYear (o : RawObj) : Except String InstitutionCountByYear := do
  let institution_id ← pReqStr (rget o "institution_id")
  let year ← pReqInt (rget o "year")
  let works_count ← pOpt pInt (rget o "works_count")
  let cited_by_count ← pOpt pInt (rget o "cited_by_count")
  let oa_works_count ← pOpt pInt (rget o "oa_works_count")
  pure { institution_id := institution_id, year := year, works_count := works_count,
         cited_by_count := cited_by_count, oa_works_count := oa_works_count }

def parseInstitutionGeo (o : RawObj) : Except String InstitutionGeo := do
  let institution_id ← pReqStr (rget o "institution_id")
  let city ← pOpt pStr (rget o "city")
  let geonames_city_id ← pOpt pStr (rget o "geonames_city_id")
  let region ← pOpt pStr (rget o "region")
  let country_code ← pOpt pCountry (rget o "country_code")
  let country ← pOpt pStr (rget o "country")
  let latitude ← pOpt pRat (rget o "latitude")
  let longitude ← pOpt pRat (rget o "longitude")
  pure { institution_id := institution_id, city := city,
         geonames_city_id := geonames_city_id, region := region,
         country_code := country_code, country := country, latitude := latitude,
         longitude := longitude }

def parseInstitutionIDs (o : RawObj) : Except String InstitutionIDs := do
  let institution_id ← pReqStr (rget o "institution_id")
  let openalex ← pOpt pStr (rget o "openalex")
  let ror ← pOpt pStr (rget o "ror")
  let grid ← pOpt pStr (rget o "grid")
  let wikidata ← pOpt pStr (rget o "wikidata")
  let wikipedia ← pOpt pStr (rget o "wikipedia")
  let mag ← pOpt pInt (rget o "mag")
  pure { institution_id := institution_id, openalex := openalex, ror := ror, grid := grid,
         wikidata := wikidata, wikipedia := wikipedia, mag := mag }

def parseInstitutionInternationl (o : RawObj) : Except String InstitutionInternationl :=
  match rget o "display_name" with
  | none => .error "field required"
  | some (.obj kvs) => do
    let l ← kvs.mapM fun kv =>
      match kv.2 with
      | .str s => Except.ok (kv.1, s)
      | _ => Except.error "str expected"
    .ok ⟨l⟩
  | some _ => .error "dict expected"

/-- `Institution.repositories` element: `Source | DehydratedSource` (tried in
declaration order). -/
def parseRepository : JVal → Except String (Source ⊕ DehydratedSource)
  | .obj o =>
    match parseSource o with
    | .ok s => .ok (.inl s)
    | .error _ => (parseDehydratedSource o).map .inr
  | _ => .error "dict expected"

def repoHost : Source ⊕ DehydratedSource → Option String
  | .inl s => s.host_organization
  | .inr d => d.host_organization

namespace Institution

/-- `Institution._replicate_id` (mode="before"). -/
def before (r : RawObj) : Except String RawObj := do
  let r ← replicateObjFK "geo" "institution_id" r
  let r ← replicateListFK "counts_by_year" "institution_id" r
  let r ← replicateObjFK "ids" "institution_id" r
  replicateListFK "associated_institutions" "institution_id" r

def parseFields (o : RawObj) : Except String Institution := do
  let id ← pReqStr (rget o "id")
  let ror ← pOpt pStr (rget o "ror")
  let lineage ← pOpt pStrList (rget o "lineage")
  let display_name ← pOpt pStr (rget o "display_name")
  let country_code ← pOpt pCountry (rget o "country_code")
  let type ← pOpt pStr (rget o "type")
  let homepage_url ← pOpt pStr (rget o "homepage_url")
  let image_url ← pOpt pStr (rget o "image_url")
  let image_thumbnail_url ← pOpt pStr (rget o "image_thumbnail_url")
  let display_name_acronyms ← pOpt pStrList (rget o "display_name_acronyms")
  let display_name_acronyms := notEmptyList display_name_acronyms
  let display_name_alternatives ← pOpt pStrList (rget o "display_name_alternatives")
  let display_name_alternatives := notEmptyList display_name_alternatives
  let works_count ← pOpt pInt (rget o "works_count")
  let cited_by_count ← pOpt pInt (rget o "cited_by_count")
  let works_api_url ← pOpt pStr (rget o "works_api_url")
  let updated_date ← pOpt pDateNoTZ (rget o "updated_date")
  let geo ← pOpt (pObjWith parseInstitutionGeo) (rget o "geo")
  let counts_by_year ← pOpt (pListOf parseInstitutionCountByYear) (rget o "counts_by_year")
  let counts_by_year := notEmptyList counts_by_year
  let ids ← pOpt (pObjWith parseInstitutionIDs) (rget o "ids")
  let associated_institutions ← pOpt (pListOf parseInstitutionAssociatedInstitution)
    (rget o "associated_institutions")
  let associated_institutions := notEmptyList associated_institutions
  let created_date ← pOpt pDate8601 (rget o "created_date")
  let is_supersystem ← pOpt pBool (rget o "is_supersystem")
  let international ← pOpt (pObjWith parseInstitutionInternationl) (rget o "international")
  let repositories ← pOpt (fun v =>
    match v with
    | .arr xs => xs.mapM parseRepository
    | _ => Except.error "list expected") (rget o "repositories")
  let summary_stats ← pOpt (pObjWith parseSummaryStats) (rget o "summary_stats")
  let roles ← pOpt (pListOf parseRole) (rget o "roles")
  pure { id := id, ror := ror, lineage := lineage, display_name := display_name,
         country_code := country_code, type := type, homepage_url := homepage_url,
         image_url := image_url, image_thumbnail_url := image_thumbnail_url,
         display_name_acronyms := display_name_acronyms,
         display_name_alternatives := display_name_alternatives,
         works_count := works_count, cited_by_count := cited_by_count,
         works_api_url := works_api_url, updated_date := updated_date, geo := geo,
         counts_by_year := counts_by_year, ids := ids,
         associated_institutions := associated_institutions, created_date := created_date,
         is_supersystem := is_supersystem, international := international,
         repositories := repositories, summary_stats := summary_stats, roles := roles }

/-- `_check_repositories` (mode="after"): every repository's
`host_organization` must equal the institution's `id`. -/
def checkRepositories (inst : Institution) : Except String Institution :=
  match inst.repositories with
  | none => .ok inst
  | some repos =>
    if repos.all fun repo => repoHost repo == some inst.id then .ok inst
    else .error "Repository host id doesn't match institution id"

/-- `Institution(**raw)`. -/
def parse (r : RawObj) : Except String Institution :=
  (Institution.before r >>= Institution.parseFields) >>= Institution.checkRepositories

end Institution

/-! ## Authors -/

structure AuthorCountByYear where
  author_id : String
  year : ℤ
  works_count : Option ℤ := none
  cited_by_count : Option ℤ := none
  oa_works_count : Option ℤ := none
  deriving DecidableEq, Repr

structure AuthorIDs where
  author_id : String
  openalex : Option String := none
  orcid : Option String := none
  scopus : Option String := none
  twitter : Option String := none
  wikipedia : Option String := none
  mag : Option ℤ := none
  deriving DecidableEq, Repr

structure AuthorAffiliation where
  institution : Option DehydratedInstitution := none
  years : Option (List ℤ) := none
  deriving DecidableEq, Repr

structure Author where
  id : String
  orcid : Option String := none
  display_name : Option String := none
  display_name_alternatives : Option (List String) := none
  works_count : Option ℤ := none
  cited_by_count : Option ℤ := none
  last_known_institution : Option String := none
  works_api_url : Option String := none
  updated_date : Option String := none
  ids : Option AuthorIDs := none
  counts_by_year : Option (List AuthorCountByYear) := none
  affiliations : Option (List AuthorAffiliation) := none
  created_date : Option String := none
  last_known_institutions : Option (List DehydratedInstitution) := none
  summary_stats : Option SummaryStats := none
  deriving DecidableEq, Repr

def parseAuthorCountByYear (o : RawObj) : Except String AuthorCountByYear := do
  let author_id ← pReqStr (rget o "author_id")
  let year ← pReqInt (rget o "year")
  let works_count ← pOpt pInt (rget o "works_count")
  let cited_by_count ← pOpt pInt (rget o "cited_by_count")
  let oa_works_count ← pOpt pInt (rget o "oa_works_count")
  pure { author_id := author_id, year := year, works_count := works_count,
         cited_by_count := cited_by_count, oa_works_count := oa_works_count }

def parseAuthorIDs (o : RawObj) : Except String AuthorIDs := do
  let author_id ← pReqStr (rget o "author_id")
  let openalex ← pOpt pStr (rget o "openalex")
  let orcid ← pOpt pStr (rget o "orcid")
  let scopus ← pOpt pStr (rget o "scopus")
  let twitter ← pOpt pStr (rget o "twitter")
  let wikipedia ← pOpt pStr (rget o "wikipedia")
  let mag ← pOpt pInt (rget o "mag")
  pure { author_id := author_id, openalex := openalex, orcid := orcid, scopus := scopus,
         twitter := twitter, wikipedia := wikipedia, mag := mag }

def parseAuthorAffiliation (o : RawObj) : Except String AuthorAffiliation := do
  let institution ← pOpt (pObjWith parseDehydratedInstitution) (rget o "institution")
  let years ← pOpt pIntList (rget o "years")
  pure { institution := institution, years := years }

/-- `_remove_quotation_marks`: `x.replace('"', "")` elementwise. -/
def removeQuotationMarks : Option (List String) → Option (List String)
  | none => none
  | some l => some (l.map fun s => String.mk (s.data.filter fun c => c ≠ '"'))

namespace Author

/-- `Author._replicate_id` (mode="before"). -/
def before (r : RawObj) : Except String RawObj := do
  let r ← replicateListFK "counts_by_year" "author_id" r
  replicateObjFK "ids" "author_id" r

def parseFields (o : RawObj) : Except String Author := do
  let id ← pReqStr (rget o "id")
  let orcid ← pOpt pStr (rget o "orcid")
  let display_name ← pOpt pStr (rget o "display_name")
  let display_name_alternatives ← pOpt pStrList (rget o "display_name_alternatives")
  let display_name_alternatives := removeQuotationMarks display_name_alternatives
  let display_name_alternatives := notEmptyList display_name_alternatives
  let works_count ← pOpt pInt (rget o "works_count")
  let cited_by_count ← pOpt pInt (rget o "cited_by_count")
  let last_known_institution ← pOpt pStr (rget o "last_known_institution")
  let works_api_url ← pOpt pStr (rget o "works_api_url")
  let updated_date ← pOpt pDateNoTZ (rget o "updated_date")
  let ids ← pOpt (pObjWith parseAuthorIDs) (rget o "ids")
  let counts_by_year ← pOpt (pListOf parseAuthorCountByYear) (rget o "counts_by_year")
  let counts_by_year := notEmptyList counts_by_year
  let affiliations ← pOpt (pListOf parseAuthorAffiliation) (rget o "affiliations")
  let created_date ← pOpt pDate8601 (rget o "created_date")
  let last_known_institutions ← pOpt (pListOf parseDehydratedInstitution)
    (rget o "last_known_institutions")
  let summary_stats ← pOpt (pObjWith parseSummaryStats) (rget o "summary_stats")
  pure { id := id, orcid := orcid, display_name := display_name,
         display_name_alternatives := display_name_alternatives,
         works_count := works_count, cited_by_count := cited_by_count,
         last_known_institution := last_known_institution,
         works_api_url := works_api_url, updated_date := updated_date, ids := ids,
         counts_by_year := counts_by_year, affiliations := affiliations,
         created_date := created_date,
         last_known_institutions := last_known_institutions,
         summary_stats := summary_stats }

/-- `Author(**raw)`. -/
def parse (r : RawObj) : Except String Author :=
  Author.before r >>= Author.parseFields

end Author

/-! ## Topics -/

structure TopicDomainOrField where
  id : String
  display_name : String
  deriving DecidableEq, Repr

structure TopicIDs where
  openalex : Option String := none
  wikipedia : Option String := none
  deriving DecidableEq, Repr

structure Topic where
  id : String
  display_name : Option String := none
  subfield_id : Option String := none
  subfield_display_name : Option String := none
  field_id : Option String := none
  field_display_name : Option String := none
  domain_id : Option String := none
  domain_display_name : Option String := none
  description : Option String := none
  works_api_url : Option String := none
  wikipedia_id : Option String := none
  works_count : Option ℤ := none
  cited_by_count : Option ℤ := none
  updated_date : Option String := none
  domain : Option TopicDomainOrField := none
  field : Option TopicDomainOrField := none
  ids : Option TopicIDs := none
  keywords : Option (List String) := none
  subfield : Option TopicDomainOrField := none
  deriving DecidableEq, Repr

/-- Inner body of a JSON string: handles the `\"` and `\\` escapes. -/
def jsonStrBody (acc : List Char) : List Char → Option (String × List Char)
  | [] => none
  | '\\' :: c :: rest =>
    if c = '"' then jsonStrBody (acc ++ ['"']) rest
    else if c = '\\' then jsonStrBody (acc ++ ['\\']) rest
    else none
  | '"' :: rest => some (String.mk acc, rest)
  | c :: rest => jsonStrBody (acc ++ [c]) rest

/-- Elements of a JSON array of strings, after the opening bracket. -/
def jsonArrLoop : Nat → List Char → Option (List String)
  | _, ']' :: rest => if rest.isEmpty then some [] else none
  | 0, _ => none
  | fuel + 1, '"' :: rest =>
    match jsonStrBody [] rest with
    | none => none
    | some (s, rest2) =>
      match rest2 with
      | ',' :: rest3 => (jsonArrLoop fuel rest3).map (s :: ·)
      | ']' :: rest3 => if rest3.isEmpty then some [s] else none
      | _ => none
  | _ + 1, _ => none

/-- `orjson.loads` restricted to the JSON-array-of-strings payloads the
`keywords` field carries (anything else fails). -/
def jsonParseStrList (s : String) : Option (List String) :=
  match s.data with
  | '[' :: rest => jsonArrLoop rest.length rest
  | _ => none

def parseTopicDomainOrField (o : RawObj) : Except String TopicDomainOrField := do
  let id ← pReqStr (rget o "id")
  let display_name ← pReqStr (rget o "display_name")
  pure { id := id, display_name := display_name }

def parseTopicIDs (o : RawObj) : Except String TopicIDs := do
  let openalex ← pOpt pStr (rget o "openalex")
  let wikipedia ← pOpt pStr (rget o "wikipedia")
  pure { openalex := openalex, wikipedia := wikipedia }

namespace Topic

/-- `Topic._str_to_list` (mode="before"): indexes `self["keywords"]`
unconditionally, so a mapping without the key fails with a `KeyError`; a
string value is decoded from JSON into a list. -/
def strToList (r : RawObj) : Except String RawObj :=
  match rget r "keywords" with
  | none => .error "KeyError: keywords"
  | some (.str s) =>
    match jsonParseStrList s with
    | some xs => .ok (rset r "keywords" (.arr (xs.map JVal.str)))
    | none => .error "JSONDecodeError"
  | some _ => .ok r

/-- `Topic._replicate_id` (mode="before"): copy the topic id into
`ids["openalex"]`. -/
def replicateId (r : RawObj) : Except String RawObj :=
  replicateObjFK "ids" "openalex" r

def parseFields (o : RawObj) : Except String Topic := do
  let id ← pReqStr (rget o "id")
  let display_name ← pOpt pStr (rget o "display_name")
  let subfield_id ← pOpt pStr (rget o "subfield_id")
  let subfield_display_name ← pOpt pStr (rget o "subfield_display_name")
  let field_id ← pOpt pStr (rget o "field_id")
  let field_display_name ← pOpt pStr (rget o "field_display_name")
  let domain_id ← pOpt pStr (rget o "domain_id")
  let domain_display_name ← pOpt pStr (rget o "domain_display_name")
  let description ← pOpt pStr (rget o "description")
  let works_api_url ← pOpt pUrl (rget o "works_api_url")
  let wikipedia_id ← pOpt pStr (rget o "wikipedia_id")
  let works_count ← pOpt pInt (rget o "works_count")
  let cited_by_count ← pOpt pInt (rget o "cited_by_count")
  let updated_date ← pOpt pDateNoTZ (rget o "updated_date")
  let domain ← pOpt (pObjWith parseTopicDomainOrField) (rget o "domain")
  let field ← pOpt (pObjWith parseTopicDomainOrField) (rget o "field")
  let ids ← pOpt (pObjWith parseTopicIDs) (rget o "ids")
  let keywords ← pOpt pStrList (rget o "keywords")
  let subfield ← pOpt (pObjWith parseTopicDomainOrField) (rget o "subfield")
  pure { id := id, display_name := display_name, subfield_id := subfield_id,
         subfield_display_name := subfield_display_name, field_id := field_id,
         field_display_name := field_display_name, domain_id := domain_id,
         domain_display_name := domain_display_name, description := description,
         works_api_url := works_api_url, wikipedia_id := wikipedia_id,
         works_count := works_count, cited_by_count := cited_by_count,
         updated_date := updated_date, domain := domain, field := field, ids := ids,
         keywords := keywords, subfield := subfield }

/-- `Topic._check_ids` (mode="after"). -/
def checkIds (t : Topic) : Except String Topic :=
  match t.ids with
  | none => .ok t
  | some i =>
    if i.openalex = some t.id then .ok t
    else .error "IDs' ID and object's OpenAlex ID do not match"

/-- `Topic._flatten` (mode="after"): copy domain/field/subfield identifiers
and display names into the sibling scalar fields. -/
def flattenDF (t : Topic) : Topic :=
  let t :=
    match t.domain with
    | some d => { t with domain_id := some d.id, domain_display_name := some d.display_name }
    | none => t
  let t :=
    match t.field with
    | some f => { t with field_id := some f.id, field_display_name := some f.display_name }
    | none => t
  match t.subfield with
  | some sf =>
    { t with subfield_id := some sf.id, subfield_display_name := some sf.display_name }
  | none => t

/-- `Topic(**raw)`: before validators run in reverse definition order, so
`_str_to_list` runs first; the after validators run on the constructed
object. -/
def parse (r : RawObj) : Except String Topic := do
  let r ← Topic.strToList r
  let r ← Topic.replicateId r
  let t ← Topic.parseFields r
  let t ← Topic.checkIds t
  pure (Topic.flattenDF t)

end Topic

/-! ## SQL-safe Works

The class of canonical Works on which the `project`/`from_sql` round trip
can succeed: every populated field lies in the projected columns, the
foreign keys agree with the root id, no projected string accidentally
matches the ISO-datetime reparse heuristic of `to_sql_values`, the stored
dates are canonical isoformat strings, and the abstract inverted index
(whose dict is serialized to a JSON string the `dict` field then rejects)
is absent. -/

def looksIso (s : String) : Prop :=
  10 ≤ s.length ∧ s.data.getD 4 ' ' = '-' ∧ s.data.getD 7 ' ' = '-'

instance (s : String) : Decidable (looksIso s) := by unfold looksIso; infer_instance

def StrSafe (s : String) : Prop := ¬looksIso s

instance (s : String) : Decidable (StrSafe s) := by unfold StrSafe; infer_instance

def OStrSafe : Option String → Prop
  | none => True
  | some s => StrSafe s

instance (o : Option String) : Decidable (OStrSafe o) := by
  cases o <;> unfold OStrSafe <;> infer_instance

/-- A canonical (`isoformat`-shaped) stored datetime string. -/
def dateCanonical (s : String) : Prop :=
  match parseIso s with
  | none => False
  | some t => s = t.isoformat

instance (s : String) : Decidable (dateCanonical s) :=
  match h : parseIso s with
  | none => .isFalse (by simp [dateCanonical, h])
  | some t => decidable_of_iff (s = t.isoformat) (by simp [dateCanonical, h])

def ODateSafe : Option String → Prop
  | none => True
  | some s => dateCanonical s

instance (o : Option String) : Decidable (ODateSafe o) := by
  cases o <;> unfold ODateSafe <;> infer_instance

def OptAll (P : α → Prop) : Option α → Prop
  | none => True
  | some x => P x

instance (P : α → Prop) [DecidablePred P] (o : Option α) : Decidable (OptAll P o) := by
  cases o <;> unfold OptAll <;> infer_instance

def ListAll (P : α → Prop) (l : List α) : Prop := ∀ x ∈ l, P x

instance (P : α → Prop) [DecidablePred P] (l : List α) : Decidable (ListAll P l) := by
  unfold ListAll; infer_instance

instance (P : α → Prop) [DecidablePred P] : DecidablePred (ListAll P) := fun l => by
  unfold ListAll; infer_instance

def WorkIDs.Safe (wid : String) (i : WorkIDs) : Prop :=
  i.work_id = wid ∧ OStrSafe i.openalex ∧ OStrSafe i.doi ∧ OStrSafe i.pmid ∧
    OStrSafe i.pmcid

def BaseWorkLocation.Safe (wid : String) (l : BaseWorkLocation) : Prop :=
  l.work_id = some wid ∧ OStrSafe l.source_id ∧ OStrSafe l.landing_page_url ∧
    OStrSafe l.pdf_url ∧
    l.version ∈ [none, some "publishedVersion", some "acceptedVersion",
      some "submittedVersion"] ∧
    OStrSafe l.license ∧ l.source = none ∧ l.is_accepted = none ∧ l.is_published = none

def WorkAuthorship.Safe (wid : String) (a : WorkAuthorship) : Prop :=
  a.work_id = some wid ∧
    a.author_position ∈ [none, some "first", some "last", some "middle"] ∧
    OStrSafe a.author_id ∧ OStrSafe a.institution_id ∧
    OStrSafe a.raw_affiliation_string ∧ a.author = none ∧ a.countries = none ∧
    a.institutions = none ∧ a.is_corresponding = none ∧ a.raw_author_name = none

def WorkBiblio.Safe (wid : String) (b : WorkBiblio) : Prop :=
  b.work_id = some wid ∧ OStrSafe b.volume ∧ OStrSafe b.issue ∧ OStrSafe b.first_page ∧
    OStrSafe b.last_page

def WorkTopic.Safe (wid : String) (t : WorkTopic) : Prop :=
  t.work_id = some wid ∧ OStrSafe t.topic_id ∧ t.subfield = none

def WorkConcept.Safe (wid : String) (c : WorkConcept) : Prop :=
  c.work_id = some wid ∧ OStrSafe c.concept_id

def WorkMesh.Safe (wid : String) (m : WorkMesh) : Prop :=
  m.work_id = some wid ∧ OStrSafe m.descriptor_ui ∧ OStrSafe m.descriptor_name ∧
    OStrSafe m.qualifier_ui ∧ OStrSafe m.qualifier_name

def WorkOpenAccess.Safe (wid : String) (oa : WorkOpenAccess) : Prop :=
  oa.work_id = some wid ∧ OStrSafe oa.oa_status ∧ OStrSafe oa.oa_url

def WorkReferencedWork.Safe (wid : String) (x : WorkReferencedWork) : Prop :=
  x.work_id = some wid ∧ OStrSafe x.referenced_work_id

def WorkRelatedWork.Safe (wid : String) (x : WorkRelatedWork) : Prop :=
  x.work_id = some wid ∧ OStrSafe x.related_work_id

/-- Safety plus the open-access mark `_validate_best_oa_location` demands. -/
def BaseWorkLocation.SafeOA (wid : String) (l : BaseWorkLocation) : Prop :=
  BaseWorkLocation.Safe wid l ∧ l.is_oa = some true

instance (wid : String) : DecidablePred (WorkIDs.Safe wid) := fun _ => by
  unfold WorkIDs.Safe; infer_instance

instance (wid : String) : DecidablePred (BaseWorkLocation.Safe wid) := fun _ => by
  unfold BaseWorkLocation.Safe; infer_instance

instance (wid : String) : DecidablePred (BaseWorkLocation.SafeOA wid) := fun _ => by
  unfold BaseWorkLocation.SafeOA; infer_instance

instance (wid : String) : DecidablePred (WorkAuthorship.Safe wid) := fun _ => by
  unfold WorkAuthorship.Safe; infer_instance

instance (wid : String) : DecidablePred (WorkBiblio.Safe wid) := fun _ => by
  unfold WorkBiblio.Safe; infer_instance

instance (wid : String) : DecidablePred (WorkTopic.Safe wid) := fun _ => by
  unfold WorkTopic.Safe; infer_instance

instance (wid : String) : DecidablePred (WorkConcept.Safe wid) := fun _ => by
  unfold WorkConcept.Safe; infer_instance

instance (wid : String) : DecidablePred (WorkMesh.Safe wid) := fun _ => by
  unfold WorkMesh.Safe; infer_instance

instance (wid : String) : DecidablePred (WorkOpenAccess.Safe wid) := fun _ => by
  unfold WorkOpenAccess.Safe; infer_instance

instance (wid : String) : DecidablePred (WorkReferencedWork.Safe wid) := fun _ => by
  unfold WorkReferencedWork.Safe; infer_instance

instance (wid : String) : DecidablePred (WorkRelatedWork.Safe wid) := fun _ => by
  unfold WorkRelatedWork.Safe; infer_instance

def Work.SqlSafe (w : Work) : Prop :=
  StrSafe w.id ∧ OStrSafe w.doi ∧ OStrSafe w.title ∧ OStrSafe w.display_name ∧
    ODateSafe w.publication_date ∧ OStrSafe w.type ∧ OStrSafe w.cited_by_api_url ∧
    w.abstract_inverted_index = none ∧ OStrSafe w.language ∧
    OptAll (WorkIDs.Safe w.id) w.ids ∧
    OptAll (ListAll (BaseWorkLocation.Safe w.id)) w.locations ∧
    OptAll (ListAll (WorkAuthorship.Safe w.id)) w.authorships ∧
    OptAll (WorkBiblio.Safe w.id) w.biblio ∧
    OptAll (ListAll (WorkTopic.Safe w.id)) w.topics ∧
    OptAll (ListAll (WorkConcept.Safe w.id)) w.concepts ∧
    OptAll (ListAll (WorkMesh.Safe w.id)) w.mesh ∧
    OptAll (WorkOpenAccess.Safe w.id) w.open_access ∧
    OptAll (ListAll (WorkReferencedWork.Safe w.id)) w.referenced_works ∧
    OptAll (ListAll (WorkRelatedWork.Safe w.id)) w.related_works ∧
    OptAll (BaseWorkLocation.SafeOA w.id) w.best_oa_location ∧
    OptAll (BaseWorkLocation.Safe w.id) w.primary_location ∧
    w.apc_list = none ∧ w.apc_paid = none ∧ w.corresponding_author_ids = none ∧
    w.corresponding_institution_ids = none ∧ w.countries_distinct_count = none ∧
    w.created_date = none ∧ w.counts_by_year = none ∧ w.fulltext_origin = none ∧
    w.fwci = none ∧ w.grants = none ∧ w.has_fulltext = none ∧ w.indexed_in = none ∧
    w.institutions_distinct_count = none ∧ w.keywords = none ∧ w.license = none ∧
    w.locations_count = none ∧ w.primary_topic = none ∧
    w.sustainable_development_goals = none ∧ w.type_crossref = none ∧
    w.updated_date = none ∧ w.abstract_embedding_nomic_embed_text = none

set_option synthInstance.maxSize 2000 in
set_option synthInstance.maxHeartbeats 1000000 in
instance (w : Work) : Decidable w.SqlSafe := by
  unfold Work.SqlSafe
  infer_instance

/-! ## General lemmas about the dict model and `Except` -/

theorem rget_rset_self (r : RawObj) (k : String) (v : JVal) :
    rget (rset r k v) k = some v := by
  induction r with
  | nil => simp [rset, rget]
  | cons p rest ih =>
    by_cases h : p.1 = k
    · simp [rset, rget, h]
    · simp [rset, rget, h, ih]

theorem rget_rset_ne (r : RawObj) {k' k : String} (v : JVal) (h : k' ≠ k) :
    rget (rset r k' v) k = rget r k := by
  induction r with
  | nil => simp [rset, rget, h]
  | cons p rest ih =>
    obtain ⟨k1, v1⟩ := p
    by_cases hp : k1 = k'
    · subst hp
      simp [rset, rget, h]
    · by_cases hk : k1 = k
      · simp [rset, rget, hp, hk, Ne.symm h]
      · simp [rset, rget, hp, hk, ih]

theorem rset_rset_same (r : RawObj) (k : String) (v v' : JVal) :
    rset (rset r k v) k v' = rset r k v' := by
  induction r with
  | nil => simp [rset]
  | cons p rest ih =>
    obtain ⟨k1, v1⟩ := p
    by_cases h : k1 = k
    · simp [rset, h]
    · simp [rset, h, ih]

theorem rset_eq_self {r : RawObj} {k : String} {v : JVal} (h : rget r k = some v) :
    rset r k v = r := by
  induction r with
  | nil => simp [rget] at h
  | cons p rest ih =>
    obtain ⟨k1, v1⟩ := p
    by_cases hp : k1 = k
    · subst hp
      simp [rget] at h
      simp [rset, h]
    · simp [rget, hp] at h
      simp [rset, hp, ih h]

theorem rget_rdel_ne (r : RawObj) {k' k : String} (h : k' ≠ k) :
    rget (rdel r k') k = rget r k := by
  induction r with
  | nil => simp [rdel, rget]
  | cons p rest ih =>
    obtain ⟨k1, v1⟩ := p
    by_cases hp : k1 = k'
    · subst hp
      simp [rdel, rget, h, ih]
    · by_cases hk : k1 = k
      · simp [rdel, rget, hp, hk, Ne.symm h]
      · simp [rdel, rget, hp, hk, ih]

theorem rdel_rset_comm (r : RawObj) {k' k : String} (v : JVal) (h : k' ≠ k) :
    rdel (rset r k v) k' = rset (rdel r k') k v := by
  induction r with
  | nil => simp [rdel, rset, Ne.symm h]
  | cons p rest ih =>
    obtain ⟨k1, v1⟩ := p
    by_cases hp : k1 = k
    · subst hp
      simp [rdel, rset, Ne.symm h, h]
    · by_cases hq : k1 = k'
      · subst hq
        simp [rdel, rset, hp, ih]
      · simp [rdel, rset, hp, hq, ih]

theorem exceptBindOk {x : Except ε α} {f : α → Except ε β} {b : β} :
    x >>= f = .ok b ↔ ∃ a, x = .ok a ∧ f a = .ok b := by
  cases x <;> simp [Bind.bind, Except.bind]

theorem exceptPureOk {a : α} {b : α} :
    (pure a : Except ε α) = .ok b ↔ a = b := by
  simp [Pure.pure, Except.pure]

theorem mapM_ok_of_forall {f : α → Except ε β} {g : α → β} :
    ∀ {l : List α}, (∀ x ∈ l, f x = .ok (g x)) → l.mapM f = .ok (l.map g)
  | [], _ => by rw [List.mapM_nil]; rfl
  | x :: xs, h => by
    have hx := h x (by simp)
    have hxs := mapM_ok_of_forall (l := xs) (fun y hy => h y (by simp [hy]))
    rw [List.mapM_cons, hx, hxs]
    rfl

theorem mapM_ok_id {f : α → Except ε α} {l : List α} (h : ∀ x ∈ l, f x = .ok x) :
    l.mapM f = .ok l := by
  have := mapM_ok_of_forall (g := id) (l := l) (by simpa using h)
  simpa using this

theorem mapM_ok_imp {f : α → Except ε β} :
    ∀ {l : List α} {l' : List β}, l.mapM f = .ok l' →
      List.Forall₂ (fun x y => f x = .ok y) l l'
  | [], l', h => by
    rw [List.mapM_nil, exceptPureOk] at h
    subst h
    exact .nil
  | x :: xs, l', h => by
    rw [List.mapM_cons] at h
    rw [exceptBindOk] at h
    obtain ⟨y, hx, h⟩ := h
    rw [exceptBindOk] at h
    obtain ⟨ys, hxs, h⟩ := h
    rw [exceptPureOk] at h
    subst h
    exact .cons hx (mapM_ok_imp hxs)

theorem flatten_map_singleton (l : List α) : (l.map fun y => [y]).flatten = l := by
  induction l with
  | nil => simp
  | cons x xs ih => simp [ih]

/-! ## Claims -/

/-- C3: the claim says every counts_by_year entry of a Work carries the
work's id under `work_id`.  The code (`Work._replicate_id_1`) instead
injects the id under `author_id` — and `WorkCountByYear` declares neither
field, so the foreign key is silently dropped from the canonical object:
the before-validators leave the entry with `author_id = "W1"` and no
`work_id`, and construction succeeds with a `WorkCountByYear` record that
carries no foreign key at all. -/
theorem claim_C3 :
    Work.before [("id", .str "W1"),
        ("counts_by_year", .arr [.obj [("year", .num 2020), ("cited_by_count", .num 5)]])] =
      .ok [("id", .str "W1"),
        ("counts_by_year", .arr [.obj [("year", .num 2020), ("cited_by_count", .num 5),
          ("author_id", .str "W1")]])] ∧
    rget [("year", .num 2020), ("cited_by_count", .num 5), ("author_id", .str "W1")]
        "work_id" = none ∧
    rget [("year", .num 2020), ("cited_by_count", .num 5), ("author_id", .str "W1")]
        "author_id" = some (.str "W1") ∧
    Work.parse [("id", .str "W1"),
        ("counts_by_year", .arr [.obj [("year", .num 2020), ("cited_by_count", .num 5)]])] =
      .ok { id := "W1", counts_by_year := some [{ year := 2020, cited_by_count := 5 }] } :=
  ⟨rfl, rfl, rfl, rfl⟩

/-- C5: normalizing a work whose `best_oa_location.is_oa = false` fails
with a validation error, and the same record with `is_oa = true` succeeds;
in general `_validate_best_oa_location` accepts a present location exactly
when it is marked open-access. -/
theorem claim_C5 :
    Work.parse [("id", .str "W1"), ("best_oa_location", .obj [("is_oa", .bool false)])] =
      .error "best_oa_location must be OA." ∧
    Work.parse [("id", .str "W1"), ("best_oa_location", .obj [("is_oa", .bool true)])] =
      .ok { id := "W1",
            best_oa_location := some { work_id := some "W1", is_oa := some true } } ∧
    (∀ loc : BaseWorkLocation,
      validateBestOA (some loc) = .ok (some loc) ↔ loc.is_oa = some true) ∧
    validateBestOA none = .ok none := by
  refine ⟨rfl, rfl, fun loc => ?_, rfl⟩
  rcases h : loc.is_oa with _ | b
  · simp [validateBestOA, h]
  · cases b <;> simp [validateBestOA, h]

/-- C6: the derived abstract of a Work places each word of the positional
inverted index at each of its positions and joins with single spaces: for
the index `the ↦ [0], cat ↦ [1], sat ↦ [2]` the abstract is exactly
"the cat sat"; an absent index gives an absent abstract, and an empty
index is collapsed to absent by `_validate_abstract_inverted_index`, so
the abstract is `None`, never the empty string. -/
theorem claim_C6 :
    constructAbstractFromIndex
        [("the", .arr [.num 0]), ("cat", .arr [.num 1]), ("sat", .arr [.num 2])] =
      .ok "the cat sat" ∧
    Work.parse [("id", .str "W1"),
        ("abstract_inverted_index",
          .obj [("the", .arr [.num 0]), ("cat", .arr [.num 1]), ("sat", .arr [.num 2])])] =
      .ok { id := "W1",
            abstract_inverted_index :=
              some [("the", .arr [.num 0]), ("cat", .arr [.num 1]), ("sat", .arr [.num 2])] } ∧
    Work.abstract
        { id := "W1",
          abstract_inverted_index :=
            some [("the", .arr [.num 0]), ("cat", .arr [.num 1]), ("sat", .arr [.num 2])] } =
      .ok (some "the cat sat") ∧
    Work.parse [("id", .str "W1"), ("abstract_inverted_index", .obj [])] =
      .ok { id := "W1" } ∧
    Work.parse [("id", .str "W1")] = .ok { id := "W1" } ∧
    Work.abstract { id := "W1" } = .ok none :=
  ⟨rfl, rfl, rfl, rfl, rfl, rfl⟩

/-- C7: a work `"W1"` with `related_works: ["W2", "W3"]` has each bare id
wrapped into the two-column relation shape, and the related-works table
rows are exactly `("W1","W2")` and `("W1","W3")`, in that order. -/
theorem claim_C7 :
    Work.parse [("id", .str "W1"), ("related_works", .arr [.str "W2", .str "W3"])] =
      .ok { id := "W1",
            related_works := some [
              { work_id := some "W1", related_work_id := some "W2" },
              { work_id := some "W1", related_work_id := some "W3" }] } ∧
    sfind (Work.projectSubs
        { id := "W1",
          related_works := some [
            { work_id := some "W1", related_work_id := some "W2" },
            { work_id := some "W1", related_work_id := some "W3" }] }) "related_works" =
      some (.many [[.str "W1", .str "W2"], [.str "W1", .str "W3"]]) :=
  ⟨rfl, rfl⟩

/-- C1 counterexample: a canonical Work produced by normalization whose
abstract inverted index is present does not survive `project` followed by
`from_sql`: `to_sql_values` serializes the dict to a JSON string, and
re-validation rejects the string for the `dict`-typed field, so hydration
fails instead of returning the object. -/
theorem claim_C1_counterexample :
    Work.parse [("id", .str "W1"), ("abstract_inverted_index", .obj [("a", .arr [.num 0])])] =
      .ok { id := "W1", abstract_inverted_index := some [("a", .arr [.num 0])] } ∧
    Work.from_sql
        (Work.project { id := "W1", abstract_inverted_index := some [("a", .arr [.num 0])] }).1
        (Work.project { id := "W1", abstract_inverted_index := some [("a", .arr [.num 0])] }).2 =
      .error "dict expected" :=
  ⟨rfl, rfl⟩

/-- C2 counterexample: a work record whose authorship has no institutions
list but supplies an `institution_id` of its own normalizes to a single
authorship row whose institution column is that value, not null — the
claim's "its institution_id is null" does not hold for every work
record. -/
theorem claim_C2_counterexample :
    Work.parse [("id", .str "W1"),
        ("authorships", .arr [.obj [("institution_id", .str "I9")]])] =
      .ok { id := "W1",
            authorships := some [{ work_id := some "W1", institution_id := some "I9" }] } ∧
    sfind (Work.projectSubs
        { id := "W1",
          authorships := some [{ work_id := some "W1", institution_id := some "I9" }] })
        "authorships" =
      some (.many [[.str "W1", .null, .null, .str "I9", .null]]) ∧
    SQLValue.str "I9" ≠ SQLValue.null :=
  ⟨rfl, rfl, by decide⟩

/-- C4 counterexample: relation wrapping is not idempotent on the
already-normalized structure.  Re-running the before-validators on the
normalized raw mapping wraps each already-wrapped relation dict again
(nesting it under "id"), yielding a different mapping, and re-validating
the normalized structure fails outright. -/
theorem claim_C4_counterexample :
    Work.before [("id", .str "W1"), ("related_works", .arr [.str "W2"])] =
      .ok [("id", .str "W1"),
        ("related_works", .arr [.obj [("id", .str "W2"), ("work_id", .str "W1")]])] ∧
    Work.before [("id", .str "W1"),
        ("related_works", .arr [.obj [("id", .str "W2"), ("work_id", .str "W1")]])] =
      .ok [("id", .str "W1"),
        ("related_works", .arr [.obj [
          ("id", .obj [("id", .str "W2"), ("work_id", .str "W1")]),
          ("work_id", .str "W1")]])] ∧
    ([("id", JVal.str "W1"),
        ("related_works", JVal.arr [.obj [
          ("id", .obj [("id", .str "W2"), ("work_id", .str "W1")]),
          ("work_id", .str "W1")]])] : RawObj) ≠
      [("id", JVal.str "W1"),
        ("related_works", JVal.arr [.obj [("id", .str "W2"), ("work_id", .str "W1")]])] ∧
    Work.parse [("id", .str "W1"),
        ("related_works", .arr [.obj [("id", .str "W2"), ("work_id", .str "W1")]])] =
      .error "str expected" :=
  ⟨rfl, rfl, by decide, rfl⟩

/-- C8 counterexample: the empty-list collapse is not a property of every
declared list field of every root kind: a Work record with
`locations: []` normalizes to an object carrying an empty list, observably
different from the record omitting the field. -/
theorem claim_C8_counterexample :
    Work.parse [("id", .str "W1"), ("locations", .arr [])] =
      .ok { id := "W1", locations := some [] } ∧
    Work.parse [("id", .str "W1")] = .ok { id := "W1" } ∧
    ({ id := "W1", locations := some [] } : Work) ≠ { id := "W1" } :=
  ⟨rfl, rfl, by decide⟩



theorem getId_congr {r₂ r₁ : RawObj} (h : rget r₂ "id" = rget r₁ "id") :
    getId r₂ = getId r₁ := by
  unfold getId
  rw [h]

theorem replicateListFK_ok_iff {f fk : String} {r r' : RawObj} :
    replicateListFK f fk r = .ok r' ↔
      ((rget r f = none ∨ rget r f = some .null ∨ rget r f = some (.arr [])) ∧ r' = r) ∨
      (∃ x xs idv xs', rget r f = some (.arr (x :: xs)) ∧ getId r = .ok idv ∧
        (x :: xs).mapM (repElem fk idv) = .ok xs' ∧ r' = rset r f (.arr xs')) := by
  cases hr : rget r f with
  | none => simp [replicateListFK, hr, eq_comm]
  | some v =>
    cases v with
    | null => simp [replicateListFK, hr, eq_comm]
    | arr xs =>
      cases xs with
      | nil => simp [replicateListFK, hr, eq_comm]
      | cons x xs =>
        simp only [replicateListFK, hr]
        simp only [exceptBindOk, Except.ok.injEq]
        constructor
        · rintro ⟨idv, hid, xs', hm, h⟩
          exact Or.inr ⟨x, xs, idv, xs', rfl, hid, hm, h.symm⟩
        · rintro (⟨h1, _⟩ | ⟨x0, xs0, idv, xs', heq, hid, hm, h⟩)
          · rcases h1 with h1 | h1 | h1 <;> simp at h1
          · simp only [Option.some.injEq, JVal.arr.injEq, List.cons.injEq] at heq
            obtain ⟨rfl, rfl⟩ := heq
            exact ⟨idv, hid, xs', hm, h.symm⟩
    | str s => simp [replicateListFK, hr]
    | num q => simp [replicateListFK, hr]
    | bool b => simp [replicateListFK, hr]
    | obj o => simp [replicateListFK, hr]
    | dt t => simp [replicateListFK, hr]

theorem replicateObjFK_ok_iff {f fk : String} {r r' : RawObj} :
    replicateObjFK f fk r = .ok r' ↔
      ((rget r f = none ∨ rget r f = some .null) ∧ r' = r) ∨
      (∃ o idv, rget r f = some (.obj o) ∧ getId r = .ok idv ∧
        r' = rset r f (.obj (rset o fk idv))) := by
  cases hr : rget r f with
  | none => simp [replicateObjFK, hr, eq_comm]
  | some v =>
    cases v with
    | null => simp [replicateObjFK, hr, eq_comm]
    | obj o =>
      simp only [replicateObjFK, hr]
      simp only [exceptBindOk, Except.ok.injEq]
      constructor
      · rintro ⟨idv, hid, h⟩
        exact Or.inr ⟨o, idv, rfl, hid, h.symm⟩
      · rintro (⟨h1, _⟩ | ⟨o0, idv, heq, hid, h⟩)
        · rcases h1 with h1 | h1 <;> simp at h1
        · simp only [Option.some.injEq, JVal.obj.injEq] at heq
          subst heq
          exact ⟨idv, hid, h.symm⟩
    | str s => simp [replicateObjFK, hr]
    | num q => simp [replicateObjFK, hr]
    | bool b => simp [replicateObjFK, hr]
    | arr a => simp [replicateObjFK, hr]
    | dt t => simp [replicateObjFK, hr]



theorem forall₂_mem_right {R : α → β → Prop} :
    ∀ {l₁ : List α} {l₂ : List β}, List.Forall₂ R l₁ l₂ → ∀ y ∈ l₂, ∃ x ∈ l₁, R x y := by
  intro l₁ l₂ h
  induction h with
  | nil => intro y hy; cases hy
  | cons hxy htail ih =>
    intro y hy
    rcases hy with _ | hy
    · exact ⟨_, by simp, hxy⟩
    · obtain ⟨x, hx, hr⟩ := ih _ (by assumption)
      exact ⟨x, by simp [hx], hr⟩

theorem repElem_stable {fk : String} {idv : JVal} {x z : JVal}
    (h : repElem fk idv x = .ok z) : repElem fk idv z = .ok z := by
  cases x with
  | obj o =>
    simp only [repElem, Except.ok.injEq] at h
    subst h
    simp [repElem, rset_rset_same]
  | null => cases h
  | str s => cases h
  | num q => cases h
  | bool b => cases h
  | arr a => cases h
  | dt t => cases h

/-- A mapping on which list replication has run is a fixed point of list
replication, as long as the field and the id are unchanged. -/
theorem replicateListFK_fixed {f fk : String} {r r' r₂ : RawObj}
    (hf : f ≠ "id") (h : replicateListFK f fk r = .ok r')
    (hfield : rget r₂ f = rget r' f) (hid : rget r₂ "id" = rget r' "id") :
    replicateListFK f fk r₂ = .ok r₂ := by
  rcases replicateListFK_ok_iff.mp h with ⟨h1, rfl⟩ | ⟨x, xs, idv, xs', hr, hgid, hm, rfl⟩
  · apply replicateListFK_ok_iff.mpr
    rcases h1 with h1 | h1 | h1 <;>
      exact Or.inl ⟨by rw [hfield, h1]; tauto, rfl⟩
  · apply replicateListFK_ok_iff.mpr
    have hfield' : rget r₂ f = some (.arr xs') := by rw [hfield, rget_rset_self]
    have hid' : rget r₂ "id" = rget r "id" := by rw [hid, rget_rset_ne r _ hf]
    have hstable : ∀ z ∈ xs', repElem fk idv z = .ok z := by
      intro z hz
      obtain ⟨x0, _, hx0⟩ := forall₂_mem_right (mapM_ok_imp hm) z hz
      exact repElem_stable hx0
    cases xs' with
    | nil => exact Or.inl ⟨Or.inr (Or.inr hfield'), rfl⟩
    | cons y ys =>
      refine Or.inr ⟨y, ys, idv, y :: ys, hfield', ?_, mapM_ok_id hstable, ?_⟩
      · rw [getId_congr hid']
        exact hgid
      · rw [rset_eq_self hfield']
  
theorem replicateObjFK_fixed {f fk : String} {r r' r₂ : RawObj}
    (hf : f ≠ "id") (h : replicateObjFK f fk r = .ok r')
    (hfield : rget r₂ f = rget r' f) (hid : rget r₂ "id" = rget r' "id") :
    replicateObjFK f fk r₂ = .ok r₂ := by
  rcases replicateObjFK_ok_iff.mp h with ⟨h1, rfl⟩ | ⟨o, idv, hr, hgid, rfl⟩
  · apply replicateObjFK_ok_iff.mpr
    rcases h1 with h1 | h1 <;>
      exact Or.inl ⟨by rw [hfield, h1]; tauto, rfl⟩
  · apply replicateObjFK_ok_iff.mpr
    have hfield' : rget r₂ f = some (.obj (rset o fk idv)) := by
      rw [hfield, rget_rset_self]
    have hid' : rget r₂ "id" = rget r "id" := by rw [hid, rget_rset_ne r _ hf]
    refine Or.inr ⟨rset o fk idv, idv, hfield', ?_, ?_⟩
    · rw [getId_congr hid']
      exact hgid
    · rw [rset_rset_same, rset_eq_self hfield']

theorem replicateListFK_rget {f fk g : String} {r r' : RawObj}
    (h : replicateListFK f fk r = .ok r') (hg : f ≠ g) : rget r' g = rget r g := by
  rcases replicateListFK_ok_iff.mp h with ⟨_, rfl⟩ | ⟨x, xs, idv, xs', _, _, _, rfl⟩
  · rfl
  · exact rget_rset_ne r _ hg

theorem replicateObjFK_rget {f fk g : String} {r r' : RawObj}
    (h : replicateObjFK f fk r = .ok r') (hg : f ≠ g) : rget r' g = rget r g := by
  rcases replicateObjFK_ok_iff.mp h with ⟨_, rfl⟩ | ⟨o, idv, _, _, rfl⟩
  · rfl
  · exact rget_rset_ne r _ hg



theorem expandInst_ok_shape {a : RawObj} {inst y : JVal}
    (h : expandInst a inst = .ok y) :
    ∃ io iid, inst = .obj io ∧ rget io "id" = some iid ∧
      y = .obj (rset (rset a "institution_id" iid) "institutions" (.arr [.obj io])) := by
  cases inst with
  | obj io =>
    cases hid : rget io "id" with
    | none => simp [expandInst, hid] at h
    | some iid =>
      simp only [expandInst, hid, Except.ok.injEq] at h
      exact ⟨io, iid, rfl, hid, h.symm⟩
  | null => cases h
  | str s => cases h
  | num q => cases h
  | bool b => cases h
  | arr a2 => cases h
  | dt t => cases h

theorem expandAuth_obj_expand {a : RawObj} {insts : List JVal} {i : JVal} {is : List JVal}
    (hai : rget a "institutions" = some (.arr insts)) (hne : insts = i :: is) :
    expandAuth (.obj a) = insts.mapM (expandInst a) := by
  subst hne
  have hchk : check "institutions" a = true := by simp [check, hai]
  simp only [expandAuth, hchk, if_true, hai]

theorem expandAuth_stable {x : JVal} {ys : List JVal}
    (h : expandAuth x = .ok ys) : ∀ y ∈ ys, expandAuth y = .ok [y] := by
  intro y hy
  cases x with
  | null => cases h
  | num q => cases h
  | bool b => cases h
  | dt t => cases h
  | str s =>
    by_cases hc : containsSub "institutions".data s.data
    · simp [expandAuth, hc] at h
    · simp only [expandAuth, hc, if_false, Bool.false_eq_true, Except.ok.injEq] at h
      subst h
      simp at hy
      subst hy
      simp [expandAuth, hc]
  | arr xs =>
    by_cases hc : JVal.str "institutions" ∈ xs
    · simp [expandAuth, hc] at h
    · simp only [expandAuth] at h
      rw [if_neg (by simpa using hc)] at h
      cases h
      simp at hy
      subst hy
      simp only [expandAuth]
      rw [if_neg (by simpa using hc)]
  | obj a =>
    by_cases hchk : check "institutions" a
    · cases hai : rget a "institutions" with
      | none =>
        simp only [expandAuth, hchk, if_true, hai, Except.ok.injEq] at h
        subst h
        simp at hy
        subst hy
        simp only [expandAuth, hchk, if_true, hai]
      | some v =>
        cases v with
        | null => simp [check, hai] at hchk
        | str s =>
          by_cases hs : s.isEmpty
          · simp only [expandAuth, hchk, if_true, hai, hs, Except.ok.injEq] at h
            subst h
            simp at hy
            subst hy
            simp only [expandAuth, hchk, if_true, hai, hs]
          · simp only [expandAuth, hchk, if_true, hai] at h
            rw [if_neg (by simpa using hs)] at h
            cases h
        | num q => simp only [expandAuth, hchk, if_true, hai] at h; cases h
        | bool b => simp only [expandAuth, hchk, if_true, hai] at h; cases h
        | dt t => simp only [expandAuth, hchk, if_true, hai] at h; cases h
        | obj o =>
          cases o with
          | nil =>
            simp only [expandAuth, hchk, if_true, hai, Except.ok.injEq] at h
            subst h
            simp at hy
            subst hy
            simp only [expandAuth, hchk, if_true, hai]
          | cons p ps => simp only [expandAuth, hchk, if_true, hai] at h; cases h
        | arr insts =>
          cases insts with
          | nil =>
            simp only [expandAuth, hchk, if_true, hai, Except.ok.injEq] at h
            subst h
            simp at hy
            subst hy
            simp only [expandAuth, hchk, if_true, hai]
          | cons i is =>
            rw [expandAuth_obj_expand hai rfl] at h
            obtain ⟨inst, _, hexp⟩ := forall₂_mem_right (mapM_ok_imp h) y hy
            obtain ⟨io, iid, rfl, hiid, rfl⟩ := expandInst_ok_shape hexp
            have hS : rget (rset (rset a "institution_id" iid) "institutions"
                (.arr [.obj io])) "institutions" = some (.arr [.obj io]) :=
              rget_rset_self _ _ _
            have hI : rget (rset (rset a "institution_id" iid) "institutions"
                (.arr [.obj io])) "institution_id" = some iid := by
              rw [rget_rset_ne _ _ (by decide), rget_rset_self]
            rw [expandAuth_obj_expand hS rfl]
            have hstep : expandInst (rset (rset a "institution_id" iid) "institutions"
                (.arr [.obj io])) (.obj io) = .ok (.obj (rset (rset a "institution_id" iid)
                  "institutions" (.arr [.obj io]))) := by
              simp only [expandInst, hiid, Except.ok.injEq, JVal.obj.injEq]
              rw [rset_eq_self hI, rset_eq_self hS]
            rw [List.mapM_cons, hstep, List.mapM_nil]
            rfl
    · simp only [expandAuth] at h
      rw [if_neg (by simpa using hchk)] at h
      cases h
      simp at hy
      subst hy
      simp only [expandAuth]
      rw [if_neg (by simpa using hchk)]



theorem flattenAuths_ok_iff {r r' : RawObj} :
    Work.flattenAuths r = .ok r' ↔
      ((rget r "authorships" = none ∨ rget r "authorships" = some .null) ∧ r' = r) ∨
      (∃ xs ys, rget r "authorships" = some (.arr xs) ∧
        xs.mapM expandAuth = .ok ys ∧ r' = rset r "authorships" (.arr ys.flatten)) := by
  cases hr : rget r "authorships" with
  | none => simp [Work.flattenAuths, hr, eq_comm]
  | some v =>
    cases v with
    | null => simp [Work.flattenAuths, hr, eq_comm]
    | arr xs =>
      simp only [Work.flattenAuths, hr]
      simp only [exceptBindOk, Except.ok.injEq]
      constructor
      · rintro ⟨ys, hm, h⟩
        exact Or.inr ⟨xs, ys, rfl, hm, h.symm⟩
      · rintro (⟨h1, _⟩ | ⟨xs0, ys, heq, hm, h⟩)
        · rcases h1 with h1 | h1 <;> simp at h1
        · simp only [Option.some.injEq, JVal.arr.injEq] at heq
          subst heq
          exact ⟨ys, hm, h.symm⟩
    | str s => simp [Work.flattenAuths, hr]
    | num q => simp [Work.flattenAuths, hr]
    | bool b => simp [Work.flattenAuths, hr]
    | obj o => simp [Work.flattenAuths, hr]
    | dt t => simp [Work.flattenAuths, hr]

theorem flattenAuths_fixed {r r' r₂ : RawObj}
    (h : Work.flattenAuths r = .ok r')
    (hfield : rget r₂ "authorships" = rget r' "authorships") :
    Work.flattenAuths r₂ = .ok r₂ := by
  rcases flattenAuths_ok_iff.mp h with ⟨h1, rfl⟩ | ⟨xs, ys, hr, hm, rfl⟩
  · apply flattenAuths_ok_iff.mpr
    rcases h1 with h1 | h1 <;> exact Or.inl ⟨by rw [hfield, h1]; tauto, rfl⟩
  · apply flattenAuths_ok_iff.mpr
    have hfield' : rget r₂ "authorships" = some (.arr ys.flatten) := by
      rw [hfield, rget_rset_self]
    have hstable : ∀ z ∈ ys.flatten, expandAuth z = .ok [z] := by
      intro z hz
      rw [List.mem_flatten] at hz
      obtain ⟨l, hl, hzl⟩ := hz
      obtain ⟨x0, _, hx0⟩ := forall₂_mem_right (mapM_ok_imp hm) l hl
      exact expandAuth_stable hx0 z hzl
    refine Or.inr ⟨ys.flatten, ys.flatten.map (fun z => [z]), hfield', ?_, ?_⟩
    · exact mapM_ok_of_forall fun z hz => hstable z hz
    · rw [flatten_map_singleton, rset_eq_self hfield']

theorem flattenAuths_rget {g : String} {r r' : RawObj}
    (h : Work.flattenAuths r = .ok r') (hg : "authorships" ≠ g) :
    rget r' g = rget r g := by
  rcases flattenAuths_ok_iff.mp h with ⟨_, rfl⟩ | ⟨xs, ys, _, _, rfl⟩
  · rfl
  · exact rget_rset_ne r _ hg

/-- `_replicate_id_1` is idempotent: its output is a fixed point. -/
theorem rep1_idem {r r' : RawObj} (h : Work.rep1 r = .ok r') :
    Work.rep1 r' = .ok r' := by
  unfold Work.rep1 at h ⊢
  rw [exceptBindOk] at h
  obtain ⟨r1, h1, h⟩ := h
  rw [exceptBindOk] at h
  obtain ⟨r2, h2, h⟩ := h
  rw [exceptBindOk] at h
  obtain ⟨r3, h3, h⟩ := h
  rw [exceptBindOk] at h
  obtain ⟨r4, h4, h5⟩ := h
  -- key preservation: later steps do not touch earlier fields nor "id"
  have p2c := replicateObjFK_rget h2 (by decide : "ids" ≠ "counts_by_year")
  have p2i := replicateObjFK_rget h2 (by decide : "ids" ≠ "id")
  have p3c := replicateListFK_rget h3 (by decide : "locations" ≠ "counts_by_year")
  have p3i := replicateListFK_rget h3 (by decide : "locations" ≠ "id")
  have p4c := replicateListFK_rget h4 (by decide : "authorships" ≠ "counts_by_year")
  have p4i := replicateListFK_rget h4 (by decide : "authorships" ≠ "id")
  have p5c := replicateObjFK_rget h5 (by decide : "biblio" ≠ "counts_by_year")
  have p5i := replicateObjFK_rget h5 (by decide : "biblio" ≠ "id")
  have s1 : replicateListFK "counts_by_year" "author_id" r' = .ok r' := by
    apply replicateListFK_fixed (by decide) h1
    · rw [p5c, p4c, p3c, p2c]
    · rw [p5i, p4i, p3i, p2i]
  rw [exceptBindOk]
  refine ⟨r', s1, ?_⟩
  have p3l := replicateListFK_rget h3 (by decide : "locations" ≠ "ids")
  have p4l := replicateListFK_rget h4 (by decide : "authorships" ≠ "ids")
  have p5l := replicateObjFK_rget h5 (by decide : "biblio" ≠ "ids")
  have s2 : replicateObjFK "ids" "work_id" r' = .ok r' := by
    apply replicateObjFK_fixed (by decide) h2
    · rw [p5l, p4l, p3l]
    · rw [p5i, p4i, p3i]
  rw [exceptBindOk]
  refine ⟨r', s2, ?_⟩
  have p4o := replicateListFK_rget h4 (by decide : "authorships" ≠ "locations")
  have p5o := replicateObjFK_rget h5 (by decide : "biblio" ≠ "locations")
  have s3 : replicateListFK "locations" "work_id" r' = .ok r' := by
    apply replicateListFK_fixed (by decide) h3
    · rw [p5o, p4o]
    · rw [p5i, p4i]
  rw [exceptBindOk]
  refine ⟨r', s3, ?_⟩
  have p5a := replicateObjFK_rget h5 (by decide : "biblio" ≠ "authorships")
  have s4 : replicateListFK "authorships" "work_id" r' = .ok r' := by
    apply replicateListFK_fixed (by decide) h4
    · rw [p5a]
    · rw [p5i]
  rw [exceptBindOk]
  refine ⟨r', s4, ?_⟩
  exact replicateObjFK_fixed (by decide) h5 rfl rfl



/-- `_replicate_id_2` is idempotent. -/
theorem rep2_idem {r r' : RawObj} (h : Work.rep2 r = .ok r') :
    Work.rep2 r' = .ok r' := by
  unfold Work.rep2 at h ⊢
  rw [exceptBindOk] at h
  obtain ⟨r1, h1, h⟩ := h
  rw [exceptBindOk] at h
  obtain ⟨r2, h2, h⟩ := h
  rw [exceptBindOk] at h
  obtain ⟨r3, h3, h4⟩ := h
  have p2t := replicateListFK_rget h2 (by decide : "concepts" ≠ "topics")
  have p2i := replicateListFK_rget h2 (by decide : "concepts" ≠ "id")
  have p3t := replicateListFK_rget h3 (by decide : "mesh" ≠ "topics")
  have p3i := replicateListFK_rget h3 (by decide : "mesh" ≠ "id")
  have p4t := replicateObjFK_rget h4 (by decide : "open_access" ≠ "topics")
  have p4i := replicateObjFK_rget h4 (by decide : "open_access" ≠ "id")
  have s1 : replicateListFK "topics" "work_id" r' = .ok r' := by
    apply replicateListFK_fixed (by decide) h1
    · rw [p4t, p3t, p2t]
    · rw [p4i, p3i, p2i]
  rw [exceptBindOk]
  refine ⟨r', s1, ?_⟩
  have p3cc := replicateListFK_rget h3 (by decide : "mesh" ≠ "concepts")
  have p4cc := replicateObjFK_rget h4 (by decide : "open_access" ≠ "concepts")
  have s2 : replicateListFK "concepts" "work_id" r' = .ok r' := by
    apply replicateListFK_fixed (by decide) h2
    · rw [p4cc, p3cc]
    · rw [p4i, p3i]
  rw [exceptBindOk]
  refine ⟨r', s2, ?_⟩
  have p4m := replicateObjFK_rget h4 (by decide : "open_access" ≠ "mesh")
  have s3 : replicateListFK "mesh" "work_id" r' = .ok r' := by
    apply replicateListFK_fixed (by decide) h3
    · rw [p4m]
    · rw [p4i]
  rw [exceptBindOk]
  refine ⟨r', s3, ?_⟩
  exact replicateObjFK_fixed (by decide) h4 rfl rfl

/-- `_replicate_id_3` is idempotent. -/
theorem rep3_idem {r r' : RawObj} (h : Work.rep3 r = .ok r') :
    Work.rep3 r' = .ok r' := by
  unfold Work.rep3 at h ⊢
  rw [exceptBindOk] at h
  obtain ⟨r1, h1, h⟩ := h
  rw [exceptBindOk] at h
  obtain ⟨r2, h2, h3⟩ := h
  have p2b := replicateObjFK_rget h2 (by decide : "primary_location" ≠ "best_oa_location")
  have p2i := replicateObjFK_rget h2 (by decide : "primary_location" ≠ "id")
  have p3b := replicateListFK_rget h3 (by decide : "locations" ≠ "best_oa_location")
  have p3i := replicateListFK_rget h3 (by decide : "locations" ≠ "id")
  have s1 : replicateObjFK "best_oa_location" "work_id" r' = .ok r' := by
    apply replicateObjFK_fixed (by decide) h1
    · rw [p3b, p2b]
    · rw [p3i, p2i]
  rw [exceptBindOk]
  refine ⟨r', s1, ?_⟩
  have p3p := replicateListFK_rget h3 (by decide : "locations" ≠ "primary_location")
  have s2 : replicateObjFK "primary_location" "work_id" r' = .ok r' := by
    apply replicateObjFK_fixed (by decide) h2
    · rw [p3p]
    · rw [p3i]
  rw [exceptBindOk]
  refine ⟨r', s2, ?_⟩
  exact replicateListFK_fixed (by decide) h3 rfl rfl

/-- Authorship fan-out (`_flatten_authorships`) is idempotent. -/
theorem flattenAuths_idem {r r' : RawObj} (h : Work.flattenAuths r = .ok r') :
    Work.flattenAuths r' = .ok r' :=
  flattenAuths_fixed h rfl



/-- C4 (amended): the three identifier-replication validators
(`_replicate_id_1/2/3`) and authorship fan-out (`_flatten_authorships`) are
idempotent: re-applied to any output of a successful first application they
return it unchanged.  (Relation wrapping of referenced/related works is not
idempotent — see the counterexample — so the full normalization pipeline is
not; the spec's blanket idempotence claim holds only for these rules.) -/
theorem claim_C4 :
    (∀ r r' : RawObj, Work.rep1 r = .ok r' → Work.rep1 r' = .ok r') ∧
    (∀ r r' : RawObj, Work.rep2 r = .ok r' → Work.rep2 r' = .ok r') ∧
    (∀ r r' : RawObj, Work.rep3 r = .ok r' → Work.rep3 r' = .ok r') ∧
    (∀ r r' : RawObj, Work.flattenAuths r = .ok r' → Work.flattenAuths r' = .ok r') :=
  ⟨fun _ _ => rep1_idem, fun _ _ => rep2_idem, fun _ _ => rep3_idem,
   fun _ _ => flattenAuths_idem⟩

theorem claim_C4_witness :
    Work.rep1 [("id", .str "W1"),
        ("ids", .obj [("openalex", .str "W1"), ("work_id", .str "W1")])] =
      .ok [("id", .str "W1"),
        ("ids", .obj [("openalex", .str "W1"), ("work_id", .str "W1")])] :=
  claim_C4.1 [("id", .str "W1"), ("ids", .obj [("openalex", .str "W1")])] _ (by rfl)

/-- C2 (amended): authorship fan-out cardinality and shape.  An authorship
entry with N ≥ 1 institutions expands to exactly N copies, identical in
every key except `institution_id` (set to that institution's id) and
`institutions` (a singleton holding that institution); an entry whose
institutions are absent or empty passes through as exactly one entry,
keeping whatever `institution_id` it already carries — null only if the raw
entry supplies none, which is where the original claim's "institution_id is
null" part fails.  The concrete pipeline run and its projection show the
per-row effect end to end. -/
theorem claim_C2 :
    (∀ (a : RawObj) (insts ys : List JVal),
        rget a "institutions" = some (.arr insts) → insts ≠ [] →
        expandAuth (.obj a) = .ok ys →
        ys.length = insts.length ∧
        List.Forall₂ (fun y inst => ∃ io iid oy, inst = JVal.obj io ∧
          rget io "id" = some iid ∧ y = JVal.obj oy ∧
          rget oy "institution_id" = some iid ∧
          rget oy "institutions" = some (.arr [inst]) ∧
          ∀ k, k ≠ "institution_id" → k ≠ "institutions" → rget oy k = rget a k)
          ys insts) ∧
    (∀ a : RawObj, check "institutions" a = false → expandAuth (.obj a) = .ok [.obj a]) ∧
    (∀ a : RawObj, rget a "institutions" = some (.arr []) →
      expandAuth (.obj a) = .ok [.obj a]) ∧
    Work.parse [("id", .str "W1"), ("authorships", .arr [.obj [
        ("author_position", .str "first"), ("raw_affiliation_string", .str "Uni X"),
        ("institutions", .arr [.obj [("id", .str "I1")], .obj [("id", .str "I2")]])]])] =
      .ok { id := "W1", authorships := some [
        { work_id := some "W1", author_position := some "first",
          institution_id := some "I1", raw_affiliation_string := some "Uni X",
          institutions := some [{ id := "I1" }] },
        { work_id := some "W1", author_position := some "first",
          institution_id := some "I2", raw_affiliation_string := some "Uni X",
          institutions := some [{ id := "I2" }] }] } ∧
    sfind (Work.projectSubs
        { id := "W1", authorships := some [
          { work_id := some "W1", author_position := some "first",
            institution_id := some "I1", raw_affiliation_string := some "Uni X",
            institutions := some [{ id := "I1" }] },
          { work_id := some "W1", author_position := some "first",
            institution_id := some "I2", raw_affiliation_string := some "Uni X",
            institutions := some [{ id := "I2" }] }] }) "authorships" =
      some (.many [
        [.str "W1", .str "first", .null, .str "I1", .str "Uni X"],
        [.str "W1", .str "first", .null, .str "I2", .str "Uni X"]]) := by
  refine ⟨?_, ?_, ?_, rfl, rfl⟩
  · intro a insts ys hai hne h
    obtain ⟨i, is, rfl⟩ := List.exists_cons_of_ne_nil hne
    rw [expandAuth_obj_expand hai rfl] at h
    have hf := mapM_ok_imp h
    constructor
    · exact (List.Forall₂.length_eq hf).symm
    · have hflip : List.Forall₂ (fun y inst => expandInst a inst = .ok y) ys (i :: is) :=
        hf.flip
      refine hflip.imp ?_
      intro inst y hx
      obtain ⟨io, iid, rfl, hiid, rfl⟩ := expandInst_ok_shape hx
      refine ⟨io, iid, _, rfl, hiid, rfl, ?_, rget_rset_self _ _ _, ?_⟩
      · rw [rget_rset_ne _ _ (by decide), rget_rset_self]
      · intro k hk1 hk2
        rw [rget_rset_ne _ _ (Ne.symm hk2), rget_rset_ne _ _ (Ne.symm hk1)]
  · intro a hchk
    simp only [expandAuth]
    rw [if_neg (by simp [hchk])]
  · intro a hai
    have hchk : check "institutions" a = true := by simp [check, hai]
    simp only [expandAuth, hchk, if_true, hai]

theorem claim_C2_witness :
    ([JVal.obj [("institutions", JVal.arr [.obj [("id", .str "I1")]]),
        ("institution_id", .str "I1")]].length = 1) ∧
    List.Forall₂ (fun y inst => ∃ io iid oy, inst = JVal.obj io ∧
        rget io "id" = some iid ∧ y = JVal.obj oy ∧
        rget oy "institution_id" = some iid ∧
        rget oy "institutions" = some (.arr [inst]) ∧
        ∀ k, k ≠ "institution_id" → k ≠ "institutions" →
          rget oy k = rget [("institutions", JVal.arr [.obj [("id", .str "I1")]])] k)
      [JVal.obj [("institutions", JVal.arr [.obj [("id", .str "I1")]]),
        ("institution_id", .str "I1")]]
      [JVal.obj [("id", .str "I1")]] := by
  have := claim_C2.1 [("institutions", JVal.arr [.obj [("id", .str "I1")]])]
    [JVal.obj [("id", .str "I1")]]
    [JVal.obj [("institutions", JVal.arr [.obj [("id", .str "I1")]]),
      ("institution_id", .str "I1")]]
    rfl (by decide) rfl
  simpa using this



/-- C9: a Topic raw mapping without the "keywords" key fails construction
(`_str_to_list` indexes the mapping unconditionally, a KeyError), even
though keywords is a declared optional field; the same mapping with
"keywords": null succeeds. -/
theorem claim_C9 :
    (∀ r : RawObj, rget r "keywords" = none →
      Topic.parse r = .error "KeyError: keywords") ∧
    Topic.parse [("id", .str "T1"), ("keywords", .null)] = .ok { id := "T1" } := by
  refine ⟨?_, rfl⟩
  intro r h
  simp [Topic.parse, Topic.strToList, h, Bind.bind, Except.bind]

theorem claim_C9_witness :
    Topic.parse [("id", .str "T1")] = .error "KeyError: keywords" :=
  claim_C9.1 [("id", .str "T1")] rfl

/-- C10: a constructed Institution never carries a repository whose
host_organization differs from the institution id — in particular an
absent (null) host_organization is a violation, not a pass, so
construction fails on it. -/
theorem claim_C10 :
    (∀ (r : RawObj) (w : Institution), Institution.parse r = .ok w →
      OptAll (ListAll fun repo => repoHost repo = some w.id) w.repositories) ∧
    Institution.parse
        [("id", .str "I1"), ("repositories", .arr [.obj [("id", .str "S1")]])] =
      .error "Repository host id doesn't match institution id" := by
  refine ⟨?_, rfl⟩
  intro r w h
  unfold Institution.parse at h
  rw [exceptBindOk] at h
  obtain ⟨inst, _, hchk⟩ := h
  unfold Institution.checkRepositories at hchk
  cases hrep : inst.repositories with
  | none =>
    rw [hrep] at hchk
    cases hchk
    rw [hrep]
    trivial
  | some repos =>
    simp only [hrep] at hchk
    by_cases hall : repos.all (fun repo => repoHost repo == some inst.id)
    · simp only [hall, if_true] at hchk
      cases hchk
      rw [hrep]
      intro repo hrepo
      have := List.all_eq_true.mp hall repo hrepo
      simpa using this
    · simp only [hall, if_false] at hchk
      cases hchk

theorem claim_C10_witness :
    OptAll
      (ListAll fun repo => repoHost repo = some
        (Institution.id
          { id := "I1",
            repositories := some [.inl { id := "S1", host_organization := some "I1" }] }))
      (Institution.repositories
        { id := "I1",
          repositories := some [.inl { id := "S1", host_organization := some "I1" }] }) :=
  claim_C10.1
    [("id", .str "I1"),
      ("repositories", .arr [.obj [("id", .str "S1"), ("host_organization", .str "I1")]])]
    { id := "I1", repositories := some [.inl { id := "S1", host_organization := some "I1" }] }
    rfl



theorem rget_rdel_self (r : RawObj) (k : String) : rget (rdel r k) k = none := by
  induction r with
  | nil => simp [rdel, rget]
  | cons p rest ih =>
    obtain ⟨k1, v1⟩ := p
    by_cases hp : k1 = k
    · simp [rdel, rget, hp, ih]
    · simp [rdel, rget, hp, ih]

theorem replicateListFK_rdel {f fk d : String} (r : RawObj) (hf : d ≠ f)
    (hid : d ≠ "id") :
    replicateListFK f fk (rdel r d) =
      (replicateListFK f fk r).map (fun x => rdel x d) := by
  have h1 : rget (rdel r d) f = rget r f := rget_rdel_ne r hf
  have h2 : getId (rdel r d) = getId r := getId_congr (rget_rdel_ne r hid)
  unfold replicateListFK
  rw [h1]
  cases hr : rget r f with
  | none => rfl
  | some v =>
    cases v with
    | null => rfl
    | arr xs =>
      cases xs with
      | nil => rfl
      | cons x xs =>
        rw [h2]
        cases hgid : getId r with
        | error e => rfl
        | ok idv =>
          simp only [Bind.bind, Except.bind]
          cases hm : (x :: xs).mapM (repElem fk idv) with
          | error e => rfl
          | ok xs' =>
            simp [Except.map, rdel_rset_comm r _ hf]
    | str s => rfl
    | num q => rfl
    | bool b => rfl
    | obj o => rfl
    | dt t => rfl



theorem replicateObjFK_rdel {f fk d : String} (r : RawObj) (hf : d ≠ f)
    (hid : d ≠ "id") :
    replicateObjFK f fk (rdel r d) =
      (replicateObjFK f fk r).map (fun x => rdel x d) := by
  have h1 : rget (rdel r d) f = rget r f := rget_rdel_ne r hf
  have h2 : getId (rdel r d) = getId r := getId_congr (rget_rdel_ne r hid)
  unfold replicateObjFK
  rw [h1]
  cases hr : rget r f with
  | none => rfl
  | some v =>
    cases v with
    | null => rfl
    | obj o =>
      rw [h2]
      cases hgid : getId r with
      | error e => rfl
      | ok idv =>
        simp only [Bind.bind, Except.bind]
        simp [Except.map, rdel_rset_comm r _ hf]
    | str s => rfl
    | num q => rfl
    | bool b => rfl
    | arr a => rfl
    | dt t => rfl

theorem inst_before_rdel (r : RawObj) :
    Institution.before (rdel r "display_name_alternatives") =
      (Institution.before r).map (fun x => rdel x "display_name_alternatives") := by
  unfold Institution.before
  rw [replicateObjFK_rdel r (by decide) (by decide)]
  cases h1 : replicateObjFK "geo" "institution_id" r with
  | error e => rfl
  | ok r1 =>
    simp only [Except.map, Bind.bind, Except.bind]
    rw [replicateListFK_rdel r1 (by decide) (by decide)]
    cases h2 : replicateListFK "counts_by_year" "institution_id" r1 with
    | error e => rfl
    | ok r2 =>
      simp only [Except.map, Bind.bind, Except.bind]
      rw [replicateObjFK_rdel r2 (by decide) (by decide)]
      cases h3 : replicateObjFK "ids" "institution_id" r2 with
      | error e => rfl
      | ok r3 =>
        simp only [Except.map, Bind.bind, Except.bind]
        rw [replicateListFK_rdel r3 (by decide) (by decide)]
        cases h4 : replicateListFK "associated_institutions" "institution_id" r3 with
        | error e => rfl
        | ok r4 => rfl

theorem author_before_rdel (r : RawObj) :
    Author.before (rdel r "display_name_alternatives") =
      (Author.before r).map (fun x => rdel x "display_name_alternatives") := by
  unfold Author.before
  rw [replicateListFK_rdel r (by decide) (by decide)]
  cases h1 : replicateListFK "counts_by_year" "author_id" r with
  | error e => rfl
  | ok r1 =>
    simp only [Except.map, Bind.bind, Except.bind]
    rw [replicateObjFK_rdel r1 (by decide) (by decide)]
    cases h2 : replicateObjFK "ids" "author_id" r1 with
    | error e => rfl
    | ok r2 => rfl



theorem pOpt_pStrList_emptyArr :
    pOpt pStrList (some (JVal.arr [])) = Except.ok (some ([] : List String)) := rfl

example : notEmptyList (some ([] : List String)) = none := by simp [notEmptyList]

example (r : RawObj)
    (h : rget r "display_name_alternatives" = some (.arr [])) :
    (do
      let dna ← pOpt pStrList (rget (rdel r "display_name_alternatives") "display_name_alternatives")
      let dna := notEmptyList dna
      Except.ok (dna : Option (List String))) =
    (do
      let dna ← pOpt pStrList (rget r "display_name_alternatives")
      let dna := notEmptyList dna
      Except.ok dna) := by
  rw [rget_rdel_self r "display_name_alternatives", h, pOpt_pStrList_emptyArr]
  simp [pOpt, notEmptyList, Bind.bind, Except.bind]



set_option maxHeartbeats 2000000 in
theorem inst_parseFields_rdel (r : RawObj)
    (h : rget r "display_name_alternatives" = some (.arr [])) :
    Institution.parseFields (rdel r "display_name_alternatives") =
      Institution.parseFields r := by
  have e : ∀ k : String, "display_name_alternatives" ≠ k →
      rget (rdel r "display_name_alternatives") k = rget r k :=
    fun k hk => rget_rdel_ne r hk
  unfold Institution.parseFields
  rw [e "id" (by decide), e "ror" (by decide), e "lineage" (by decide),
    e "display_name" (by decide), e "country_code" (by decide), e "type" (by decide),
    e "homepage_url" (by decide), e "image_url" (by decide),
    e "image_thumbnail_url" (by decide), e "display_name_acronyms" (by decide),
    e "works_count" (by decide), e "cited_by_count" (by decide),
    e "works_api_url" (by decide), e "updated_date" (by decide), e "geo" (by decide),
    e "counts_by_year" (by decide), e "ids" (by decide),
    e "associated_institutions" (by decide), e "created_date" (by decide),
    e "is_supersystem" (by decide), e "international" (by decide),
    e "repositories" (by decide), e "summary_stats" (by decide), e "roles" (by decide),
    rget_rdel_self r "display_name_alternatives", h, pOpt_pStrList_emptyArr]
  simp only [pOpt, notEmptyList, Bind.bind, Except.bind]
  rfl



set_option maxHeartbeats 2000000 in
theorem author_parseFields_rdel (r : RawObj)
    (h : rget r "display_name_alternatives" = some (.arr [])) :
    Author.parseFields (rdel r "display_name_alternatives") =
      Author.parseFields r := by
  have e : ∀ k : String, "display_name_alternatives" ≠ k →
      rget (rdel r "display_name_alternatives") k = rget r k :=
    fun k hk => rget_rdel_ne r hk
  unfold Author.parseFields
  rw [e "id" (by decide), e "orcid" (by decide), e "display_name" (by decide),
    e "works_count" (by decide), e "cited_by_count" (by decide),
    e "last_known_institution" (by decide), e "works_api_url" (by decide),
    e "updated_date" (by decide), e "ids" (by decide), e "counts_by_year" (by decide),
    e "affiliations" (by decide), e "created_date" (by decide),
    e "last_known_institutions" (by decide), e "summary_stats" (by decide),
    rget_rdel_self r "display_name_alternatives", h, pOpt_pStrList_emptyArr]
  simp only [pOpt, notEmptyList, removeQuotationMarks, Bind.bind, Except.bind, List.map_nil]
  rfl

theorem inst_before_rget_dna {r r' : RawObj} (h : Institution.before r = .ok r') :
    rget r' "display_name_alternatives" = rget r "display_name_alternatives" := by
  unfold Institution.before at h
  rw [exceptBindOk] at h
  obtain ⟨r1, h1, h⟩ := h
  rw [exceptBindOk] at h
  obtain ⟨r2, h2, h⟩ := h
  rw [exceptBindOk] at h
  obtain ⟨r3, h3, h4⟩ := h
  rw [replicateListFK_rget h4 (by decide : "associated_institutions" ≠ "display_name_alternatives"),
    replicateObjFK_rget h3 (by decide : "ids" ≠ "display_name_alternatives"),
    replicateListFK_rget h2 (by decide : "counts_by_year" ≠ "display_name_alternatives"),
    replicateObjFK_rget h1 (by decide : "geo" ≠ "display_name_alternatives")]

theorem author_before_rget_dna {r r' : RawObj} (h : Author.before r = .ok r') :
    rget r' "display_name_alternatives" = rget r "display_name_alternatives" := by
  unfold Author.before at h
  rw [exceptBindOk] at h
  obtain ⟨r1, h1, h2⟩ := h
  rw [replicateObjFK_rget h2 (by decide : "ids" ≠ "display_name_alternatives"),
    replicateListFK_rget h1 (by decide : "counts_by_year" ≠ "display_name_alternatives")]

/-- C8 (amended): the empty-list-to-absent collapse holds exactly for the
fields bearing the `_check_not_empty` validator: an Institution or Author
record supplying `display_name_alternatives: []` constructs the same
canonical object as one omitting the field, on every input.  (It is not a
property of all list fields of all kinds — the counterexample shows
`Work.locations = []` is kept, observably different from omitting it.) -/
theorem claim_C8 :
    (∀ r : RawObj, rget r "display_name_alternatives" = some (.arr []) →
      Institution.parse r = Institution.parse (rdel r "display_name_alternatives")) ∧
    (∀ r : RawObj, rget r "display_name_alternatives" = some (.arr []) →
      Author.parse r = Author.parse (rdel r "display_name_alternatives")) ∧
    Institution.parse [("id", .str "I1"), ("display_name_alternatives", .arr [])] =
      .ok { id := "I1" } ∧
    Institution.parse [("id", .str "I1")] = .ok { id := "I1" } ∧
    Author.parse [("id", .str "A1"), ("display_name_alternatives", .arr [])] =
      .ok { id := "A1" } ∧
    Author.parse [("id", .str "A1")] = .ok { id := "A1" } := by
  refine ⟨?_, ?_, rfl, rfl, rfl, rfl⟩
  · intro r h
    unfold Institution.parse
    rw [inst_before_rdel r]
    cases hb : Institution.before r with
    | error e => rfl
    | ok r1 =>
      simp only [Except.map, Bind.bind, Except.bind]
      rw [inst_parseFields_rdel r1 (by rw [inst_before_rget_dna hb]; exact h)]
  · intro r h
    unfold Author.parse
    rw [author_before_rdel r]
    cases hb : Author.before r with
    | error e => rfl
    | ok r1 =>
      simp only [Except.map, Bind.bind, Except.bind]
      rw [author_parseFields_rdel r1 (by rw [author_before_rget_dna hb]; exact h)]

theorem claim_C8_witness :
    Institution.parse [("id", .str "I9"), ("display_name_alternatives", .arr []),
        ("ror", .str "R9")] =
      Institution.parse (rdel [("id", .str "I9"), ("display_name_alternatives", .arr []),
        ("ror", .str "R9")] "display_name_alternatives") :=
  claim_C8.1 [("id", .str "I9"), ("display_name_alternatives", .arr []), ("ror", .str "R9")]
    rfl

end OpenAlex

namespace OpenAlex

theorem dchar_mem (n : Nat) :
    dchar n ∈ ['0', '1', '2', '3', '4', '5', '6', '7', '8', '9'] := by
  unfold dchar
  have h : n % 10 < 10 := Nat.mod_lt _ (by norm_num)
  revert h
  generalize n % 10 = k
  revert k
  decide

theorem dchar_ne (n : Nat) (c : Char)
    (hc : c ∉ ['0', '1', '2', '3', '4', '5', '6', '7', '8', '9']) : dchar n ≠ c := by
  intro he
  exact hc (he ▸ dchar_mem n)

theorem strToSql_safe {s : String} (h : StrSafe s) : strToSql s = .str s := by
  unfold strToSql
  rw [if_neg]
  exact h

theorem replaceZ_iso (t : ADT) : replaceZ t.isoformat = t.isoformat := by
  unfold replaceZ ADT.isoformat ADT.isoChars
  simp [dchar_ne _ 'Z' (by decide)]

theorem isoformat_contains_T (t : ADT) : t.isoformat.data.contains 'T' = true := by
  have hd : ∀ n, ('T' == dchar n) = false := fun n =>
    beq_eq_false_iff_ne.mpr fun he => dchar_ne n 'T' (by decide) he.symm
  unfold ADT.isoformat ADT.isoChars
  simp [List.contains, List.elem, hd]

theorem isoformat_looksIso (t : ADT) :
    10 ≤ t.isoformat.length ∧ t.isoformat.data.getD 4 ' ' = '-' ∧
      t.isoformat.data.getD 7 ' ' = '-' := by
  unfold ADT.isoformat ADT.isoChars
  refine ⟨?_, rfl, rfl⟩
  show 10 ≤ (String.mk _).length
  simp [String.length]

theorem strToSql_iso {s : String} {t : ADT} (hp : parseIso s = some t)
    (he : s = t.isoformat) : strToSql s = .dt t := by
  subst he
  unfold strToSql
  rw [if_pos (isoformat_looksIso t)]
  have hT : (t.isoformat.data.contains 'T' ∨ t.isoformat.data.contains ' ') := by
    left
    exact isoformat_contains_T t
  rw [if_pos hT, replaceZ_iso, hp]

theorem optStr_rt {o : Option String} (h : OStrSafe o) :
    pOpt pStr (some (sqlToJVal (sqlOfOptStr o))) = .ok o := by
  cases o with
  | none => rfl
  | some s =>
    unfold OStrSafe at h
    simp [sqlOfOptStr, strToSql_safe h, sqlToJVal, pOpt, pStr, Except.map]

theorem reqStr_rt {s : String} (h : StrSafe s) :
    pReqStr (some (sqlToJVal (strToSql s))) = .ok s := by
  simp [strToSql_safe h, sqlToJVal, pReqStr]

theorem optInt_rt (o : Option ℤ) :
    pOpt pInt (some (sqlToJVal (sqlOfOptInt o))) = .ok o := by
  cases o with
  | none => rfl
  | some n =>
    simp [sqlOfOptInt, sqlToJVal, pOpt, pInt, Rat.den_intCast, Rat.num_intCast, Except.map]

theorem optRat_rt (o : Option ℚ) :
    pOpt pRat (some (sqlToJVal (sqlOfOptRat o))) = .ok o := by
  cases o with
  | none => rfl
  | some q => simp [sqlOfOptRat, sqlToJVal, pOpt, pRat, Except.map]

theorem optBool_rt (o : Option Bool) :
    pOpt pBool (some (sqlToJVal (sqlOfOptBool o))) = .ok o := by
  cases o with
  | none => rfl
  | some b => simp [sqlOfOptBool, sqlToJVal, pOpt, pBool, Except.map]

theorem date_rt {o : Option String} (h : ODateSafe o) :
    pOpt pDate8601 (some (sqlToJVal (sqlOfOptStr o))) = .ok o := by
  cases o with
  | none => rfl
  | some s =>
    simp only [ODateSafe, dateCanonical] at h
    cases hp : parseIso s with
    | none => rw [hp] at h; cases h
    | some t =>
      rw [hp] at h
      rw [sqlOfOptStr, strToSql_iso hp h, sqlToJVal]
      simp [pOpt, pDate8601, pDatetime, Except.map, h]

theorem version_rt {o : Option String}
    (h : o ∈ [none, some "publishedVersion", some "acceptedVersion",
      some "submittedVersion"]) :
    pOpt (pLit ["publishedVersion", "acceptedVersion", "submittedVersion"])
      (some (sqlToJVal (sqlOfOptStr o))) = .ok o := by
  fin_cases h <;> rfl

theorem position_rt {o : Option String}
    (h : o ∈ [none, some "first", some "last", some "middle"]) :
    pOpt (pLit ["first", "last", "middle"]) (some (sqlToJVal (sqlOfOptStr o))) = .ok o := by
  fin_cases h <;> rfl

end OpenAlex


namespace OpenAlex

theorem sfind_append (l1 l2 : List (String × SubPayload)) (k : String) :
    sfind (l1 ++ l2) k =
      match sfind l1 k with
      | some v => some v
      | none => sfind l2 k := by
  induction l1 with
  | nil => simp [sfind]
  | cons p rest ih =>
    obtain ⟨k1, v1⟩ := p
    by_cases h : k1 = k
    · simp [sfind, h]
    · simp [sfind, h, ih]

theorem sfind_blockOne_self (n : String) (f : α → List SQLValue) (o : Option α) :
    sfind (optBlockOne n f o) n = o.map fun x => SubPayload.one (f x) := by
  cases o <;> simp [optBlockOne, sfind]

theorem sfind_blockOne_ne (n : String) (f : α → List SQLValue) (o : Option α)
    {k : String} (h : ¬ n = k) : sfind (optBlockOne n f o) k = none := by
  cases o <;> simp [optBlockOne, sfind, h]

theorem sfind_blockMany_self (n : String) (f : α → List SQLValue) (o : Option (List α)) :
    sfind (optBlockMany n f o) n = o.map fun xs => SubPayload.many (xs.map f) := by
  cases o <;> simp [optBlockMany, sfind]

theorem sfind_blockMany_ne (n : String) (f : α → List SQLValue) (o : Option (List α))
    {k : String} (h : ¬ n = k) : sfind (optBlockMany n f o) k = none := by
  cases o <;> simp [optBlockMany, sfind, h]

theorem sfind_subs_primary_location (w : Work) :
    sfind w.projectSubs "primary_location" =
      w.primary_location.map fun l => SubPayload.one l.to_sql_values := by
  simp only [Work.projectSubs]
  simp +decide [sfind_append, sfind_blockOne_self, sfind_blockOne_ne,
    sfind_blockMany_self, sfind_blockMany_ne]
  cases w.primary_location <;> rfl

theorem sfind_subs_locations (w : Work) :
    sfind w.projectSubs "locations" =
      w.locations.map fun ls => SubPayload.many (ls.map BaseWorkLocation.to_sql_values) := by
  simp only [Work.projectSubs]
  simp +decide [sfind_append, sfind_blockOne_self, sfind_blockOne_ne,
    sfind_blockMany_self, sfind_blockMany_ne]
  cases w.locations <;> rfl

theorem sfind_subs_best_oa_location (w : Work) :
    sfind w.projectSubs "best_oa_location" =
      w.best_oa_location.map fun l => SubPayload.one l.to_sql_values := by
  simp only [Work.projectSubs]
  simp +decide [sfind_append, sfind_blockOne_self, sfind_blockOne_ne,
    sfind_blockMany_self, sfind_blockMany_ne]
  cases w.best_oa_location <;> rfl

theorem sfind_subs_authorships (w : Work) :
    sfind w.projectSubs "authorships" =
      w.authorships.map fun xs => SubPayload.many (xs.map WorkAuthorship.to_sql_values) := by
  simp only [Work.projectSubs]
  simp +decide [sfind_append, sfind_blockOne_self, sfind_blockOne_ne,
    sfind_blockMany_self, sfind_blockMany_ne]
  cases w.authorships <;> rfl

theorem sfind_subs_biblio (w : Work) :
    sfind w.projectSubs "biblio" =
      w.biblio.map fun b => SubPayload.one b.to_sql_values := by
  simp only [Work.projectSubs]
  simp +decide [sfind_append, sfind_blockOne_self, sfind_blockOne_ne,
    sfind_blockMany_self, sfind_blockMany_ne]
  cases w.biblio <;> rfl

theorem sfind_subs_topics (w : Work) :
    sfind w.projectSubs "topics" =
      w.topics.map fun xs => SubPayload.many (xs.map WorkTopic.to_sql_values) := by
  simp only [Work.projectSubs]
  simp +decide [sfind_append, sfind_blockOne_self, sfind_blockOne_ne,
    sfind_blockMany_self, sfind_blockMany_ne]
  cases w.topics <;> rfl

theorem sfind_subs_concepts (w : Work) :
    sfind w.projectSubs "concepts" =
      w.concepts.map fun xs => SubPayload.many (xs.map WorkConcept.to_sql_values) := by
  simp only [Work.projectSubs]
  simp +decide [sfind_append, sfind_blockOne_self, sfind_blockOne_ne,
    sfind_blockMany_self, sfind_blockMany_ne]
  cases w.concepts <;> rfl

theorem sfind_subs_ids (w : Work) :
    sfind w.projectSubs "ids" = w.ids.map fun i => SubPayload.one i.to_sql_values := by
  simp only [Work.projectSubs]
  simp +decide [sfind_append, sfind_blockOne_self, sfind_blockOne_ne,
    sfind_blockMany_self, sfind_blockMany_ne]
  cases w.ids <;> rfl

theorem sfind_subs_mesh (w : Work) :
    sfind w.projectSubs "mesh" =
      w.mesh.map fun xs => SubPayload.many (xs.map WorkMesh.to_sql_values) := by
  simp only [Work.projectSubs]
  simp +decide [sfind_append, sfind_blockOne_self, sfind_blockOne_ne,
    sfind_blockMany_self, sfind_blockMany_ne]
  cases w.mesh <;> rfl

theorem sfind_subs_open_access (w : Work) :
    sfind w.projectSubs "open_access" =
      w.open_access.map fun oa => SubPayload.one oa.to_sql_values := by
  simp only [Work.projectSubs]
  simp +decide [sfind_append, sfind_blockOne_self, sfind_blockOne_ne,
    sfind_blockMany_self, sfind_blockMany_ne]
  cases w.open_access <;> rfl

theorem sfind_subs_referenced_works (w : Work) :
    sfind w.projectSubs "referenced_works" =
      w.referenced_works.map fun xs =>
        SubPayload.many (xs.map WorkReferencedWork.to_sql_values) := by
  simp only [Work.projectSubs]
  simp +decide [sfind_append, sfind_blockOne_self, sfind_blockOne_ne,
    sfind_blockMany_self, sfind_blockMany_ne]
  cases w.referenced_works <;> rfl

theorem sfind_subs_related_works (w : Work) :
    sfind w.projectSubs "related_works" =
      w.related_works.map fun xs =>
        SubPayload.many (xs.map WorkRelatedWork.to_sql_values) := by
  simp only [Work.projectSubs]
  simp +decide [sfind_append, sfind_blockOne_self, sfind_blockOne_ne,
    sfind_blockMany_self, sfind_blockMany_ne]

end OpenAlex

namespace OpenAlex
theorem fromSqlStep_rget_ne {subs : List (String × SubPayload)} {args : RawObj}
    {name k : String} (h : name ≠ k) :
    rget (Work.fromSqlStep subs args name) k = rget args k := by
  unfold Work.fromSqlStep
  cases sfind subs name with
  | none => rfl
  | some payload =>
    cases payload <;> split_ifs <;> simp [rget_rset_ne args _ h]

theorem foldl_fromSqlStep_rget {subs : List (String × SubPayload)} {k : String} :
    ∀ {names : List String} {args : RawObj}, (∀ n ∈ names, ¬ n = k) →
      rget (names.foldl (Work.fromSqlStep subs) args) k = rget args k
  | [], _, _ => rfl
  | n :: ns, args, h => by
    rw [List.foldl_cons]
    rw [foldl_fromSqlStep_rget (fun m hm => h m (by simp [hm]))]
    exact fromSqlStep_rget_ne (h n (by simp))

/-- A key touched by no subtable step reads straight off the root tuple. -/
theorem fromSqlArgs_rget_root (w : Work) {k : String} {v : Option JVal}
    (h1 : ∀ n ∈ Work.sqlSubtables, ¬ n = k)
    (h2 : rget (zipToObj Work.sqlOrder w.to_sql_values) k = v) :
    rget (Work.fromSqlArgs w.to_sql_values w.projectSubs) k = v := by
  unfold Work.fromSqlArgs
  rw [foldl_fromSqlStep_rget h1, h2]

theorem fromSqlStep_absent {subs : List (String × SubPayload)} {args : RawObj}
    {name : String} (h : sfind subs name = none) :
    Work.fromSqlStep subs args name = args := by
  unfold Work.fromSqlStep
  rw [h]

theorem fromSqlStep_one {subs : List (String × SubPayload)} {args : RawObj}
    {name : String} {row : List SQLValue} (h : sfind subs name = some (.one row))
    (h1 : ¬ (name = "referenced_works" ∨ name = "related_works"))
    (h2 : ¬ Work.multivalue.contains name = true) :
    Work.fromSqlStep subs args name =
      rset args name (.obj (zipToObj (Work.subtableOrder name) row)) := by
  unfold Work.fromSqlStep
  simp only [h]
  rw [if_neg h1, if_neg h2]

theorem fromSqlStep_many {subs : List (String × SubPayload)} {args : RawObj}
    {name : String} {rows : List (List SQLValue)} (h : sfind subs name = some (.many rows))
    (h1 : ¬ (name = "referenced_works" ∨ name = "related_works"))
    (h2 : Work.multivalue.contains name = true) :
    Work.fromSqlStep subs args name =
      rset args name (.arr (rows.map fun row =>
        .obj (zipToObj (Work.subtableOrder name) row))) := by
  unfold Work.fromSqlStep
  simp only [h]
  rw [if_neg h1, if_pos h2]

theorem fromSqlStep_refrel {subs : List (String × SubPayload)} {args : RawObj}
    {name : String} {rows : List (List SQLValue)} (h : sfind subs name = some (.many rows))
    (h1 : name = "referenced_works" ∨ name = "related_works") :
    Work.fromSqlStep subs args name =
      rset args name (.arr (rows.map fun row => sqlToJVal (row.getD 1 .null))) := by
  unfold Work.fromSqlStep
  simp only [h]
  rw [if_pos h1]

theorem fromSqlArgs_rget_primary_location (w : Work) :
    rget (Work.fromSqlArgs w.to_sql_values w.projectSubs) "primary_location" =
      w.primary_location.map fun x =>
        JVal.obj (zipToObj BaseWorkLocation.sqlOrder (BaseWorkLocation.to_sql_values x)) := by
  have hsplit : Work.sqlSubtables =
      [] ++
        "primary_location" :: ["locations", "best_oa_location", "authorships", "biblio", "topics", "concepts", "ids", "mesh", "open_access", "referenced_works", "related_works"] := rfl
  unfold Work.fromSqlArgs
  rw [hsplit, List.foldl_append, List.foldl_cons,
    foldl_fromSqlStep_rget (by decide)]
  cases hx : w.primary_location with
  | none =>
    rw [fromSqlStep_absent (by rw [sfind_subs_primary_location, hx]; rfl)]
    rw [foldl_fromSqlStep_rget (by decide)]
    rfl
  | some xs =>
    rw [fromSqlStep_one (by rw [sfind_subs_primary_location, hx]; rfl) (by decide) (by decide),
      rget_rset_self]
    simp [Work.subtableOrder]

theorem fromSqlArgs_rget_locations (w : Work) :
    rget (Work.fromSqlArgs w.to_sql_values w.projectSubs) "locations" =
      w.locations.map fun xs => JVal.arr (xs.map fun x =>
        JVal.obj (zipToObj BaseWorkLocation.sqlOrder (BaseWorkLocation.to_sql_values x))) := by
  have hsplit : Work.sqlSubtables =
      ["primary_location"] ++
        "locations" :: ["best_oa_location", "authorships", "biblio", "topics", "concepts", "ids", "mesh", "open_access", "referenced_works", "related_works"] := rfl
  unfold Work.fromSqlArgs
  rw [hsplit, List.foldl_append, List.foldl_cons,
    foldl_fromSqlStep_rget (by decide)]
  cases hx : w.locations with
  | none =>
    rw [fromSqlStep_absent (by rw [sfind_subs_locations, hx]; rfl)]
    rw [foldl_fromSqlStep_rget (by decide)]
    rfl
  | some xs =>
    rw [fromSqlStep_many (by rw [sfind_subs_locations, hx]; rfl) (by decide) (by decide),
      rget_rset_self]
    simp [Work.subtableOrder, List.map_map, Function.comp]

theorem fromSqlArgs_rget_best_oa_location (w : Work) :
    rget (Work.fromSqlArgs w.to_sql_values w.projectSubs) "best_oa_location" =
      w.best_oa_location.map fun x =>
        JVal.obj (zipToObj BaseWorkLocation.sqlOrder (BaseWorkLocation.to_sql_values x)) := by
  have hsplit : Work.sqlSubtables =
      ["primary_location", "locations"] ++
        "best_oa_location" :: ["authorships", "biblio", "topics", "concepts", "ids", "mesh", "open_access", "referenced_works", "related_works"] := rfl
  unfold Work.fromSqlArgs
  rw [hsplit, List.foldl_append, List.foldl_cons,
    foldl_fromSqlStep_rget (by decide)]
  cases hx : w.best_oa_location with
  | none =>
    rw [fromSqlStep_absent (by rw [sfind_subs_best_oa_location, hx]; rfl)]
    rw [foldl_fromSqlStep_rget (by decide)]
    rfl
  | some xs =>
    rw [fromSqlStep_one (by rw [sfind_subs_best_oa_location, hx]; rfl) (by decide) (by decide),
      rget_rset_self]
    simp [Work.subtableOrder]

theorem fromSqlArgs_rget_authorships (w : Work) :
    rget (Work.fromSqlArgs w.to_sql_values w.projectSubs) "authorships" =
      w.authorships.map fun xs => JVal.arr (xs.map fun x =>
        JVal.obj (zipToObj WorkAuthorship.sqlOrder (WorkAuthorship.to_sql_values x))) := by
  have hsplit : Work.sqlSubtables =
      ["primary_location", "locations", "best_oa_location"] ++
        "authorships" :: ["biblio", "topics", "concepts", "ids", "mesh", "open_access", "referenced_works", "related_works"] := rfl
  unfold Work.fromSqlArgs
  rw [hsplit, List.foldl_append, List.foldl_cons,
    foldl_fromSqlStep_rget (by decide)]
  cases hx : w.authorships with
  | none =>
    rw [fromSqlStep_absent (by rw [sfind_subs_authorships, hx]; rfl)]
    rw [foldl_fromSqlStep_rget (by decide)]
    rfl
  | some xs =>
    rw [fromSqlStep_many (by rw [sfind_subs_authorships, hx]; rfl) (by decide) (by decide),
      rget_rset_self]
    simp [Work.subtableOrder, List.map_map, Function.comp]

theorem fromSqlArgs_rget_biblio (w : Work) :
    rget (Work.fromSqlArgs w.to_sql_values w.projectSubs) "biblio" =
      w.biblio.map fun x =>
        JVal.obj (zipToObj WorkBiblio.sqlOrder (WorkBiblio.to_sql_values x)) := by
  have hsplit : Work.sqlSubtables =
      ["primary_location", "locations", "best_oa_location", "authorships"] ++
        "biblio" :: ["topics", "concepts", "ids", "mesh", "open_access", "referenced_works", "related_works"] := rfl
  unfold Work.fromSqlArgs
  rw [hsplit, List.foldl_append, List.foldl_cons,
    foldl_fromSqlStep_rget (by decide)]
  cases hx : w.biblio with
  | none =>
    rw [fromSqlStep_absent (by rw [sfind_subs_biblio, hx]; rfl)]
    rw [foldl_fromSqlStep_rget (by decide)]
    rfl
  | some xs =>
    rw [fromSqlStep_one (by rw [sfind_subs_biblio, hx]; rfl) (by decide) (by decide),
      rget_rset_self]
    simp [Work.subtableOrder]

theorem fromSqlArgs_rget_topics (w : Work) :
    rget (Work.fromSqlArgs w.to_sql_values w.projectSubs) "topics" =
      w.topics.map fun xs => JVal.arr (xs.map fun x =>
        JVal.obj (zipToObj WorkTopic.sqlOrder (WorkTopic.to_sql_values x))) := by
  have hsplit : Work.sqlSubtables =
      ["primary_location", "locations", "best_oa_location", "authorships", "biblio"] ++
        "topics" :: ["concepts", "ids", "mesh", "open_access", "referenced_works", "related_works"] := rfl
  unfold Work.fromSqlArgs
  rw [hsplit, List.foldl_append, List.foldl_cons,
    foldl_fromSqlStep_rget (by decide)]
  cases hx : w.topics with
  | none =>
    rw [fromSqlStep_absent (by rw [sfind_subs_topics, hx]; rfl)]
    rw [foldl_fromSqlStep_rget (by decide)]
    rfl
  | some xs =>
    rw [fromSqlStep_many (by rw [sfind_subs_topics, hx]; rfl) (by decide) (by decide),
      rget_rset_self]
    simp [Work.subtableOrder, List.map_map, Function.comp]

theorem fromSqlArgs_rget_concepts (w : Work) :
    rget (Work.fromSqlArgs w.to_sql_values w.projectSubs) "concepts" =
      w.concepts.map fun xs => JVal.arr (xs.map fun x =>
        JVal.obj (zipToObj WorkConcept.sqlOrder (WorkConcept.to_sql_values x))) := by
  have hsplit : Work.sqlSubtables =
      ["primary_location", "locations", "best_oa_location", "authorships", "biblio", "topics"] ++
        "concepts" :: ["ids", "mesh", "open_access", "referenced_works", "related_works"] := rfl
  unfold Work.fromSqlArgs
  rw [hsplit, List.foldl_append, List.foldl_cons,
    foldl_fromSqlStep_rget (by decide)]
  cases hx : w.concepts with
  | none =>
    rw [fromSqlStep_absent (by rw [sfind_subs_concepts, hx]; rfl)]
    rw [foldl_fromSqlStep_rget (by decide)]
    rfl
  | some xs =>
    rw [fromSqlStep_many (by rw [sfind_subs_concepts, hx]; rfl) (by decide) (by decide),
      rget_rset_self]
    simp [Work.subtableOrder, List.map_map, Function.comp]

theorem fromSqlArgs_rget_ids (w : Work) :
    rget (Work.fromSqlArgs w.to_sql_values w.projectSubs) "ids" =
      w.ids.map fun x =>
        JVal.obj (zipToObj WorkIDs.sqlOrder (WorkIDs.to_sql_values x)) := by
  have hsplit : Work.sqlSubtables =
      ["primary_location", "locations", "best_oa_location", "authorships", "biblio", "topics", "concepts"] ++
        "ids" :: ["mesh", "open_access", "referenced_works", "related_works"] := rfl
  unfold Work.fromSqlArgs
  rw [hsplit, List.foldl_append, List.foldl_cons,
    foldl_fromSqlStep_rget (by decide)]
  cases hx : w.ids with
  | none =>
    rw [fromSqlStep_absent (by rw [sfind_subs_ids, hx]; rfl)]
    rw [foldl_fromSqlStep_rget (by decide)]
    rfl
  | some xs =>
    rw [fromSqlStep_one (by rw [sfind_subs_ids, hx]; rfl) (by decide) (by decide),
      rget_rset_self]
    simp [Work.subtableOrder]

theorem fromSqlArgs_rget_mesh (w : Work) :
    rget (Work.fromSqlArgs w.to_sql_values w.projectSubs) "mesh" =
      w.mesh.map fun xs => JVal.arr (xs.map fun x =>
        JVal.obj (zipToObj WorkMesh.sqlOrder (WorkMesh.to_sql_values x))) := by
  have hsplit : Work.sqlSubtables =
      ["primary_location", "locations", "best_oa_location", "authorships", "biblio", "topics", "concepts", "ids"] ++
        "mesh" :: ["open_access", "referenced_works", "related_works"] := rfl
  unfold Work.fromSqlArgs
  rw [hsplit, List.foldl_append, List.foldl_cons,
    foldl_fromSqlStep_rget (by decide)]
  cases hx : w.mesh with
  | none =>
    rw [fromSqlStep_absent (by rw [sfind_subs_mesh, hx]; rfl)]
    rw [foldl_fromSqlStep_rget (by decide)]
    rfl
  | some xs =>
    rw [fromSqlStep_many (by rw [sfind_subs_mesh, hx]; rfl) (by decide) (by decide),
      rget_rset_self]
    simp [Work.subtableOrder, List.map_map, Function.comp]

theorem fromSqlArgs_rget_open_access (w : Work) :
    rget (Work.fromSqlArgs w.to_sql_values w.projectSubs) "open_access" =
      w.open_access.map fun x =>
        JVal.obj (zipToObj WorkOpenAccess.sqlOrder (WorkOpenAccess.to_sql_values x)) := by
  have hsplit : Work.sqlSubtables =
      ["primary_location", "locations", "best_oa_location", "authorships", "biblio", "topics", "concepts", "ids", "mesh"] ++
        "open_access" :: ["referenced_works", "related_works"] := rfl
  unfold Work.fromSqlArgs
  rw [hsplit, List.foldl_append, List.foldl_cons,
    foldl_fromSqlStep_rget (by decide)]
  cases hx : w.open_access with
  | none =>
    rw [fromSqlStep_absent (by rw [sfind_subs_open_access, hx]; rfl)]
    rw [foldl_fromSqlStep_rget (by decide)]
    rfl
  | some xs =>
    rw [fromSqlStep_one (by rw [sfind_subs_open_access, hx]; rfl) (by decide) (by decide),
      rget_rset_self]
    simp [Work.subtableOrder]

theorem fromSqlArgs_rget_referenced_works (w : Work) :
    rget (Work.fromSqlArgs w.to_sql_values w.projectSubs) "referenced_works" =
      w.referenced_works.map fun xs => JVal.arr (xs.map fun x =>
        sqlToJVal (sqlOfOptStr x.referenced_work_id)) := by
  have hsplit : Work.sqlSubtables =
      ["primary_location", "locations", "best_oa_location", "authorships", "biblio", "topics", "concepts", "ids", "mesh", "open_access"] ++
        "referenced_works" :: ["related_works"] := rfl
  unfold Work.fromSqlArgs
  rw [hsplit, List.foldl_append, List.foldl_cons,
    foldl_fromSqlStep_rget (by decide)]
  cases hx : w.referenced_works with
  | none =>
    rw [fromSqlStep_absent (by rw [sfind_subs_referenced_works, hx]; rfl)]
    rw [foldl_fromSqlStep_rget (by decide)]
    rfl
  | some xs =>
    rw [fromSqlStep_refrel (by rw [sfind_subs_referenced_works, hx]; rfl) (by decide),
      rget_rset_self]
    simp [List.map_map, Function.comp, WorkReferencedWork.to_sql_values, List.getD]

theorem fromSqlArgs_rget_related_works (w : Work) :
    rget (Work.fromSqlArgs w.to_sql_values w.projectSubs) "related_works" =
      w.related_works.map fun xs => JVal.arr (xs.map fun x =>
        sqlToJVal (sqlOfOptStr x.related_work_id)) := by
  have hsplit : Work.sqlSubtables =
      ["primary_location", "locations", "best_oa_location", "authorships", "biblio", "topics", "concepts", "ids", "mesh", "open_access", "referenced_works"] ++
        "related_works" :: [] := rfl
  unfold Work.fromSqlArgs
  rw [hsplit, List.foldl_append, List.foldl_cons,
    foldl_fromSqlStep_rget (by decide)]
  cases hx : w.related_works with
  | none =>
    rw [fromSqlStep_absent (by rw [sfind_subs_related_works, hx]; rfl)]
    rw [foldl_fromSqlStep_rget (by decide)]
    rfl
  | some xs =>
    rw [fromSqlStep_refrel (by rw [sfind_subs_related_works, hx]; rfl) (by decide),
      rget_rset_self]
    simp [List.map_map, Function.comp, WorkRelatedWork.to_sql_values, List.getD]

end OpenAlex

namespace OpenAlex

theorem repElem_fix {fk : String} {idv : JVal} {o : RawObj}
    (h : rget o fk = some idv) : repElem fk idv (.obj o) = .ok (.obj o) := by
  simp [repElem, rset_eq_self h]

/-- A mapping whose list field already carries the foreign key everywhere is
a fixed point of list replication. -/
theorem replicateListFK_fix {f fk : String} {r : RawObj} {idv : JVal}
    (hid : rget r "id" = some idv)
    (hr : rget r f = none ∨ ∃ xs, rget r f = some (.arr xs) ∧
      ∀ x ∈ xs, ∃ o, x = .obj o ∧ rget o fk = some idv) :
    replicateListFK f fk r = .ok r := by
  rcases hr with hr | ⟨xs, hr, hall⟩
  · simp [replicateListFK, hr]
  · cases xs with
    | nil => simp [replicateListFK, hr]
    | cons x xs0 =>
      have hmap : (x :: xs0).mapM (repElem fk idv) = .ok (x :: xs0) := by
        apply mapM_ok_id
        intro z hz
        obtain ⟨o, rfl, ho⟩ := hall z hz
        exact repElem_fix ho
      simp only [replicateListFK, hr, getId, hid, Bind.bind, Except.bind, hmap,
        rset_eq_self hr]

/-- A mapping whose dict field already carries the foreign key is a fixed
point of object replication. -/
theorem replicateObjFK_fix {f fk : String} {r : RawObj} {idv : JVal}
    (hid : rget r "id" = some idv)
    (hr : rget r f = none ∨ ∃ o, rget r f = some (.obj o) ∧ rget o fk = some idv) :
    replicateObjFK f fk r = .ok r := by
  rcases hr with hr | ⟨o, hr, ho⟩
  · simp [replicateObjFK, hr]
  · simp only [replicateObjFK, hr, getId, hid, Bind.bind, Except.bind,
      rset_eq_self ho, rset_eq_self hr]

/-- A mapping whose authorships carry no `institutions` key is a fixed point
of authorship fan-out. -/
theorem flattenAuths_fix {r : RawObj}
    (hr : rget r "authorships" = none ∨ ∃ xs, rget r "authorships" = some (.arr xs) ∧
      ∀ x ∈ xs, ∃ o, x = .obj o ∧ check "institutions" o = false) :
    Work.flattenAuths r = .ok r := by
  rcases hr with hr | ⟨xs, hr, hall⟩
  · simp [Work.flattenAuths, hr]
  · have hmap : xs.mapM expandAuth = .ok (xs.map fun x => [x]) := by
      apply mapM_ok_of_forall
      intro z hz
      obtain ⟨o, rfl, ho⟩ := hall z hz
      simp [expandAuth, ho]
    simp only [Work.flattenAuths, hr, hmap, Bind.bind, Except.bind,
      flatten_map_singleton, rset_eq_self hr]

theorem rep1_fix {r : RawObj}
    (h1 : replicateListFK "counts_by_year" "author_id" r = .ok r)
    (h2 : replicateObjFK "ids" "work_id" r = .ok r)
    (h3 : replicateListFK "locations" "work_id" r = .ok r)
    (h4 : replicateListFK "authorships" "work_id" r = .ok r)
    (h5 : replicateObjFK "biblio" "work_id" r = .ok r) :
    Work.rep1 r = .ok r := by
  simp [Work.rep1, h1, h2, h3, h4, h5, Bind.bind, Except.bind]

theorem rep2_fix {r : RawObj}
    (h1 : replicateListFK "topics" "work_id" r = .ok r)
    (h2 : replicateListFK "concepts" "work_id" r = .ok r)
    (h3 : replicateListFK "mesh" "work_id" r = .ok r)
    (h4 : replicateObjFK "open_access" "work_id" r = .ok r) :
    Work.rep2 r = .ok r := by
  simp [Work.rep2, h1, h2, h3, h4, Bind.bind, Except.bind]

theorem rep3_fix {r : RawObj}
    (h1 : replicateObjFK "best_oa_location" "work_id" r = .ok r)
    (h2 : replicateObjFK "primary_location" "work_id" r = .ok r)
    (h3 : replicateListFK "locations" "work_id" r = .ok r) :
    Work.rep3 r = .ok r := by
  simp [Work.rep3, h1, h2, h3, Bind.bind, Except.bind]

/-- Relation wrapping on a field holding a plain array puts each element
under a two-column relation dict (an empty array stays in place). -/
theorem wrapRelField_shape {field : String} {r : RawObj} {bs : List JVal} {idv : JVal}
    (hr : rget r field = some (.arr bs)) (hid : rget r "id" = some idv) :
    wrapRelField field r = .ok (rset r field (.arr (bs.map fun x =>
      .obj [("id", x), ("work_id", idv)]))) := by
  cases bs with
  | nil => simp [wrapRelField, hr, rset_eq_self hr]
  | cons b bs0 =>
    simp only [wrapRelField, hr, getId, hid, Bind.bind, Except.bind]

theorem wrapRelField_rgets {field : String} {r : RawObj} {o : Option (List JVal)}
    {idv : JVal}
    (hr : rget r field = o.map JVal.arr) (hid : rget r "id" = some idv) :
    ∃ r2, wrapRelField field r = .ok r2 ∧
      (∀ k, ¬ field = k → rget r2 k = rget r k) ∧
      rget r2 field = o.map fun bs => JVal.arr (bs.map fun x =>
        JVal.obj [("id", x), ("work_id", idv)]) := by
  cases o with
  | none =>
    simp only [Option.map_none'] at hr
    exact ⟨r, by simp [wrapRelField, hr], fun k _ => rfl, by simp [hr]⟩
  | some bs =>
    simp only [Option.map_some'] at hr
    refine ⟨_, wrapRelField_shape hr hid, fun k hk => rget_rset_ne r _ hk, ?_⟩
    simp [rget_rset_self]

theorem loc_zip_work_id {wid : String} (hw : StrSafe wid) {x : BaseWorkLocation}
    (h : BaseWorkLocation.Safe wid x) :
    rget (zipToObj BaseWorkLocation.sqlOrder (BaseWorkLocation.to_sql_values x)) "work_id" =
      some (.str wid) := by
  have : rget (zipToObj BaseWorkLocation.sqlOrder (BaseWorkLocation.to_sql_values x)) "work_id" =
      some (sqlToJVal (sqlOfOptStr x.work_id)) := rfl
  rw [this, h.1]
  simp [sqlOfOptStr, strToSql_safe hw, sqlToJVal]

theorem auth_zip_work_id {wid : String} (hw : StrSafe wid) {x : WorkAuthorship}
    (h : WorkAuthorship.Safe wid x) :
    rget (zipToObj WorkAuthorship.sqlOrder (WorkAuthorship.to_sql_values x)) "work_id" =
      some (.str wid) := by
  have : rget (zipToObj WorkAuthorship.sqlOrder (WorkAuthorship.to_sql_values x)) "work_id" =
      some (sqlToJVal (sqlOfOptStr x.work_id)) := rfl
  rw [this, h.1]
  simp [sqlOfOptStr, strToSql_safe hw, sqlToJVal]

theorem biblio_zip_work_id {wid : String} (hw : StrSafe wid) {x : WorkBiblio}
    (h : WorkBiblio.Safe wid x) :
    rget (zipToObj WorkBiblio.sqlOrder (WorkBiblio.to_sql_values x)) "work_id" =
      some (.str wid) := by
  have : rget (zipToObj WorkBiblio.sqlOrder (WorkBiblio.to_sql_values x)) "work_id" =
      some (sqlToJVal (sqlOfOptStr x.work_id)) := rfl
  rw [this, h.1]
  simp [sqlOfOptStr, strToSql_safe hw, sqlToJVal]

theorem topic_zip_work_id {wid : String} (hw : StrSafe wid) {x : WorkTopic}
    (h : WorkTopic.Safe wid x) :
    rget (zipToObj WorkTopic.sqlOrder (WorkTopic.to_sql_values x)) "work_id" =
      some (.str wid) := by
  have : rget (zipToObj WorkTopic.sqlOrder (WorkTopic.to_sql_values x)) "work_id" =
      some (sqlToJVal (sqlOfOptStr x.work_id)) := rfl
  rw [this, h.1]
  simp [sqlOfOptStr, strToSql_safe hw, sqlToJVal]

theorem concept_zip_work_id {wid : String} (hw : StrSafe wid) {x : WorkConcept}
    (h : WorkConcept.Safe wid x) :
    rget (zipToObj WorkConcept.sqlOrder (WorkConcept.to_sql_values x)) "work_id" =
      some (.str wid) := by
  have : rget (zipToObj WorkConcept.sqlOrder (WorkConcept.to_sql_values x)) "work_id" =
      some (sqlToJVal (sqlOfOptStr x.work_id)) := rfl
  rw [this, h.1]
  simp [sqlOfOptStr, strToSql_safe hw, sqlToJVal]

theorem ids_zip_work_id {wid : String} (hw : StrSafe wid) {x : WorkIDs}
    (h : WorkIDs.Safe wid x) :
    rget (zipToObj WorkIDs.sqlOrder (WorkIDs.to_sql_values x)) "work_id" =
      some (.str wid) := by
  have : rget (zipToObj WorkIDs.sqlOrder (WorkIDs.to_sql_values x)) "work_id" =
      some (sqlToJVal (strToSql x.work_id)) := rfl
  rw [this, h.1]
  simp [strToSql_safe hw, sqlToJVal]

theorem mesh_zip_work_id {wid : String} (hw : StrSafe wid) {x : WorkMesh}
    (h : WorkMesh.Safe wid x) :
    rget (zipToObj WorkMesh.sqlOrder (WorkMesh.to_sql_values x)) "work_id" =
      some (.str wid) := by
  have : rget (zipToObj WorkMesh.sqlOrder (WorkMesh.to_sql_values x)) "work_id" =
      some (sqlToJVal (sqlOfOptStr x.work_id)) := rfl
  rw [this, h.1]
  simp [sqlOfOptStr, strToSql_safe hw, sqlToJVal]

theorem oa_zip_work_id {wid : String} (hw : StrSafe wid) {x : WorkOpenAccess}
    (h : WorkOpenAccess.Safe wid x) :
    rget (zipToObj WorkOpenAccess.sqlOrder (WorkOpenAccess.to_sql_values x)) "work_id" =
      some (.str wid) := by
  have : rget (zipToObj WorkOpenAccess.sqlOrder (WorkOpenAccess.to_sql_values x)) "work_id" =
      some (sqlToJVal (sqlOfOptStr x.work_id)) := rfl
  rw [this, h.1]
  simp [sqlOfOptStr, strToSql_safe hw, sqlToJVal]

theorem auth_zip_no_institutions (a : WorkAuthorship) :
    check "institutions"
      (zipToObj WorkAuthorship.sqlOrder (WorkAuthorship.to_sql_values a)) = false := rfl

theorem locations_fix_cond (w : Work) (hw : StrSafe w.id)
    (h : OptAll (ListAll (BaseWorkLocation.Safe w.id)) w.locations) {r : RawObj}
    (hr : rget r "locations" = w.locations.map fun xs => JVal.arr (xs.map fun x =>
      JVal.obj (zipToObj BaseWorkLocation.sqlOrder (BaseWorkLocation.to_sql_values x)))) :
    rget r "locations" = none ∨ ∃ ys, rget r "locations" = some (.arr ys) ∧
      ∀ y ∈ ys, ∃ o, y = .obj o ∧ rget o "work_id" = some (.str w.id) := by
  cases hts : w.locations with
  | none =>
    left
    rw [hts] at hr
    exact hr
  | some ts =>
    right
    rw [hts] at hr h
    simp only [Option.map_some'] at hr
    simp only [OptAll] at h
    refine ⟨_, hr, ?_⟩
    intro y hy
    simp only [List.mem_map] at hy
    obtain ⟨t, ht, rfl⟩ := hy
    exact ⟨_, rfl, loc_zip_work_id hw (h t ht)⟩

theorem authorships_fix_cond (w : Work) (hw : StrSafe w.id)
    (h : OptAll (ListAll (WorkAuthorship.Safe w.id)) w.authorships) {r : RawObj}
    (hr : rget r "authorships" = w.authorships.map fun xs => JVal.arr (xs.map fun x =>
      JVal.obj (zipToObj WorkAuthorship.sqlOrder (WorkAuthorship.to_sql_values x)))) :
    rget r "authorships" = none ∨ ∃ ys, rget r "authorships" = some (.arr ys) ∧
      ∀ y ∈ ys, ∃ o, y = .obj o ∧ rget o "work_id" = some (.str w.id) := by
  cases hts : w.authorships with
  | none =>
    left
    rw [hts] at hr
    exact hr
  | some ts =>
    right
    rw [hts] at hr h
    simp only [Option.map_some'] at hr
    simp only [OptAll] at h
    refine ⟨_, hr, ?_⟩
    intro y hy
    simp only [List.mem_map] at hy
    obtain ⟨t, ht, rfl⟩ := hy
    exact ⟨_, rfl, auth_zip_work_id hw (h t ht)⟩

theorem topics_fix_cond (w : Work) (hw : StrSafe w.id)
    (h : OptAll (ListAll (WorkTopic.Safe w.id)) w.topics) {r : RawObj}
    (hr : rget r "topics" = w.topics.map fun xs => JVal.arr (xs.map fun x =>
      JVal.obj (zipToObj WorkTopic.sqlOrder (WorkTopic.to_sql_values x)))) :
    rget r "topics" = none ∨ ∃ ys, rget r "topics" = some (.arr ys) ∧
      ∀ y ∈ ys, ∃ o, y = .obj o ∧ rget o "work_id" = some (.str w.id) := by
  cases hts : w.topics with
  | none =>
    left
    rw [hts] at hr
    exact hr
  | some ts =>
    right
    rw [hts] at hr h
    simp only [Option.map_some'] at hr
    simp only [OptAll] at h
    refine ⟨_, hr, ?_⟩
    intro y hy
    simp only [List.mem_map] at hy
    obtain ⟨t, ht, rfl⟩ := hy
    exact ⟨_, rfl, topic_zip_work_id hw (h t ht)⟩

theorem concepts_fix_cond (w : Work) (hw : StrSafe w.id)
    (h : OptAll (ListAll (WorkConcept.Safe w.id)) w.concepts) {r : RawObj}
    (hr : rget r "concepts" = w.concepts.map fun xs => JVal.arr (xs.map fun x =>
      JVal.obj (zipToObj WorkConcept.sqlOrder (WorkConcept.to_sql_values x)))) :
    rget r "concepts" = none ∨ ∃ ys, rget r "concepts" = some (.arr ys) ∧
      ∀ y ∈ ys, ∃ o, y = .obj o ∧ rget o "work_id" = some (.str w.id) := by
  cases hts : w.concepts with
  | none =>
    left
    rw [hts] at hr
    exact hr
  | some ts =>
    right
    rw [hts] at hr h
    simp only [Option.map_some'] at hr
    simp only [OptAll] at h
    refine ⟨_, hr, ?_⟩
    intro y hy
    simp only [List.mem_map] at hy
    obtain ⟨t, ht, rfl⟩ := hy
    exact ⟨_, rfl, concept_zip_work_id hw (h t ht)⟩

theorem mesh_fix_cond (w : Work) (hw : StrSafe w.id)
    (h : OptAll (ListAll (WorkMesh.Safe w.id)) w.mesh) {r : RawObj}
    (hr : rget r "mesh" = w.mesh.map fun xs => JVal.arr (xs.map fun x =>
      JVal.obj (zipToObj WorkMesh.sqlOrder (WorkMesh.to_sql_values x)))) :
    rget r "mesh" = none ∨ ∃ ys, rget r "mesh" = some (.arr ys) ∧
      ∀ y ∈ ys, ∃ o, y = .obj o ∧ rget o "work_id" = some (.str w.id) := by
  cases hts : w.mesh with
  | none =>
    left
    rw [hts] at hr
    exact hr
  | some ts =>
    right
    rw [hts] at hr h
    simp only [Option.map_some'] at hr
    simp only [OptAll] at h
    refine ⟨_, hr, ?_⟩
    intro y hy
    simp only [List.mem_map] at hy
    obtain ⟨t, ht, rfl⟩ := hy
    exact ⟨_, rfl, mesh_zip_work_id hw (h t ht)⟩

theorem ids_fix_cond (w : Work) (hw : StrSafe w.id)
    (h : OptAll (WorkIDs.Safe w.id) w.ids) {r : RawObj}
    (hr : rget r "ids" = w.ids.map fun x =>
      JVal.obj (zipToObj WorkIDs.sqlOrder (WorkIDs.to_sql_values x))) :
    rget r "ids" = none ∨ ∃ o, rget r "ids" = some (.obj o) ∧
      rget o "work_id" = some (.str w.id) := by
  cases hts : w.ids with
  | none =>
    left
    rw [hts] at hr
    exact hr
  | some x =>
    right
    rw [hts] at hr h
    simp only [Option.map_some'] at hr
    simp only [OptAll] at h
    exact ⟨_, hr, ids_zip_work_id hw h⟩

theorem biblio_fix_cond (w : Work) (hw : StrSafe w.id)
    (h : OptAll (WorkBiblio.Safe w.id) w.biblio) {r : RawObj}
    (hr : rget r "biblio" = w.biblio.map fun x =>
      JVal.obj (zipToObj WorkBiblio.sqlOrder (WorkBiblio.to_sql_values x))) :
    rget r "biblio" = none ∨ ∃ o, rget r "biblio" = some (.obj o) ∧
      rget o "work_id" = some (.str w.id) := by
  cases hts : w.biblio with
  | none =>
    left
    rw [hts] at hr
    exact hr
  | some x =>
    right
    rw [hts] at hr h
    simp only [Option.map_some'] at hr
    simp only [OptAll] at h
    exact ⟨_, hr, biblio_zip_work_id hw h⟩

theorem open_access_fix_cond (w : Work) (hw : StrSafe w.id)
    (h : OptAll (WorkOpenAccess.Safe w.id) w.open_access) {r : RawObj}
    (hr : rget r "open_access" = w.open_access.map fun x =>
      JVal.obj (zipToObj WorkOpenAccess.sqlOrder (WorkOpenAccess.to_sql_values x))) :
    rget r "open_access" = none ∨ ∃ o, rget r "open_access" = some (.obj o) ∧
      rget o "work_id" = some (.str w.id) := by
  cases hts : w.open_access with
  | none =>
    left
    rw [hts] at hr
    exact hr
  | some x =>
    right
    rw [hts] at hr h
    simp only [Option.map_some'] at hr
    simp only [OptAll] at h
    exact ⟨_, hr, oa_zip_work_id hw h⟩

theorem primary_location_fix_cond (w : Work) (hw : StrSafe w.id)
    (h : OptAll (BaseWorkLocation.Safe w.id) w.primary_location) {r : RawObj}
    (hr : rget r "primary_location" = w.primary_location.map fun x =>
      JVal.obj (zipToObj BaseWorkLocation.sqlOrder (BaseWorkLocation.to_sql_values x))) :
    rget r "primary_location" = none ∨ ∃ o, rget r "primary_location" = some (.obj o) ∧
      rget o "work_id" = some (.str w.id) := by
  cases hts : w.primary_location with
  | none =>
    left
    rw [hts] at hr
    exact hr
  | some x =>
    right
    rw [hts] at hr h
    simp only [Option.map_some'] at hr
    simp only [OptAll] at h
    exact ⟨_, hr, loc_zip_work_id hw h⟩

theorem best_oa_location_fix_cond (w : Work) (hw : StrSafe w.id)
    (h : OptAll (BaseWorkLocation.SafeOA w.id) w.best_oa_location) {r : RawObj}
    (hr : rget r "best_oa_location" = w.best_oa_location.map fun x =>
      JVal.obj (zipToObj BaseWorkLocation.sqlOrder (BaseWorkLocation.to_sql_values x))) :
    rget r "best_oa_location" = none ∨ ∃ o, rget r "best_oa_location" = some (.obj o) ∧
      rget o "work_id" = some (.str w.id) := by
  cases hts : w.best_oa_location with
  | none =>
    left
    rw [hts] at hr
    exact hr
  | some x =>
    right
    rw [hts] at hr h
    simp only [Option.map_some'] at hr
    simp only [OptAll] at h
    exact ⟨_, hr, loc_zip_work_id hw h.1⟩

theorem authorships_flatten_cond (w : Work)
    (h : OptAll (ListAll (WorkAuthorship.Safe w.id)) w.authorships) {r : RawObj}
    (hr : rget r "authorships" = w.authorships.map fun xs => JVal.arr (xs.map fun x =>
      JVal.obj (zipToObj WorkAuthorship.sqlOrder (WorkAuthorship.to_sql_values x)))) :
    rget r "authorships" = none ∨ ∃ ys, rget r "authorships" = some (.arr ys) ∧
      ∀ y ∈ ys, ∃ o, y = .obj o ∧ check "institutions" o = false := by
  cases hts : w.authorships with
  | none =>
    left
    rw [hts] at hr
    exact hr
  | some ts =>
    right
    rw [hts] at hr
    simp only [Option.map_some'] at hr
    refine ⟨_, hr, ?_⟩
    intro y hy
    simp only [List.mem_map] at hy
    obtain ⟨t, ht, rfl⟩ := hy
    exact ⟨_, rfl, auth_zip_no_institutions t⟩

end OpenAlex

namespace OpenAlex

theorem parseBaseWorkLocation_rt {wid : String} (hw : StrSafe wid) {x : BaseWorkLocation}
    (h : BaseWorkLocation.Safe wid x) :
    parseBaseWorkLocation
      (zipToObj BaseWorkLocation.sqlOrder (BaseWorkLocation.to_sql_values x)) = .ok x := by
  obtain ⟨wk, sid, lp, pu, oav, ver, lic, src, acc, pub⟩ := x
  obtain ⟨h1, h2, h3, h4, h5, h6, h7, h8, h9⟩ := h
  have hwk : wk = some wid := h1
  have hsrc : src = none := h7
  have hacc : acc = none := h8
  have hpub : pub = none := h9
  subst hwk hsrc hacc hpub
  show (do
    let work_id ← pOpt pStr (some (sqlToJVal (sqlOfOptStr (some wid))))
    let source_id ← pOpt pStr (some (sqlToJVal (sqlOfOptStr sid)))
    let landing_page_url ← pOpt pStr (some (sqlToJVal (sqlOfOptStr lp)))
    let pdf_url ← pOpt pStr (some (sqlToJVal (sqlOfOptStr pu)))
    let is_oa ← pOpt pBool (some (sqlToJVal (sqlOfOptBool oav)))
    let version ← pOpt (pLit ["publishedVersion", "acceptedVersion", "submittedVersion"])
      (some (sqlToJVal (sqlOfOptStr ver)))
    let license ← pOpt pStr (some (sqlToJVal (sqlOfOptStr lic)))
    let source ← pOpt (pObjWith parseSource) none
    let is_accepted ← pOpt pBool none
    let is_published ← pOpt pBool none
    let base : BaseWorkLocation :=
      { work_id := work_id, source_id := source_id, landing_page_url := landing_page_url,
        pdf_url := pdf_url, is_oa := is_oa, version := version, license := license,
        source := source, is_accepted := is_accepted, is_published := is_published }
    match base.source with
    | some s => pure { base with source_id := some s.id }
    | none => pure base
    : Except String BaseWorkLocation) =
    Except.ok ⟨some wid, sid, lp, pu, oav, ver, lic, none, none, none⟩
  rw [optStr_rt (show OStrSafe (some wid) from hw), optStr_rt h2, optStr_rt h3,
    optStr_rt h4, optBool_rt oav, version_rt h5, optStr_rt h6]
  rfl

theorem parseWorkAuthorship_rt {wid : String} (hw : StrSafe wid) {x : WorkAuthorship}
    (h : WorkAuthorship.Safe wid x) :
    parseWorkAuthorship
      (zipToObj WorkAuthorship.sqlOrder (WorkAuthorship.to_sql_values x)) = .ok x := by
  obtain ⟨wk, pos, aid, iid, raf, au, cts, ins, isc, ran⟩ := x
  obtain ⟨h1, h2, h3, h4, h5, h6, h7, h8, h9, h10⟩ := h
  have hwk : wk = some wid := h1
  have hau : au = none := h6
  have hcts : cts = none := h7
  have hins : ins = none := h8
  have hisc : isc = none := h9
  have hran : ran = none := h10
  subst hwk hau hcts hins hisc hran
  show (do
    let work_id ← pOpt pStr (some (sqlToJVal (sqlOfOptStr (some wid))))
    let author_position ← pOpt (pLit ["first", "last", "middle"])
      (some (sqlToJVal (sqlOfOptStr pos)))
    let author_id ← pOpt pStr (some (sqlToJVal (sqlOfOptStr aid)))
    let institution_id ← pOpt pStr (some (sqlToJVal (sqlOfOptStr iid)))
    let raw_affiliation_string ← pOpt pStr (some (sqlToJVal (sqlOfOptStr raf)))
    let author ← pOpt (pObjWith parseDehydratedAuthor) none
    let countries ← pOpt pStrList none
    let institutions ← pOpt (fun v =>
      match v with
      | .arr xs => xs.mapM (pObjWith parseDehydratedInstitution)
      | _ => Except.error "list expected") none
    let is_corresponding ← pOpt pBool none
    let raw_author_name ← pOpt pStr none
    let a : WorkAuthorship :=
      { work_id := work_id, author_position := author_position, author_id := author_id,
        institution_id := institution_id, raw_affiliation_string := raw_affiliation_string,
        author := author, countries := countries, institutions := institutions,
        is_corresponding := is_corresponding, raw_author_name := raw_author_name }
    match a.author with
    | some au => if a.author_id = some au.id then pure a
                 else Except.error "author_id must match author.id"
    | none => pure a
    : Except String WorkAuthorship) =
    Except.ok ⟨some wid, pos, aid, iid, raf, none, none, none, none, none⟩
  rw [optStr_rt (show OStrSafe (some wid) from hw), position_rt h2, optStr_rt h3,
    optStr_rt h4, optStr_rt h5]
  rfl

theorem parseWorkBiblio_rt {wid : String} (hw : StrSafe wid) {x : WorkBiblio}
    (h : WorkBiblio.Safe wid x) :
    parseWorkBiblio (zipToObj WorkBiblio.sqlOrder (WorkBiblio.to_sql_values x)) = .ok x := by
  obtain ⟨wk, vol, iss, fp, lpg⟩ := x
  obtain ⟨h1, h2, h3, h4, h5⟩ := h
  have hwk : wk = some wid := h1
  subst hwk
  show (do
    let work_id ← pOpt pStr (some (sqlToJVal (sqlOfOptStr (some wid))))
    let volume ← pOpt pStr (some (sqlToJVal (sqlOfOptStr vol)))
    let issue ← pOpt pStr (some (sqlToJVal (sqlOfOptStr iss)))
    let first_page ← pOpt pStr (some (sqlToJVal (sqlOfOptStr fp)))
    let last_page ← pOpt pStr (some (sqlToJVal (sqlOfOptStr lpg)))
    pure { work_id := work_id, volume := volume, issue := issue, first_page := first_page,
           last_page := last_page }
    : Except String WorkBiblio) =
    Except.ok ⟨some wid, vol, iss, fp, lpg⟩
  rw [optStr_rt (show OStrSafe (some wid) from hw), optStr_rt h2, optStr_rt h3,
    optStr_rt h4, optStr_rt h5]
  rfl

theorem parseWorkTopic_rt {wid : String} (hw : StrSafe wid) {x : WorkTopic}
    (h : WorkTopic.Safe wid x) :
    parseWorkTopic (zipToObj WorkTopic.sqlOrder (WorkTopic.to_sql_values x)) = .ok x := by
  obtain ⟨wk, tid, sc, sub⟩ := x
  obtain ⟨h1, h2, h3⟩ := h
  have hwk : wk = some wid := h1
  have hsub : sub = none := h3
  subst hwk hsub
  show (do
    let work_id ← pOpt pStr (some (sqlToJVal (sqlOfOptStr (some wid))))
    let topic_id ← pOpt pStr (some (sqlToJVal (sqlOfOptStr tid)))
    let score ← pOpt pRat (some (sqlToJVal (sqlOfOptRat sc)))
    let subfield ← pOpt pDict none
    pure { work_id := work_id, topic_id := topic_id, score := score, subfield := subfield }
    : Except String WorkTopic) =
    Except.ok ⟨some wid, tid, sc, none⟩
  rw [optStr_rt (show OStrSafe (some wid) from hw), optStr_rt h2, optRat_rt sc]
  rfl

theorem parseWorkConcept_rt {wid : String} (hw : StrSafe wid) {x : WorkConcept}
    (h : WorkConcept.Safe wid x) :
    parseWorkConcept (zipToObj WorkConcept.sqlOrder (WorkConcept.to_sql_values x)) = .ok x := by
  obtain ⟨wk, cid, sc⟩ := x
  obtain ⟨h1, h2⟩ := h
  have hwk : wk = some wid := h1
  subst hwk
  show (do
    let work_id ← pOpt pStr (some (sqlToJVal (sqlOfOptStr (some wid))))
    let concept_id ← pOpt pStr (some (sqlToJVal (sqlOfOptStr cid)))
    let score ← pOpt pRat (some (sqlToJVal (sqlOfOptRat sc)))
    pure { work_id := work_id, concept_id := concept_id, score := score }
    : Except String WorkConcept) =
    Except.ok ⟨some wid, cid, sc⟩
  rw [optStr_rt (show OStrSafe (some wid) from hw), optStr_rt h2, optRat_rt sc]
  rfl

theorem parseWorkIDs_rt {wid : String} (hw : StrSafe wid) {x : WorkIDs}
    (h : WorkIDs.Safe wid x) :
    parseWorkIDs (zipToObj WorkIDs.sqlOrder (WorkIDs.to_sql_values x)) = .ok x := by
  obtain ⟨iwk, oax, dv, mg, pm, pc⟩ := x
  obtain ⟨h1, h2, h3, h4, h5⟩ := h
  have hwk : iwk = wid := h1
  subst hwk
  show (do
    let work_id ← pReqStr (some (sqlToJVal (strToSql iwk)))
    let openalex ← pOpt pStr (some (sqlToJVal (sqlOfOptStr oax)))
    let doi ← pOpt pStr (some (sqlToJVal (sqlOfOptStr dv)))
    let mag ← pOpt pInt (some (sqlToJVal (sqlOfOptInt mg)))
    let pmid ← pOpt pStr (some (sqlToJVal (sqlOfOptStr pm)))
    let pmcid ← pOpt pStr (some (sqlToJVal (sqlOfOptStr pc)))
    pure { work_id := work_id, openalex := openalex, doi := doi, mag := mag, pmid := pmid,
           pmcid := pmcid }
    : Except String WorkIDs) =
    Except.ok ⟨iwk, oax, dv, mg, pm, pc⟩
  rw [reqStr_rt hw, optStr_rt h2, optStr_rt h3, optInt_rt mg, optStr_rt h4, optStr_rt h5]
  rfl

theorem parseWorkMesh_rt {wid : String} (hw : StrSafe wid) {x : WorkMesh}
    (h : WorkMesh.Safe wid x) :
    parseWorkMesh (zipToObj WorkMesh.sqlOrder (WorkMesh.to_sql_values x)) = .ok x := by
  obtain ⟨wk, du, dn, qu, qn, imt⟩ := x
  obtain ⟨h1, h2, h3, h4, h5⟩ := h
  have hwk : wk = some wid := h1
  subst hwk
  show (do
    let work_id ← pOpt pStr (some (sqlToJVal (sqlOfOptStr (some wid))))
    let descriptor_ui ← pOpt pStr (some (sqlToJVal (sqlOfOptStr du)))
    let descriptor_name ← pOpt pStr (some (sqlToJVal (sqlOfOptStr dn)))
    let qualifier_ui ← pOpt pStr (some (sqlToJVal (sqlOfOptStr qu)))
    let qualifier_name ← pOpt pStr (some (sqlToJVal (sqlOfOptStr qn)))
    let is_major_topic ← pOpt pBool (some (sqlToJVal (sqlOfOptBool imt)))
    pure { work_id := work_id, descriptor_ui := descriptor_ui,
           descriptor_name := descriptor_name, qualifier_ui := qualifier_ui,
           qualifier_name := qualifier_name, is_major_topic := is_major_topic }
    : Except String WorkMesh) =
    Except.ok ⟨some wid, du, dn, qu, qn, imt⟩
  rw [optStr_rt (show OStrSafe (some wid) from hw), optStr_rt h2, optStr_rt h3,
    optStr_rt h4, optStr_rt h5, optBool_rt imt]
  rfl

theorem parseWorkOpenAccess_rt {wid : String} (hw : StrSafe wid) {x : WorkOpenAccess}
    (h : WorkOpenAccess.Safe wid x) :
    parseWorkOpenAccess
      (zipToObj WorkOpenAccess.sqlOrder (WorkOpenAccess.to_sql_values x)) = .ok x := by
  obtain ⟨wk, oav, oas, oau, arf⟩ := x
  obtain ⟨h1, h2, h3⟩ := h
  have hwk : wk = some wid := h1
  subst hwk
  show (do
    let work_id ← pOpt pStr (some (sqlToJVal (sqlOfOptStr (some wid))))
    let is_oa ← pOpt pBool (some (sqlToJVal (sqlOfOptBool oav)))
    let oa_status ← pOpt pStr (some (sqlToJVal (sqlOfOptStr oas)))
    let oa_url ← pOpt pStr (some (sqlToJVal (sqlOfOptStr oau)))
    let any_repository_has_fulltext ← pOpt pBool (some (sqlToJVal (sqlOfOptBool arf)))
    pure { work_id := work_id, is_oa := is_oa, oa_status := oa_status, oa_url := oa_url,
           any_repository_has_fulltext := any_repository_has_fulltext }
    : Except String WorkOpenAccess) =
    Except.ok ⟨some wid, oav, oas, oau, arf⟩
  rw [optStr_rt (show OStrSafe (some wid) from hw), optBool_rt oav, optStr_rt h2,
    optStr_rt h3, optBool_rt arf]
  rfl

theorem parseWorkReferencedWork_rt {wid : String} (hw : StrSafe wid)
    {x : WorkReferencedWork} (h : WorkReferencedWork.Safe wid x) :
    parseWorkReferencedWork [("id", sqlToJVal (sqlOfOptStr x.referenced_work_id)),
      ("work_id", .str wid)] = .ok x := by
  obtain ⟨wk, rid⟩ := x
  obtain ⟨h1, h2⟩ := h
  have hwk : wk = some wid := h1
  subst hwk
  show (do
    let work_id ← pOpt pStr (some (JVal.str wid))
    let referenced_work_id ← pOpt pStr (some (sqlToJVal (sqlOfOptStr rid)))
    pure { work_id := work_id, referenced_work_id := referenced_work_id }
    : Except String WorkReferencedWork) =
    Except.ok ⟨some wid, rid⟩
  rw [optStr_rt h2]
  rfl

theorem parseWorkRelatedWork_rt {wid : String} (hw : StrSafe wid)
    {x : WorkRelatedWork} (h : WorkRelatedWork.Safe wid x) :
    parseWorkRelatedWork [("id", sqlToJVal (sqlOfOptStr x.related_work_id)),
      ("work_id", .str wid)] = .ok x := by
  obtain ⟨wk, rid⟩ := x
  obtain ⟨h1, h2⟩ := h
  have hwk : wk = some wid := h1
  subst hwk
  show (do
    let work_id ← pOpt pStr (some (JVal.str wid))
    let related_work_id ← pOpt pStr (some (sqlToJVal (sqlOfOptStr rid)))
    pure { work_id := work_id, related_work_id := related_work_id }
    : Except String WorkRelatedWork) =
    Except.ok ⟨some wid, rid⟩
  rw [optStr_rt h2]
  rfl

end OpenAlex

namespace OpenAlex

theorem mapM_pObj_map {f : RawObj → Except String α} {g : α → RawObj} :
    ∀ {xs : List α}, (∀ x ∈ xs, f (g x) = .ok x) →
      (xs.map fun x => JVal.obj (g x)).mapM (pObjWith f) = .ok xs
  | [], _ => by rw [List.map_nil, List.mapM_nil]; rfl
  | a :: as, h => by
    rw [List.map_cons, List.mapM_cons]
    rw [show pObjWith f (JVal.obj (g a)) = f (g a) from rfl, h a (by simp)]
    rw [mapM_pObj_map (fun x hx => h x (by simp [hx]))]
    rfl

theorem pOpt_pListOf_arr {f : RawObj → Except String α} {l : List JVal} {xs : List α}
    (h : l.mapM (pObjWith f) = .ok xs) :
    pOpt (pListOf f) (some (.arr l)) = .ok (some xs) := by
  simp only [pOpt, pListOf]
  rw [h]
  rfl
/-- C1 (amended): on canonical Works within the SQL-safe fragment -- every
stored string neither ISO-datetime-shaped nor datetime-valued except the
canonical date fields, no JSON-dict column in use, and every subentity
carrying the root id as its foreign key, with no fields outside the SQL
schema -- `from_sql` applied to `project`'s root tuple and subtable rows
reconstructs the original Work exactly. -/
theorem claim_C1 (w : Work) (h : w.SqlSafe) :
    Work.from_sql (Work.project w).1 (Work.project w).2 = .ok w := by
  obtain ⟨hw, hdoi, htitle, hdn, hpd, hty, hcau, habs, hlang, hids, hlocs, hauths, hbib,
    htops, hcons, hmesh, hoa, hrefs, hrels, hboa, hploc, hapcl, hapcp, hcai, hcii, hcdc,
    hcd, hcby, hfto, hfwci, hgr, hhf, hii, hidc, hkw, hlic, hlocc, hpt, hsdg, htc, hud,
    hemb⟩ := h
  have h_id : rget (Work.fromSqlArgs w.to_sql_values w.projectSubs) "id" =
      some (sqlToJVal (strToSql w.id)) := fromSqlArgs_rget_root w (by decide) rfl
  have hid1 : rget (Work.fromSqlArgs w.to_sql_values w.projectSubs) "id" =
      some (JVal.str w.id) := by
    rw [h_id, strToSql_safe hw]
    rfl
  have hfa : Work.flattenAuths (Work.fromSqlArgs w.to_sql_values w.projectSubs) =
      .ok (Work.fromSqlArgs w.to_sql_values w.projectSubs) :=
    flattenAuths_fix (authorships_flatten_cond w hauths (fromSqlArgs_rget_authorships w))
  have hrel0 : rget (Work.fromSqlArgs w.to_sql_values w.projectSubs) "related_works" =
      (w.related_works.map fun xs => xs.map fun x =>
        sqlToJVal (sqlOfOptStr x.related_work_id)).map JVal.arr := by
    rw [fromSqlArgs_rget_related_works w]
    cases w.related_works <;> rfl
  obtain ⟨r2, hwr1, hne1, hf1⟩ := wrapRelField_rgets hrel0 hid1
  have hid2 : rget r2 "id" = some (JVal.str w.id) := by
    rw [hne1 "id" (by decide)]
    exact hid1
  have href0 : rget r2 "referenced_works" =
      (w.referenced_works.map fun xs => xs.map fun x =>
        sqlToJVal (sqlOfOptStr x.referenced_work_id)).map JVal.arr := by
    rw [hne1 "referenced_works" (by decide), fromSqlArgs_rget_referenced_works w]
    cases w.referenced_works <;> rfl
  obtain ⟨r3, hwr2, hne2, hf2⟩ := wrapRelField_rgets href0 hid2
  have hwrr : Work.wrapRefRel (Work.fromSqlArgs w.to_sql_values w.projectSubs) =
      .ok r3 := by
    simp only [Work.wrapRefRel, hwr1, Bind.bind, Except.bind, hwr2]
  have hT : ∀ k, ¬ "related_works" = k → ¬ "referenced_works" = k →
      rget r3 k = rget (Work.fromSqlArgs w.to_sql_values w.projectSubs) k := by
    intro k hk1 hk2
    rw [hne2 k hk2, hne1 k hk1]
  have h3_id : rget r3 "id" = some (JVal.str w.id) := by
    rw [hT "id" (by decide) (by decide)]
    exact hid1
  have h3_idr : rget r3 "id" = some (sqlToJVal (strToSql w.id)) := by
    rw [hT "id" (by decide) (by decide)]
    exact h_id
  have h3_doi : rget r3 "doi" = some (sqlToJVal (sqlOfOptStr w.doi)) := by
    rw [hT "doi" (by decide) (by decide)]
    exact fromSqlArgs_rget_root w (by decide) rfl
  have h3_title : rget r3 "title" = some (sqlToJVal (sqlOfOptStr w.title)) := by
    rw [hT "title" (by decide) (by decide)]
    exact fromSqlArgs_rget_root w (by decide) rfl
  have h3_display_name : rget r3 "display_name" = some (sqlToJVal (sqlOfOptStr w.display_name)) := by
    rw [hT "display_name" (by decide) (by decide)]
    exact fromSqlArgs_rget_root w (by decide) rfl
  have h3_publication_year : rget r3 "publication_year" = some (sqlToJVal (sqlOfOptInt w.publication_year)) := by
    rw [hT "publication_year" (by decide) (by decide)]
    exact fromSqlArgs_rget_root w (by decide) rfl
  have h3_publication_date : rget r3 "publication_date" = some (sqlToJVal (sqlOfOptStr w.publication_date)) := by
    rw [hT "publication_date" (by decide) (by decide)]
    exact fromSqlArgs_rget_root w (by decide) rfl
  have h3_type : rget r3 "type" = some (sqlToJVal (sqlOfOptStr w.type)) := by
    rw [hT "type" (by decide) (by decide)]
    exact fromSqlArgs_rget_root w (by decide) rfl
  have h3_cited_by_count : rget r3 "cited_by_count" = some (sqlToJVal (sqlOfOptInt w.cited_by_count)) := by
    rw [hT "cited_by_count" (by decide) (by decide)]
    exact fromSqlArgs_rget_root w (by decide) rfl
  have h3_is_retracted : rget r3 "is_retracted" = some (sqlToJVal (sqlOfOptBool w.is_retracted)) := by
    rw [hT "is_retracted" (by decide) (by decide)]
    exact fromSqlArgs_rget_root w (by decide) rfl
  have h3_is_paratext : rget r3 "is_paratext" = some (sqlToJVal (sqlOfOptBool w.is_paratext)) := by
    rw [hT "is_paratext" (by decide) (by decide)]
    exact fromSqlArgs_rget_root w (by decide) rfl
  have h3_cited_by_api_url : rget r3 "cited_by_api_url" = some (sqlToJVal (sqlOfOptStr w.cited_by_api_url)) := by
    rw [hT "cited_by_api_url" (by decide) (by decide)]
    exact fromSqlArgs_rget_root w (by decide) rfl
  have h3_abstract_inverted_index : rget r3 "abstract_inverted_index" = some (sqlToJVal (sqlOfOptObj w.abstract_inverted_index)) := by
    rw [hT "abstract_inverted_index" (by decide) (by decide)]
    exact fromSqlArgs_rget_root w (by decide) rfl
  have h3_language : rget r3 "language" = some (sqlToJVal (sqlOfOptStr w.language)) := by
    rw [hT "language" (by decide) (by decide)]
    exact fromSqlArgs_rget_root w (by decide) rfl
  have h3n_apc_list : rget r3 "apc_list" = none := by
    rw [hT "apc_list" (by decide) (by decide)]
    exact fromSqlArgs_rget_root w (by decide) rfl
  have h3n_apc_paid : rget r3 "apc_paid" = none := by
    rw [hT "apc_paid" (by decide) (by decide)]
    exact fromSqlArgs_rget_root w (by decide) rfl
  have h3n_corresponding_author_ids : rget r3 "corresponding_author_ids" = none := by
    rw [hT "corresponding_author_ids" (by decide) (by decide)]
    exact fromSqlArgs_rget_root w (by decide) rfl
  have h3n_corresponding_institution_ids : rget r3 "corresponding_institution_ids" = none := by
    rw [hT "corresponding_institution_ids" (by decide) (by decide)]
    exact fromSqlArgs_rget_root w (by decide) rfl
  have h3n_countries_distinct_count : rget r3 "countries_distinct_count" = none := by
    rw [hT "countries_distinct_count" (by decide) (by decide)]
    exact fromSqlArgs_rget_root w (by decide) rfl
  have h3n_created_date : rget r3 "created_date" = none := by
    rw [hT "created_date" (by decide) (by decide)]
    exact fromSqlArgs_rget_root w (by decide) rfl
  have h3n_counts_by_year : rget r3 "counts_by_year" = none := by
    rw [hT "counts_by_year" (by decide) (by decide)]
    exact fromSqlArgs_rget_root w (by decide) rfl
  have h3n_fulltext_origin : rget r3 "fulltext_origin" = none := by
    rw [hT "fulltext_origin" (by decide) (by decide)]
    exact fromSqlArgs_rget_root w (by decide) rfl
  have h3n_fwci : rget r3 "fwci" = none := by
    rw [hT "fwci" (by decide) (by decide)]
    exact fromSqlArgs_rget_root w (by decide) rfl
  have h3n_grants : rget r3 "grants" = none := by
    rw [hT "grants" (by decide) (by decide)]
    exact fromSqlArgs_rget_root w (by decide) rfl
  have h3n_has_fulltext : rget r3 "has_fulltext" = none := by
    rw [hT "has_fulltext" (by decide) (by decide)]
    exact fromSqlArgs_rget_root w (by decide) rfl
  have h3n_indexed_in : rget r3 "indexed_in" = none := by
    rw [hT "indexed_in" (by decide) (by decide)]
    exact fromSqlArgs_rget_root w (by decide) rfl
  have h3n_institutions_distinct_count : rget r3 "institutions_distinct_count" = none := by
    rw [hT "institutions_distinct_count" (by decide) (by decide)]
    exact fromSqlArgs_rget_root w (by decide) rfl
  have h3n_keywords : rget r3 "keywords" = none := by
    rw [hT "keywords" (by decide) (by decide)]
    exact fromSqlArgs_rget_root w (by decide) rfl
  have h3n_license : rget r3 "license" = none := by
    rw [hT "license" (by decide) (by decide)]
    exact fromSqlArgs_rget_root w (by decide) rfl
  have h3n_locations_count : rget r3 "locations_count" = none := by
    rw [hT "locations_count" (by decide) (by decide)]
    exact fromSqlArgs_rget_root w (by decide) rfl
  have h3n_primary_topic : rget r3 "primary_topic" = none := by
    rw [hT "primary_topic" (by decide) (by decide)]
    exact fromSqlArgs_rget_root w (by decide) rfl
  have h3n_sustainable_development_goals : rget r3 "sustainable_development_goals" = none := by
    rw [hT "sustainable_development_goals" (by decide) (by decide)]
    exact fromSqlArgs_rget_root w (by decide) rfl
  have h3n_type_crossref : rget r3 "type_crossref" = none := by
    rw [hT "type_crossref" (by decide) (by decide)]
    exact fromSqlArgs_rget_root w (by decide) rfl
  have h3n_updated_date : rget r3 "updated_date" = none := by
    rw [hT "updated_date" (by decide) (by decide)]
    exact fromSqlArgs_rget_root w (by decide) rfl
  have h3n_abstract_embedding_nomic_embed_text : rget r3 "abstract_embedding_nomic_embed_text" = none := by
    rw [hT "abstract_embedding_nomic_embed_text" (by decide) (by decide)]
    exact fromSqlArgs_rget_root w (by decide) rfl
  have h3_primary_location : rget r3 "primary_location" = w.primary_location.map fun x =>
      JVal.obj (zipToObj BaseWorkLocation.sqlOrder (BaseWorkLocation.to_sql_values x)) := by
    rw [hT "primary_location" (by decide) (by decide)]
    exact fromSqlArgs_rget_primary_location w
  have h3_best_oa_location : rget r3 "best_oa_location" = w.best_oa_location.map fun x =>
      JVal.obj (zipToObj BaseWorkLocation.sqlOrder (BaseWorkLocation.to_sql_values x)) := by
    rw [hT "best_oa_location" (by decide) (by decide)]
    exact fromSqlArgs_rget_best_oa_location w
  have h3_biblio : rget r3 "biblio" = w.biblio.map fun x =>
      JVal.obj (zipToObj WorkBiblio.sqlOrder (WorkBiblio.to_sql_values x)) := by
    rw [hT "biblio" (by decide) (by decide)]
    exact fromSqlArgs_rget_biblio w
  have h3_ids : rget r3 "ids" = w.ids.map fun x =>
      JVal.obj (zipToObj WorkIDs.sqlOrder (WorkIDs.to_sql_values x)) := by
    rw [hT "ids" (by decide) (by decide)]
    exact fromSqlArgs_rget_ids w
  have h3_open_access : rget r3 "open_access" = w.open_access.map fun x =>
      JVal.obj (zipToObj WorkOpenAccess.sqlOrder (WorkOpenAccess.to_sql_values x)) := by
    rw [hT "open_access" (by decide) (by decide)]
    exact fromSqlArgs_rget_open_access w
  have h3_locations : rget r3 "locations" = w.locations.map fun xs => JVal.arr (xs.map fun x =>
      JVal.obj (zipToObj BaseWorkLocation.sqlOrder (BaseWorkLocation.to_sql_values x))) := by
    rw [hT "locations" (by decide) (by decide)]
    exact fromSqlArgs_rget_locations w
  have h3_authorships : rget r3 "authorships" = w.authorships.map fun xs => JVal.arr (xs.map fun x =>
      JVal.obj (zipToObj WorkAuthorship.sqlOrder (WorkAuthorship.to_sql_values x))) := by
    rw [hT "authorships" (by decide) (by decide)]
    exact fromSqlArgs_rget_authorships w
  have h3_topics : rget r3 "topics" = w.topics.map fun xs => JVal.arr (xs.map fun x =>
      JVal.obj (zipToObj WorkTopic.sqlOrder (WorkTopic.to_sql_values x))) := by
    rw [hT "topics" (by decide) (by decide)]
    exact fromSqlArgs_rget_topics w
  have h3_concepts : rget r3 "concepts" = w.concepts.map fun xs => JVal.arr (xs.map fun x =>
      JVal.obj (zipToObj WorkConcept.sqlOrder (WorkConcept.to_sql_values x))) := by
    rw [hT "concepts" (by decide) (by decide)]
    exact fromSqlArgs_rget_concepts w
  have h3_mesh : rget r3 "mesh" = w.mesh.map fun xs => JVal.arr (xs.map fun x =>
      JVal.obj (zipToObj WorkMesh.sqlOrder (WorkMesh.to_sql_values x))) := by
    rw [hT "mesh" (by decide) (by decide)]
    exact fromSqlArgs_rget_mesh w
  have h3_referenced_works : rget r3 "referenced_works" =
      w.referenced_works.map fun xs => JVal.arr (xs.map fun x =>
        JVal.obj [("id", sqlToJVal (sqlOfOptStr x.referenced_work_id)),
          ("work_id", JVal.str w.id)]) := by
    rw [hf2]
    cases w.referenced_works <;> simp [List.map_map, Function.comp]
  have h3_related_works : rget r3 "related_works" =
      w.related_works.map fun xs => JVal.arr (xs.map fun x =>
        JVal.obj [("id", sqlToJVal (sqlOfOptStr x.related_work_id)),
          ("work_id", JVal.str w.id)]) := by
    rw [hne2 "related_works" (by decide), hf1]
    cases w.related_works <;> simp [List.map_map, Function.comp]
  have hc_ids := ids_fix_cond w hw hids h3_ids
  have hc_locs := locations_fix_cond w hw hlocs h3_locations
  have hc_auths := authorships_fix_cond w hw hauths h3_authorships
  have hc_bib := biblio_fix_cond w hw hbib h3_biblio
  have hc_tops := topics_fix_cond w hw htops h3_topics
  have hc_cons := concepts_fix_cond w hw hcons h3_concepts
  have hc_mesh := mesh_fix_cond w hw hmesh h3_mesh
  have hc_oa := open_access_fix_cond w hw hoa h3_open_access
  have hc_ploc := primary_location_fix_cond w hw hploc h3_primary_location
  have hc_boa := best_oa_location_fix_cond w hw hboa h3_best_oa_location
  have hrep3 : Work.rep3 r3 = .ok r3 :=
    rep3_fix (replicateObjFK_fix h3_id hc_boa) (replicateObjFK_fix h3_id hc_ploc)
      (replicateListFK_fix h3_id hc_locs)
  have hrep2 : Work.rep2 r3 = .ok r3 :=
    rep2_fix (replicateListFK_fix h3_id hc_tops) (replicateListFK_fix h3_id hc_cons)
      (replicateListFK_fix h3_id hc_mesh) (replicateObjFK_fix h3_id hc_oa)
  have hrep1 : Work.rep1 r3 = .ok r3 :=
    rep1_fix (replicateListFK_fix h3_id (Or.inl h3n_counts_by_year))
      (replicateObjFK_fix h3_id hc_ids) (replicateListFK_fix h3_id hc_locs)
      (replicateListFK_fix h3_id hc_auths) (replicateObjFK_fix h3_id hc_bib)
  have hbef : Work.before (Work.fromSqlArgs w.to_sql_values w.projectSubs) = .ok r3 := by
    simp only [Work.before, hfa, Bind.bind, Except.bind, hwrr, hrep3, hrep2, hrep1]
  have e_id : pReqStr (rget r3 "id") = .ok w.id := by
    rw [h3_idr]
    exact reqStr_rt hw
  have e_doi : pOpt pStr (rget r3 "doi") = .ok w.doi := by
    rw [h3_doi]
    exact optStr_rt hdoi
  have e_title : pOpt pStr (rget r3 "title") = .ok w.title := by
    rw [h3_title]
    exact optStr_rt htitle
  have e_dn : pOpt pStr (rget r3 "display_name") = .ok w.display_name := by
    rw [h3_display_name]
    exact optStr_rt hdn
  have e_pyr : pOpt pInt (rget r3 "publication_year") = .ok w.publication_year := by
    rw [h3_publication_year]
    exact optInt_rt w.publication_year
  have e_pdate : pOpt pDate8601 (rget r3 "publication_date") = .ok w.publication_date := by
    rw [h3_publication_date]
    exact date_rt hpd
  have e_type : pOpt pStr (rget r3 "type") = .ok w.type := by
    rw [h3_type]
    exact optStr_rt hty
  have e_cbc : pOpt pInt (rget r3 "cited_by_count") = .ok w.cited_by_count := by
    rw [h3_cited_by_count]
    exact optInt_rt w.cited_by_count
  have e_ret : pOpt pBool (rget r3 "is_retracted") = .ok w.is_retracted := by
    rw [h3_is_retracted]
    exact optBool_rt w.is_retracted
  have e_par : pOpt pBool (rget r3 "is_paratext") = .ok w.is_paratext := by
    rw [h3_is_paratext]
    exact optBool_rt w.is_paratext
  have e_cau : pOpt pStr (rget r3 "cited_by_api_url") = .ok w.cited_by_api_url := by
    rw [h3_cited_by_api_url]
    exact optStr_rt hcau
  have e_abs : pOpt pDict (rget r3 "abstract_inverted_index") =
      .ok w.abstract_inverted_index := by
    rw [h3_abstract_inverted_index, habs]
    rfl
  have e_vabs : validateAbstractIndex w.abstract_inverted_index =
      w.abstract_inverted_index := by
    rw [habs]
    rfl
  have e_lang : pOpt pStr (rget r3 "language") = .ok w.language := by
    rw [h3_language]
    exact optStr_rt hlang
  have e_ids : pOpt (pObjWith parseWorkIDs) (rget r3 "ids") = .ok w.ids := by
    rw [h3_ids]
    cases hc : w.ids with
    | none => rfl
    | some x =>
      rw [hc] at hids
      simp only [Option.map_some']
      simp [pOpt, pObjWith, parseWorkIDs_rt hw hids, Except.map]
  have e_bib : pOpt (pObjWith parseWorkBiblio) (rget r3 "biblio") = .ok w.biblio := by
    rw [h3_biblio]
    cases hc : w.biblio with
    | none => rfl
    | some x =>
      rw [hc] at hbib
      simp only [Option.map_some']
      simp [pOpt, pObjWith, parseWorkBiblio_rt hw hbib, Except.map]
  have e_oa : pOpt (pObjWith parseWorkOpenAccess) (rget r3 "open_access") =
      .ok w.open_access := by
    rw [h3_open_access]
    cases hc : w.open_access with
    | none => rfl
    | some x =>
      rw [hc] at hoa
      simp only [Option.map_some']
      simp [pOpt, pObjWith, parseWorkOpenAccess_rt hw hoa, Except.map]
  have e_ploc : pOpt (pObjWith parseBaseWorkLocation) (rget r3 "primary_location") =
      .ok w.primary_location := by
    rw [h3_primary_location]
    cases hc : w.primary_location with
    | none => rfl
    | some x =>
      rw [hc] at hploc
      simp only [Option.map_some']
      simp [pOpt, pObjWith, parseBaseWorkLocation_rt hw hploc, Except.map]
  have e_boa : pOpt (pObjWith parseBaseWorkLocation) (rget r3 "best_oa_location") =
      .ok w.best_oa_location := by
    rw [h3_best_oa_location]
    cases hc : w.best_oa_location with
    | none => rfl
    | some x =>
      rw [hc] at hboa
      simp only [Option.map_some']
      simp [pOpt, pObjWith, parseBaseWorkLocation_rt hw hboa.1, Except.map]
  have e_vboa : validateBestOA w.best_oa_location = .ok w.best_oa_location := by
    cases hc : w.best_oa_location with
    | none => rfl
    | some l =>
      rw [hc] at hboa
      have hl : l.is_oa = some true := hboa.2
      simp [validateBestOA, hl]
  have e_locs : pOpt (pListOf parseBaseWorkLocation) (rget r3 "locations") = .ok w.locations := by
    rw [h3_locations]
    cases hc : w.locations with
    | none => rfl
    | some xs =>
      rw [hc] at hlocs
      simp only [Option.map_some']
      exact pOpt_pListOf_arr (mapM_pObj_map (fun x hx => parseBaseWorkLocation_rt hw (hlocs x hx)))
  have e_auths : pOpt (pListOf parseWorkAuthorship) (rget r3 "authorships") = .ok w.authorships := by
    rw [h3_authorships]
    cases hc : w.authorships with
    | none => rfl
    | some xs =>
      rw [hc] at hauths
      simp only [Option.map_some']
      exact pOpt_pListOf_arr (mapM_pObj_map (fun x hx => parseWorkAuthorship_rt hw (hauths x hx)))
  have e_tops : pOpt (pListOf parseWorkTopic) (rget r3 "topics") = .ok w.topics := by
    rw [h3_topics]
    cases hc : w.topics with
    | none => rfl
    | some xs =>
      rw [hc] at htops
      simp only [Option.map_some']
      exact pOpt_pListOf_arr (mapM_pObj_map (fun x hx => parseWorkTopic_rt hw (htops x hx)))
  have e_cons : pOpt (pListOf parseWorkConcept) (rget r3 "concepts") = .ok w.concepts := by
    rw [h3_concepts]
    cases hc : w.concepts with
    | none => rfl
    | some xs =>
      rw [hc] at hcons
      simp only [Option.map_some']
      exact pOpt_pListOf_arr (mapM_pObj_map (fun x hx => parseWorkConcept_rt hw (hcons x hx)))
  have e_mesh : pOpt (pListOf parseWorkMesh) (rget r3 "mesh") = .ok w.mesh := by
    rw [h3_mesh]
    cases hc : w.mesh with
    | none => rfl
    | some xs =>
      rw [hc] at hmesh
      simp only [Option.map_some']
      exact pOpt_pListOf_arr (mapM_pObj_map (fun x hx => parseWorkMesh_rt hw (hmesh x hx)))
  have e_refs : pOpt (pListOf parseWorkReferencedWork) (rget r3 "referenced_works") = .ok w.referenced_works := by
    rw [h3_referenced_works]
    cases hc : w.referenced_works with
    | none => rfl
    | some xs =>
      rw [hc] at hrefs
      simp only [Option.map_some']
      exact pOpt_pListOf_arr (mapM_pObj_map (fun x hx => parseWorkReferencedWork_rt hw (hrefs x hx)))
  have e_rels : pOpt (pListOf parseWorkRelatedWork) (rget r3 "related_works") = .ok w.related_works := by
    rw [h3_related_works]
    cases hc : w.related_works with
    | none => rfl
    | some xs =>
      rw [hc] at hrels
      simp only [Option.map_some']
      exact pOpt_pListOf_arr (mapM_pObj_map (fun x hx => parseWorkRelatedWork_rt hw (hrels x hx)))
  have e_apcl : pOpt (pObjWith parseWorkAPC) (rget r3 "apc_list") = .ok w.apc_list := by
    rw [h3n_apc_list, hapcl]
    rfl
  have e_apcp : pOpt (pObjWith parseWorkAPC) (rget r3 "apc_paid") = .ok w.apc_paid := by
    rw [h3n_apc_paid, hapcp]
    rfl
  have e_cai : pOpt pStrList (rget r3 "corresponding_author_ids") = .ok w.corresponding_author_ids := by
    rw [h3n_corresponding_author_ids, hcai]
    rfl
  have e_cii : pOpt pStrList (rget r3 "corresponding_institution_ids") = .ok w.corresponding_institution_ids := by
    rw [h3n_corresponding_institution_ids, hcii]
    rfl
  have e_cdc : pOpt pInt (rget r3 "countries_distinct_count") = .ok w.countries_distinct_count := by
    rw [h3n_countries_distinct_count, hcdc]
    rfl
  have e_cd : pOpt pDate8601 (rget r3 "created_date") = .ok w.created_date := by
    rw [h3n_created_date, hcd]
    rfl
  have e_cby : pOpt (pListOf parseWorkCountByYear) (rget r3 "counts_by_year") = .ok w.counts_by_year := by
    rw [h3n_counts_by_year, hcby]
    rfl
  have e_fto : pOpt (pLit ["pdf", "ngrams"]) (rget r3 "fulltext_origin") = .ok w.fulltext_origin := by
    rw [h3n_fulltext_origin, hfto]
    rfl
  have e_fwci : pOpt pRat (rget r3 "fwci") = .ok w.fwci := by
    rw [h3n_fwci, hfwci]
    rfl
  have e_gr : pOpt (pListOf parseWorkGrant) (rget r3 "grants") = .ok w.grants := by
    rw [h3n_grants, hgr]
    rfl
  have e_hf : pOpt pBool (rget r3 "has_fulltext") = .ok w.has_fulltext := by
    rw [h3n_has_fulltext, hhf]
    rfl
  have e_ii : pOpt pStrList (rget r3 "indexed_in") = .ok w.indexed_in := by
    rw [h3n_indexed_in, hii]
    rfl
  have e_idc : pOpt pInt (rget r3 "institutions_distinct_count") = .ok w.institutions_distinct_count := by
    rw [h3n_institutions_distinct_count, hidc]
    rfl
  have e_kw : pOpt (pListOf parseWorkKeyword) (rget r3 "keywords") = .ok w.keywords := by
    rw [h3n_keywords, hkw]
    rfl
  have e_lic : pOpt pStr (rget r3 "license") = .ok w.license := by
    rw [h3n_license, hlic]
    rfl
  have e_locc : pOpt pInt (rget r3 "locations_count") = .ok w.locations_count := by
    rw [h3n_locations_count, hlocc]
    rfl
  have e_pt : pOpt (pObjWith parseWorkTopic) (rget r3 "primary_topic") = .ok w.primary_topic := by
    rw [h3n_primary_topic, hpt]
    rfl
  have e_sdg : pOpt (pListOf parseWorkSDG) (rget r3 "sustainable_development_goals") = .ok w.sustainable_development_goals := by
    rw [h3n_sustainable_development_goals, hsdg]
    rfl
  have e_tc : pOpt pStr (rget r3 "type_crossref") = .ok w.type_crossref := by
    rw [h3n_type_crossref, htc]
    rfl
  have e_ud : pOpt pDate8601 (rget r3 "updated_date") = .ok w.updated_date := by
    rw [h3n_updated_date, hud]
    rfl
  have e_emb : pOpt (pObjWith parseNomicEmbedText768) (rget r3 "abstract_embedding_nomic_embed_text") = .ok w.abstract_embedding_nomic_embed_text := by
    rw [h3n_abstract_embedding_nomic_embed_text, hemb]
    rfl
  have hpf : Work.parseFields r3 = .ok w := by
    simp only [Work.parseFields, e_id, e_doi, e_title, e_dn, e_pyr, e_pdate, e_type,
      e_cbc, e_ret, e_par, e_cau, e_abs, e_vabs, e_lang, e_ids, e_locs, e_auths, e_bib,
      e_tops, e_cons, e_mesh, e_oa, e_refs, e_rels, e_apcl, e_apcp, e_boa, e_vboa,
      e_cai, e_cii, e_cdc, e_cd, e_cby, e_fto, e_fwci, e_gr, e_hf, e_ii, e_idc, e_kw,
      e_lic, e_locc, e_ploc, e_pt, e_sdg, e_tc, e_ud, e_emb, Bind.bind, Except.bind]
    rfl
  show Work.parse (Work.fromSqlArgs w.to_sql_values w.projectSubs) = .ok w
  simp only [Work.parse, Bind.bind, Except.bind, hbef, hpf]

end OpenAlex

namespace OpenAlex

theorem claim_C1_witness :
    ({ id := "W1", topics := some [⟨some "W1", some "T1", none, none⟩], referenced_works := some [⟨some "W1", some "W2"⟩] } : Work).SqlSafe ∧
      Work.from_sql
        (Work.project { id := "W1", topics := some [⟨some "W1", some "T1", none, none⟩], referenced_works := some [⟨some "W1", some "W2"⟩] }).1
        (Work.project { id := "W1", topics := some [⟨some "W1", some "T1", none, none⟩], referenced_works := some [⟨some "W1", some "W2"⟩] }).2 =
      Except.ok { id := "W1", topics := some [⟨some "W1", some "T1", none, none⟩], referenced_works := some [⟨some "W1", some "W2"⟩] } :=
  ⟨by decide, claim_C1 _ (by decide)⟩

end OpenAlex
